import Mathlib

/-!
# Peregrinate: the 3D globe gallery

A shallow embedding of the gallery code of `src/js/globe-gallery-fixed.js`
(the object-literal variant, namespace `GlobeGalleryFixed`) and of
`src/js/globe-gallery.js` (the class variant, namespace `GlobeGallery`).

Numbers.  A JavaScript number is modelled over a linearly ordered field `α`
(the rationals when a definition is evaluated, the reals when the claim is
about exact real arithmetic).  A value of type `Option α` is a number that
may be non-finite: `none` stands for `NaN` or `±Infinity`.  The functions
`Math.sqrt`, `Math.cos`, `Math.sin` and the constant `Math.PI` are taken
as parameters (`MathOps`).
-/

namespace Peregrinate

/-! ## Numbers and vectors -/

/-- The part of the JavaScript `Math` object the gallery uses. -/
structure MathOps (α : Type) where
  PI : α
  sqrt : α → α
  cos : α → α
  sin : α → α

/-- The JavaScript `a / b` on finite operands: a zero divisor gives a
non-finite result (`0/0` is `NaN`, `a/0` is `±Infinity`). -/
def jsDiv {α : Type} [LinearOrderedField α] (a b : α) : Option α :=
  if b = 0 then none else some (a / b)

/-- The JavaScript `Math.sqrt(v)` on a finite operand: `NaN` below zero. -/
def jsSqrt {α : Type} [LinearOrderedField α] (M : MathOps α) (v : α) : Option α :=
  if v < 0 then none else some (M.sqrt v)

/-- The JavaScript `v || 1` on an optional number: `undefined` and `0` are falsy. -/
def orOne {α : Type} [LinearOrderedField α] (v : Option α) : α :=
  match v with
  | some x => if x = 0 then 1 else x
  | none => 1

/-- A `THREE.Vector2`. -/
structure Vector2 (β : Type) where
  x : β
  y : β
deriving DecidableEq, Repr

/-- A `THREE.Vector3`. -/
structure Vector3 (β : Type) where
  x : β
  y : β
  z : β
deriving DecidableEq, Repr

/-- The method `Vector3.multiplyScalar` on components that may be non-finite. -/
def Vector3.multiplyScalar {α : Type} [LinearOrderedField α]
    (v : Vector3 (Option α)) (s : α) : Vector3 (Option α) :=
  ⟨v.x.map (· * s), v.y.map (· * s), v.z.map (· * s)⟩

/-! ## The Fibonacci layout

The body of the `forEach` callback shared, letter for letter, by
`positionGalleryItems` (both files) and `rearrangeVisibleItems`. -/

/-- The position on the sphere of item `i` of `itemCount`:
```
const phi = Math.PI * (3 - Math.sqrt(5));
const y = 1 - (i / (itemCount - 1)) * 2;
const radius = Math.sqrt(1 - y * y);
const theta = phi * i;
const x = Math.cos(theta) * radius;
const z = Math.sin(theta) * radius;
const position = new THREE.Vector3(x, y, z).multiplyScalar(this.sphereRadius);
``` -/
def spherePosition {α : Type} [LinearOrderedField α] (M : MathOps α)
    (itemCount i : Nat) (sphereRadius : α) : Vector3 (Option α) :=
  let phi : α := M.PI * (3 - M.sqrt 5)
  let y : Option α := (jsDiv (i : α) ((itemCount : α) - 1)).map (fun t => 1 - t * 2)
  let radius : Option α := y.bind (fun y => jsSqrt M (1 - y * y))
  let theta : α := phi * (i : α)
  let x : Option α := radius.map (fun r => M.cos theta * r)
  let z : Option α := radius.map (fun r => M.sin theta * r)
  (Vector3.mk x y z).multiplyScalar sphereRadius

/-- The finite vector `(x, y, z)` as a vector of JavaScript numbers. -/
def Vector3.finite {α : Type} (x y z : α) : Vector3 (Option α) :=
  ⟨some x, some y, some z⟩

/-! ## The data model -/

/-- A `THREE.Mesh` of a gallery item.  `id` is the identity of the object,
which is what `item.mesh === object` compares; `scale` is `mesh.scale`. -/
structure Mesh (α : Type) where
  id : Nat
  position : Vector3 (Option α)
  scale : Vector3 α
  visible : Bool := true

/-- The glow plane the class variant creates behind a mesh. -/
structure GlowMesh (α : Type) where
  visible : Bool := true
  opacity : α

/-- One record of `galleryItems`, as pushed by `loadGalleryItems`, with the
fields added to it later (`originalScale`, `glowMesh`, `label`).  `element`
is the handle of the page element; `label` holds the `visible` flag of a
label object when there is one. -/
structure GalleryItem (α : Type) where
  element : Nat
  imgSrc : String
  category : String
  title : String
  dataCategory : String
  mesh : Option (Mesh α) := none
  visible : Bool := true
  originalScale : Option α := none
  glowMesh : Option (GlowMesh α) := none
  label : Option Bool := none

/-- A `THREE.PerspectiveCamera`: its parameters, the `z` of its position and
the aspect for which its projection matrix was last computed
(`updateProjectionMatrix`).  An aspect is a quotient and may be non-finite. -/
structure Camera (α : Type) where
  fov : α
  aspect : Option α
  near : α
  far : α
  positionZ : α
  projectionAspect : Option α

/-- A `THREE.WebGLRenderer`: the size last given to `setSize`. -/
structure Renderer where
  width : Nat
  height : Nat
deriving DecidableEq, Repr

/-- The `rotation.x` and `rotation.y` of one of the background spheres. -/
structure Rotation (α : Type) where
  x : α
  y : α

/-- The mutable fields of the gallery object that the modelled methods use.
`container` is the handle of the container element, `scene` tells whether
the scene object exists, `sphere` is the `rotation.y` of the wireframe
sphere, `controls` tells whether orbit controls were created, `listeners`
are the event listeners registered so far, `scheduledFrames` counts the
callbacks handed to `requestAnimationFrame` and `renderedFrames` the calls
of `renderer.render`; an absent object is `none` or `false`. -/
structure Gallery (α : Type) where
  galleryItems : List (GalleryItem α) := []
  INTERSECTED : Option Nat := none
  sphereRadius : α
  cursor : String := ""
  container : Option Nat := none
  isInitialized : Bool := false
  darkMode : Bool := false
  raycaster : Bool := false
  mouse : Option (Vector2 (Option α)) := none
  scene : Bool := false
  camera : Option (Camera α) := none
  renderer : Option Renderer := none
  sphere : Option α := none
  innerSphere : Option (Rotation α) := none
  bgSphere : Option (Rotation α) := none
  controls : Bool := false
  listeners : List String := []
  scheduledFrames : Nat := 0
  renderedFrames : Nat := 0

/-- An `img` element. -/
structure ImgElement where
  src : String
  alt : String

/-- A `.gallery-item` element of the page: its handle, its `img` child, the
text of its `.gallery-category` and `.gallery-overlay span` children and
its `data-category` attribute, each absent or present. -/
structure GalleryEntry where
  element : Nat
  img : Option ImgElement := none
  categoryLabel : Option String := none
  caption : Option String := none
  dataCategory : Option String := none

/-- The JavaScript `s || d` on an optional string: `undefined`, `null` and `''` are falsy. -/
def orString (s : Option String) (d : String) : String :=
  match s with
  | some v => if v = "" then d else v
  | none => d

/-- A position transition started with `gsap.to(item.mesh.position, ...)`:
the index of the item in `galleryItems` and the target position. -/
structure Tween (α : Type) where
  item : Nat
  target : Vector3 (Option α)

/-- One record of the array returned by `Raycaster.intersectObjects`. -/
structure Intersection (α : Type) where
  distance : α
  object : Mesh α

/-- Modelled from the spec: `Raycaster.intersectObjects` of the rendering
library, which is not part of the sources.  `ray m` is the distance at which
the picking ray meets the mesh `m`, if it does; the result holds the
candidates the ray meets, nearest first. -/
def intersectObjects {α : Type} [LinearOrderedField α] (ray : Mesh α → Option α)
    (objects : List (Mesh α)) : List (Intersection α) :=
  (objects.filterMap (fun m => (ray m).map (fun d => Intersection.mk d m))).insertionSort
    (fun a b => a.distance ≤ b.distance)

/-- Apply `f` to the item at index `j`, the effect of a mutation through a
reference to that item. -/
def modifyItem {α : Type} (j : Nat) (f : GalleryItem α → GalleryItem α)
    (items : List (GalleryItem α)) : List (GalleryItem α) :=
  items.mapIdx (fun i item => if i = j then f item else item)

/-- The array `this.galleryItems.filter(item => item.mesh && item.visible !== false)
.map(item => item.mesh)` of `checkIntersections` and `onMouseClick`. -/
def validMeshes {α : Type} (items : List (GalleryItem α)) : List (Mesh α) :=
  (items.filter (fun item => item.mesh.isSome && item.visible != false)).filterMap
    (fun item => item.mesh)

/-- The lookup `this.galleryItems.find(item => item.mesh === object)`; the item found
is named by its index. -/
def findItem {α : Type} (items : List (GalleryItem α)) (object : Mesh α) : Option Nat :=
  items.findIdx? (fun item =>
    match item.mesh with
    | some m => m.id == object.id
    | none => false)

/-- The value read from the active filter button by `updateVisibleItems`:
`activeFilter ? activeFilter.getAttribute('data-filter') : 'all'`.  The
argument is `none` when no button is active, and holds the attribute (absent
or present) otherwise. -/
def filterValue (activeFilter : Option (Option String)) : Option String :=
  match activeFilter with
  | some value => value
  | none => some "all"

/-- The test `filterValue === 'all' || item.dataCategory === filterValue`. -/
def isVisible {α : Type} (fv : Option String) (item : GalleryItem α) : Bool :=
  fv == some "all" || some item.dataCategory == fv

/-! ## The page and the frame -/

/-- What the gallery reads of the page: the elements that have an id, the
`.gallery-item` entries in document order, the `dark-theme` class of the
body, whether a `.theme-toggle` element exists, the client size of the
container, whether the 3D library is loaded (the global `THREE` is
defined), whether `new THREE.WebGLRenderer` succeeds and whether
`THREE.OrbitControls` is defined. -/
structure Page where
  elements : List (String × Nat) := []
  entries : List GalleryEntry := []
  darkTheme : Bool := false
  themeToggle : Bool := true
  clientWidth : Nat := 0
  clientHeight : Nat := 0
  three : Bool := true
  webgl : Bool := true
  orbitControls : Bool := true

/-- The call `document.getElementById(id)`. -/
def Page.getElementById (page : Page) (id : String) : Option Nat :=
  page.elements.lookup id

/-- What one run of `animate` takes from outside the gallery object:
`Date.now() * 0.001`, the picking ray for the current pointer and camera,
and whether the library calls `controls.update()` and `renderer.render()`
raise. -/
structure Frame (α : Type) where
  time : α
  ray : Mesh α → Option α
  controlsUpdateThrows : Bool := false
  renderThrows : Bool := false

/-! ## Vector methods of the rendering library -/

/-- The method `Vector3.length`: `Math.sqrt(x * x + y * y + z * z)`, `NaN` when a
component is not finite. -/
def Vector3.length {α : Type} [LinearOrderedField α] (M : MathOps α)
    (v : Vector3 (Option α)) : Option α :=
  v.x.bind (fun x => v.y.bind (fun y => v.z.map (fun z => M.sqrt (x * x + y * y + z * z))))

/-- The method `Vector3.normalize`: `divideScalar(length() || 1)`, where
`divideScalar(s)` is `multiplyScalar(1 / s)`. -/
def Vector3.normalize {α : Type} [LinearOrderedField α] (M : MathOps α)
    (v : Vector3 (Option α)) : Vector3 (Option α) :=
  v.multiplyScalar (1 / orOne (v.length M))

/-- The method `Vector3.add` on components that may be non-finite. -/
def Vector3.add {α : Type} [LinearOrderedField α] (v w : Vector3 (Option α)) :
    Vector3 (Option α) :=
  ⟨v.x.bind (fun a => w.x.map (fun b => a + b)), v.y.bind (fun a => w.y.map (fun b => a + b)),
    v.z.bind (fun a => w.z.map (fun b => a + b))⟩

/-- The method `Vector3.lerp`: `this.x += (v.x - this.x) * alpha`, and so for `y` and `z`. -/
def Vector3.lerp {α : Type} [LinearOrderedField α] (v w : Vector3 (Option α)) (alpha : α) :
    Vector3 (Option α) :=
  ⟨v.x.bind (fun a => w.x.map (fun b => a + (b - a) * alpha)),
    v.y.bind (fun a => w.y.map (fun b => a + (b - a) * alpha)),
    v.z.bind (fun a => w.z.map (fun b => a + (b - a) * alpha))⟩

/-! ## `globe-gallery-fixed.js` -/

namespace GlobeGalleryFixed

/-- The method `loadGalleryItems`: one record is pushed for each entry that has an `img`. -/
def loadGalleryItems {α : Type} (entries : List GalleryEntry)
    (galleryItems : List (GalleryItem α)) : List (GalleryItem α) :=
  galleryItems ++ entries.filterMap (fun entry =>
    match entry.img with
    | none => none
    | some img => some
        { element := entry.element
          imgSrc := img.src
          category := orString entry.categoryLabel ""
          title := orString entry.caption img.alt
          dataCategory := orString entry.dataCategory ""
          mesh := none
          visible := true })

/-- The method `positionGalleryItems`, as far as positions go: for each item
in turn, the position with which its mesh is created once its texture has loaded. -/
def positionGalleryItems {α : Type} [LinearOrderedField α] (M : MathOps α)
    (g : Gallery α) : List (Vector3 (Option α)) :=
  let itemCount := g.galleryItems.length
  if itemCount = 0 then []
  else g.galleryItems.mapIdx (fun i _ => spherePosition M itemCount i g.sphereRadius)

/-- The method `updateVisibleItems` of the object-literal variant. -/
def updateVisibleItems {α : Type} (activeFilter : Option (Option String))
    (g : Gallery α) : Gallery α :=
  let fv := filterValue activeFilter
  { g with galleryItems := g.galleryItems.map (fun item =>
      { item with
        visible := isVisible fv item
        mesh := item.mesh.map (fun m => { m with visible := isVisible fv item }) }) }

/-- The statement `item.mesh.scale.set(item.originalScale || 1, ...)`, guarded by `item.mesh`. -/
def resetScale {α : Type} [LinearOrderedField α] (item : GalleryItem α) : GalleryItem α :=
  { item with mesh := item.mesh.map (fun m =>
      { m with scale := ⟨orOne item.originalScale, orOne item.originalScale,
                         orOne item.originalScale⟩ }) }

/-- The loop "Reset all items except the currently intersected one". -/
def resetOthers {α : Type} [LinearOrderedField α] (g : Gallery α) : List (GalleryItem α) :=
  g.galleryItems.mapIdx (fun i item => if some i = g.INTERSECTED then item else resetScale item)

/-- The two statements on the new `INTERSECTED` item: cache `originalScale`
from `mesh.scale.x` when it is falsy, then scale the mesh to
`originalScale * 1.15`; both are guarded by `this.INTERSECTED.mesh`. -/
def highlight {α : Type} [LinearOrderedField α] (item : GalleryItem α) : GalleryItem α :=
  match item.mesh with
  | none => item
  | some m =>
    let original : α :=
      match item.originalScale with
      | some v => if v = 0 then m.scale.x else v
      | none => m.scale.x
    { item with
      originalScale := some original
      mesh := some { m with scale := ⟨original * 1.15, original * 1.15, original * 1.15⟩ } }

/-- The constant `intersectedItem` of `checkIntersections`: the item found for
`intersects[0].object`, looked up after the reset loop. -/
def intersectedItem {α : Type} [LinearOrderedField α] (ray : Mesh α → Option α)
    (g : Gallery α) : Option Nat :=
  (intersectObjects ray (validMeshes g.galleryItems)).head?.bind
    (fun hit => findItem (resetOthers g) hit.object)

/-- The method `checkIntersections`. -/
def checkIntersections {α : Type} [LinearOrderedField α] (ray : Mesh α → Option α)
    (g : Gallery α) : Gallery α :=
  let valid := validMeshes g.galleryItems
  if valid.length = 0 then g
  else
    let intersects := intersectObjects ray valid
    let items := resetOthers g
    if intersects.length > 0 then
      match intersectedItem ray g with
      | some j =>
        if some j = g.INTERSECTED then { g with galleryItems := items }
        else
          let restored :=
            match g.INTERSECTED with
            | some p => modifyItem p resetScale items
            | none => items
          { g with
            galleryItems := modifyItem j highlight restored
            INTERSECTED := some j
            cursor := "pointer" }
      | none => { g with galleryItems := items }
    else
      match g.INTERSECTED with
      | some p =>
        { g with
          galleryItems := modifyItem p resetScale items
          INTERSECTED := none
          cursor := "auto" }
      | none => { g with galleryItems := items }

/-- The constant `item` of `onMouseClick`: the item found for `intersects[0].object`. -/
def clickedItem {α : Type} [LinearOrderedField α] (ray : Mesh α → Option α)
    (g : Gallery α) : Option Nat :=
  let valid := validMeshes g.galleryItems
  if valid.length = 0 then none
  else (intersectObjects ray valid).head?.bind (fun hit => findItem g.galleryItems hit.object)

/-- The method `onMouseClick`: the page element that receives the synthetic
click, if any.  The gallery itself is not written to. -/
def onMouseClick {α : Type} [LinearOrderedField α] (ray : Mesh α → Option α)
    (g : Gallery α) : Option Nat :=
  (clickedItem ray g).bind (fun j => g.galleryItems[j]?.map (fun item => item.element))

/-- The gallery object before `init`: the initial values of the object literal. -/
def initial {α : Type} [LinearOrderedField α] : Gallery α :=
  { galleryItems := [], INTERSECTED := none, sphereRadius := 2, cursor := "" }

/-- The method `initScene`, whose body is one `try`: without the 3D library
the first statement, `new THREE.Scene()`, raises and nothing is written;
otherwise scene and camera are created first, the renderer next; when the
renderer cannot be created the exception is caught and the spheres, the
texture loads and the controls are never reached.  The texture loads started
by `positionGalleryItems` install their meshes later. -/
def initScene {α : Type} [LinearOrderedField α] (page : Page) (g : Gallery α) : Gallery α :=
  if !page.three then g
  else
    let aspect : Option α := jsDiv (page.clientWidth : α) (page.clientHeight : α)
    let g1 : Gallery α :=
      { g with
        scene := true
        camera := some { fov := 60, aspect := aspect, near := 0.1, far := 1000, positionZ := 5,
                         projectionAspect := aspect } }
    if page.webgl then
      { g1 with
        renderer := some ⟨page.clientWidth, page.clientHeight⟩
        bgSphere := some ⟨0, 0⟩
        sphere := some 0
        innerSphere := some ⟨0, 0⟩
        controls := page.orbitControls }
    else g1

/-- The method `addEventListeners`; without a container the first
`addEventListener` raises and the exception is caught. -/
def addEventListeners {α : Type} (page : Page) (g : Gallery α) : Gallery α :=
  match g.container with
  | none => g
  | some _ =>
    { g with
      listeners := g.listeners ++ ["container mousemove", "container click", "window resize"] ++
        (if page.themeToggle then ["theme-toggle click"] else []) }

/-- The method `render`; an exception of `renderer.render` is caught. -/
def render {α : Type} (frame : Frame α) (g : Gallery α) : Gallery α :=
  if g.renderer.isSome && g.scene && g.camera.isSome then
    if frame.renderThrows then g else { g with renderedFrames := g.renderedFrames + 1 }
  else g

/-- The floating motion of `animate` on one mesh position:
```
const phase = index * 0.2;
const floatOffset = Math.sin(time + phase) * 0.02;
const dir = new THREE.Vector3().copy(item.mesh.position).normalize();
const floatPos = new THREE.Vector3().copy(item.mesh.position);
floatPos.add(dir.multiplyScalar(floatOffset));
item.mesh.position.lerp(floatPos, 0.1);
``` -/
def floatPosition {α : Type} [LinearOrderedField α] (M : MathOps α) (time : α) (index : Nat)
    (position : Vector3 (Option α)) : Vector3 (Option α) :=
  let phase : α := (index : α) * 0.2
  let floatOffset : α := M.sin (time + phase) * 0.02
  let dir := position.normalize M
  let floatPos := position.add (dir.multiplyScalar floatOffset)
  position.lerp floatPos 0.1

/-- The callback of the floating loop: only an item with a mesh and `visible !== false` moves. -/
def floatItem {α : Type} [LinearOrderedField α] (M : MathOps α) (time : α) (index : Nat)
    (item : GalleryItem α) : GalleryItem α :=
  match item.mesh with
  | some m =>
    if item.visible != false then
      { item with mesh := some { m with position := floatPosition M time index m.position } }
    else item
  | none => item

/-- The `try` block of `animate`, `rotationSpeed` being `0.001`: the result, or
the exception raised.  Without controls the wireframe sphere is rotated
(`this.sphere.rotation.y` raises when there is no sphere) together with the
meshes, whose rotation is not part of this model; with controls,
`controls.update()` is called and the items float.  Both exceptions are
raised before the block has written anything. -/
def animateBody {α : Type} [LinearOrderedField α] (M : MathOps α) (frame : Frame α)
    (g : Gallery α) : Except String (Gallery α) :=
  let moved : Except String (Gallery α) :=
    if !g.controls then
      match g.sphere with
      | none => Except.error "TypeError: this.sphere is null"
      | some r => Except.ok { g with sphere := some (r + 0.001) }
    else if frame.controlsUpdateThrows then Except.error "controls.update raised"
    else Except.ok { g with galleryItems := g.galleryItems.mapIdx (floatItem M frame.time) }
  match moved with
  | Except.error e => Except.error e
  | Except.ok g1 =>
    let g2 : Gallery α :=
      { g1 with
        bgSphere := g1.bgSphere.map (fun r => ⟨r.x + 0.001 * 0.05, r.y + 0.001 * 0.1⟩)
        innerSphere := g1.innerSphere.map (fun r => ⟨r.x + 0.001 * 0.1, r.y - 0.001 * 0.3⟩) }
    Except.ok (render frame (checkIntersections frame.ray g2))

/-- The method `animate`: nothing before `isInitialized` is set; otherwise the
next frame is requested first and the body runs in a `try` whose `catch`
only logs. -/
def animate {α : Type} [LinearOrderedField α] (M : MathOps α) (frame : Frame α)
    (g : Gallery α) : Gallery α :=
  if !g.isInitialized then g
  else
    let g1 : Gallery α := { g with scheduledFrames := g.scheduledFrames + 1 }
    match animateBody M frame g1 with
    | Except.ok g2 => g2
    | Except.error _ => g1

/-- The method `init`, whose body is one `try`.  `frame` is the environment
of the call of `animate` it makes.  Without the container it returns at
once.  Without the 3D library `new THREE.Raycaster()` raises; the exception
is caught by the `catch` of `init`, which only logs, so `init` ends there
with `container` and `darkMode` written and nothing else.  The three
methods called next catch their own exceptions. -/
def init {α : Type} [LinearOrderedField α] (M : MathOps α) (frame : Frame α) (page : Page)
    (containerId : String) (g : Gallery α) : Gallery α :=
  match page.getElementById containerId with
  | none => { g with container := none }
  | some c =>
    let g0 : Gallery α := { g with container := some c, darkMode := page.darkTheme }
    if !page.three then g0
    else
      let g1 : Gallery α := { g0 with raycaster := true, mouse := some ⟨some 0, some 0⟩ }
      let g2 : Gallery α :=
        { g1 with galleryItems := loadGalleryItems page.entries g1.galleryItems }
      let g3 := initScene page g2
      let g4 := addEventListeners page g3
      let g5 := animate M frame g4
      { g5 with isInitialized := true }

/-- The method `onWindowResize` for a container of the given client size.
Without a camera the first assignment raises, without a renderer `setSize`
does, after the camera was updated; both exceptions are caught. -/
def onWindowResize {α : Type} [LinearOrderedField α] (clientWidth clientHeight : Nat)
    (g : Gallery α) : Gallery α :=
  if !g.isInitialized then g
  else
    match g.camera with
    | none => g
    | some camera =>
      let aspect : Option α := jsDiv (clientWidth : α) (clientHeight : α)
      let g1 : Gallery α :=
        { g with camera := some { camera with aspect := aspect, projectionAspect := aspect } }
      match g1.renderer with
      | none => g1
      | some _ => { g1 with renderer := some ⟨clientWidth, clientHeight⟩ }

/-- The method `onMouseMove` for a pointer event at `(clientX, clientY)`,
a bounding rectangle of the container that starts at `(left, top)` and a
container of the given client size:
```
this.mouse.x = ((event.clientX - rect.left) / this.container.clientWidth) * 2 - 1;
this.mouse.y = -((event.clientY - rect.top) / this.container.clientHeight) * 2 + 1;
```
Without a container or without the `mouse` vector an exception is raised and caught. -/
def onMouseMove {α : Type} [LinearOrderedField α] (clientX clientY left top : α)
    (clientWidth clientHeight : Nat) (g : Gallery α) : Gallery α :=
  match g.container, g.mouse with
  | some _, some _ =>
    { g with
      mouse := some
        ⟨(jsDiv (clientX - left) (clientWidth : α)).map (fun q => q * 2 - 1),
          (jsDiv (clientY - top) (clientHeight : α)).map (fun q => -q * 2 + 1)⟩ }
  | _, _ => g

/-- The gallery states the object-literal variant can be in: the state after
`loadGalleryItems`, and from there a texture callback that installs a fresh
mesh on an item that has none (scale `0.9 + Math.random() * 0.2`), a change
of mesh positions (the floating motion of `animate`), a call of
`updateVisibleItems` and a call of `checkIntersections`. -/
inductive Reachable {α : Type} [LinearOrderedField α] : Gallery α → Prop
  | load (entries : List GalleryEntry) :
      Reachable { (initial : Gallery α) with galleryItems := loadGalleryItems entries [] }
  | textureLoaded (g : Gallery α) (i : Nat) (item : GalleryItem α) (m : Mesh α) (scale : α) :
      Reachable g →
      g.galleryItems[i]? = some item → item.mesh = none →
      (∀ other ∈ g.galleryItems, ∀ m', other.mesh = some m' → m'.id ≠ m.id) →
      m.visible = true → m.scale = ⟨scale, scale, scale⟩ → 0.9 ≤ scale → scale < 1.1 →
      Reachable { g with
        galleryItems := modifyItem i (fun it => { it with mesh := some m }) g.galleryItems }
  | moved (g : Gallery α) (position : Nat → Vector3 (Option α)) :
      Reachable g →
      Reachable { g with galleryItems := g.galleryItems.mapIdx (fun i it =>
        { it with mesh := it.mesh.map (fun m => { m with position := position i }) }) }
  | updateVisibleItems (g : Gallery α) (activeFilter : Option (Option String)) :
      Reachable g → Reachable (updateVisibleItems activeFilter g)
  | checkIntersections (g : Gallery α) (ray : Mesh α → Option α) :
      Reachable g → Reachable (checkIntersections ray g)

end GlobeGalleryFixed

/-! ## `globe-gallery.js` -/

namespace GlobeGallery

/-- The method `positionGalleryItems` of the class variant, as far as positions go. -/
def positionGalleryItems {α : Type} [LinearOrderedField α] (M : MathOps α)
    (g : Gallery α) : List (Vector3 (Option α)) :=
  let itemCount := g.galleryItems.length
  if itemCount = 0 then []
  else g.galleryItems.mapIdx (fun i _ => spherePosition M itemCount i g.sphereRadius)

/-- The array `this.galleryItems.filter(item => item.visible)`, each item with its
index in `galleryItems`. -/
def visibleItems {α : Type} (g : Gallery α) : List (Nat × GalleryItem α) :=
  g.galleryItems.enum.filter (fun p => p.2.visible)

/-- The method `rearrangeVisibleItems`: the transitions it starts.  A visible
item without a mesh is skipped (`if (!item.mesh) return;`) and keeps its
place in the numbering. -/
def rearrangeVisibleItems {α : Type} [LinearOrderedField α] (M : MathOps α)
    (g : Gallery α) : List (Tween α) :=
  let itemCount := (visibleItems g).length
  if itemCount = 0 then []
  else (visibleItems g).enum.filterMap (fun q =>
    if q.2.2.mesh.isSome then
      some (Tween.mk q.2.1 (spherePosition M itemCount q.1 g.sphereRadius))
    else none)

/-- The visibility loop of `updateVisibleItems` in the class variant: the
flag of the item, of its mesh, of its glow mesh and of its label. -/
def setVisibility {α : Type} (fv : Option String) (item : GalleryItem α) : GalleryItem α :=
  { item with
    visible := isVisible fv item
    mesh := item.mesh.map (fun m => { m with visible := isVisible fv item })
    glowMesh := item.glowMesh.map (fun m => { m with visible := isVisible fv item })
    label := item.label.map (fun _ => isVisible fv item) }

/-- The method `updateVisibleItems` of the class variant: the gallery after
the visibility loop, and the transitions started by `rearrangeVisibleItems`. -/
def updateVisibleItems {α : Type} [LinearOrderedField α] (M : MathOps α)
    (activeFilter : Option (Option String)) (g : Gallery α) : Gallery α × List (Tween α) :=
  let g1 : Gallery α :=
    { g with galleryItems := g.galleryItems.map (setVisibility (filterValue activeFilter)) }
  (g1, rearrangeVisibleItems M g1)

/-- The method `loadGalleryItems` of the class variant: there is no test of
`img`, so the first entry without an `img` raises a `TypeError` (at `img.alt`
or at `img.src`), which leaves the method and the constructor. -/
def loadGalleryItems {α : Type} (entries : List GalleryEntry)
    (galleryItems : List (GalleryItem α)) : Except String (List (GalleryItem α)) :=
  match entries with
  | [] => Except.ok galleryItems
  | entry :: rest =>
    match entry.img with
    | none => Except.error "TypeError: img is null"
    | some img =>
      loadGalleryItems rest (galleryItems ++
        [{ element := entry.element
           imgSrc := img.src
           category := orString entry.categoryLabel ""
           title := orString entry.caption img.alt
           dataCategory := orString entry.dataCategory ""
           mesh := none
           visible := true }])

/-- The guard at the head of the constructor: without the container the
constructor returns at once, and the object under construction `fresh` has
got `container` only; `rest` stands for the statements after the guard. -/
def construct {α : Type} (page : Page) (containerId : String)
    (rest : Gallery α → Gallery α) (fresh : Gallery α) : Gallery α :=
  match page.getElementById containerId with
  | none => { fresh with container := none }
  | some c => rest { fresh with container := some c }

/-- The method `onMouseClick` of the class variant: the gallery after the
call and the elements on which `click()` was called. -/
def onMouseClick {α : Type} [LinearOrderedField α] (ray : Mesh α → Option α)
    (g : Gallery α) : Gallery α × List Nat :=
  let validMeshes := validMeshes g.galleryItems
  if validMeshes.length = 0 then (g, [])
  else
    match (intersectObjects ray validMeshes).head? with
    | some hit =>
      match findItem g.galleryItems hit.object with
      | some j =>
        match g.galleryItems[j]? with
        | some item => (g, [item.element])
        | none => (g, [])
      | none => (g, [])
    | none => (g, [])

/-- The method `onWindowResize` of the class variant, which has no `try`:
the gallery after the call and the exception that left it, if any.  The two
composers are never created, so their branch is skipped. -/
def onWindowResize {α : Type} [LinearOrderedField α] (clientWidth clientHeight : Nat)
    (g : Gallery α) : Gallery α × Option String :=
  if !g.isInitialized then (g, none)
  else
    match g.camera with
    | none => (g, some "TypeError: this.camera is null")
    | some camera =>
      let aspect : Option α := jsDiv (clientWidth : α) (clientHeight : α)
      let g1 : Gallery α :=
        { g with camera := some { camera with aspect := aspect, projectionAspect := aspect } }
      match g1.renderer with
      | none => (g1, some "TypeError: this.renderer is null")
      | some _ => ({ g1 with renderer := some ⟨clientWidth, clientHeight⟩ }, none)

/-- The method `onMouseMove` of the class variant, which has no `try`: the
gallery after the call and the exception that left it, if any. -/
def onMouseMove {α : Type} [LinearOrderedField α] (clientX clientY left top : α)
    (clientWidth clientHeight : Nat) (g : Gallery α) : Gallery α × Option String :=
  match g.container with
  | none => (g, some "TypeError: this.container is null")
  | some _ =>
    match g.mouse with
    | none => (g, some "TypeError: this.mouse is undefined")
    | some _ =>
      ({ g with
         mouse := some
           ⟨(jsDiv (clientX - left) (clientWidth : α)).map (fun q => q * 2 - 1),
             (jsDiv (clientY - top) (clientHeight : α)).map (fun q => -q * 2 + 1)⟩ }, none)

/-- Modelled from the spec: the effect on the gallery of the transitions
started with `gsap.to(item.mesh.position, ...)` (the animation library is
not part of the sources).  A transition moves the position of the mesh of
its own item and of no other; `progress t` is the point that the transition
`t` has reached. -/
def applyTweens {α : Type} (progress : Tween α → Vector3 (Option α))
    (tweens : List (Tween α)) (g : Gallery α) : Gallery α :=
  tweens.foldl (fun g t =>
    { g with
      galleryItems := modifyItem t.item (fun item =>
        { item with mesh := item.mesh.map (fun m => { m with position := progress t }) })
        g.galleryItems }) g

end GlobeGallery

/-! ## `main.js`: the contact form -/

namespace Main

/-- The characters that `String.prototype.trim` strips and that `\s` matches
in a regular expression: white space and line terminators. -/
def isWhiteSpace (c : Char) : Bool :=
  [9, 10, 11, 12, 13, 32, 160, 5760, 8232, 8233, 8239, 8287, 12288, 65279].contains c.toNat ||
    (8192 ≤ c.toNat && c.toNat ≤ 8202)

/-- The method `String.prototype.trim`. -/
def trim (s : String) : String :=
  String.mk ((s.toList.dropWhile isWhiteSpace).reverse.dropWhile isWhiteSpace).reverse

/-- The character class `[^\s@]`. -/
def notSpaceOrAt (c : Char) : Bool :=
  !isWhiteSpace c && c != '@'

/-- The function `isValidEmail`: the test of the whole string against
`/^[^\s@]+@[^\s@]+\.[^\s@]+$/`.  The string matches when it splits, at an `@`
at index `i` and a `.` at index `j`, into three non-empty runs of `[^\s@]`. -/
def isValidEmail (email : String) : Bool :=
  let cs := email.toList
  (List.range cs.length).any (fun i =>
    (List.range cs.length).any (fun j =>
      decide (0 < i) && decide (i + 1 < j) && decide (j + 1 < cs.length) &&
        cs[i]? == some '@' && cs[j]? == some '.' &&
        (cs.take i).all notSpaceOrAt &&
        ((cs.take j).drop (i + 1)).all notSpaceOrAt &&
        (cs.drop (j + 1)).all notSpaceOrAt))

/-- What the submit handler of the contact form leaves on the page: whether
the form content was replaced by the success message, and the message shown
in the error element beside each input (`none` when it stays hidden). -/
structure FormOutcome where
  replaced : Bool
  nameError : Option String
  emailError : Option String
  messageError : Option String
deriving DecidableEq, Repr

/-- The submit handler of the contact form, for the values of the three
inputs: all error elements are hidden, each check shows its error and clears
`isValid`, and the form is replaced when `isValid` is still set. -/
def submit (name email message : String) : FormOutcome :=
  let nameError : Option String :=
    if trim name = "" then some "Please enter your name" else none
  let emailError : Option String :=
    if trim email = "" then some "Please enter your email"
    else if !isValidEmail email then some "Please enter a valid email"
    else none
  let messageError : Option String :=
    if trim message = "" then some "Please enter your message" else none
  let isValid : Bool := nameError.isNone && emailError.isNone && messageError.isNone
  { replaced := isValid, nameError := nameError, emailError := emailError,
    messageError := messageError }

/-- The JavaScript `a % b` on integers: the remainder has the sign of the
dividend, and is `NaN` for a zero divisor. -/
def jsMod (a b : Int) : Option Int :=
  if b = 0 then none else some (a.tmod b)

/-- The hero slideshow: for each `.slide` whether its class list holds
`active`, and the variable `currentSlide`. -/
structure Slideshow where
  slides : List Bool
  currentSlide : Int
deriving DecidableEq, Repr

/-- The function `showSlide`:
```
slides[currentSlide].classList.remove('active');
currentSlide = index;
slides[currentSlide].classList.add('active');
```
An index that names no slide (`NaN` included) makes `slides[...]` undefined
and the statement raise a `TypeError`. -/
def showSlide (s : Slideshow) (index : Option Int) : Except String Slideshow :=
  if 0 ≤ s.currentSlide ∧ s.currentSlide < s.slides.length then
    match index with
    | some i =>
      if 0 ≤ i ∧ i < s.slides.length then
        Except.ok
          { slides := (s.slides.set s.currentSlide.toNat false).set i.toNat true
            currentSlide := i }
      else Except.error "TypeError: slides[currentSlide] is undefined"
    | none => Except.error "TypeError: slides[currentSlide] is undefined"
  else Except.error "TypeError: slides[currentSlide] is undefined"

/-- The function `showNextSlide`: `showSlide((currentSlide + 1) % slides.length)`. -/
def showNextSlide (s : Slideshow) : Except String Slideshow :=
  showSlide s (jsMod (s.currentSlide + 1) s.slides.length)

/-- The function `showPrevSlide`:
`showSlide((currentSlide - 1 + slides.length) % slides.length)`. -/
def showPrevSlide (s : Slideshow) : Except String Slideshow :=
  showSlide s (jsMod (s.currentSlide - 1 + s.slides.length) s.slides.length)

/-- The page filter: the `style.display` that the click handler of a filter
button gives to a gallery entry, `filterValue` being the `data-filter`
attribute of the button (absent or present):
`filterValue === 'all' || item.getAttribute('data-category') === filterValue`. -/
def filterDisplay (filterValue : Option String) (entry : GalleryEntry) : String :=
  if filterValue == some "all" || entry.dataCategory == filterValue then "block" else "none"

/-- The lightbox: the variable `currentImageIndex` (`none` for `NaN`), the
gallery entry whose image and caption it shows, and the `style.display` of
the two navigation buttons. -/
structure Lightbox where
  currentImageIndex : Option Int
  shown : Option Nat
  prevDisplay : String
  nextDisplay : String
deriving DecidableEq, Repr

/-- The array `Array.from(galleryItems).filter(item => item.style.display !== 'none')`;
a gallery entry is given by its handle and its `style.display`. -/
def visibleItems (galleryItems : List (Nat × String)) : List Nat :=
  (galleryItems.filter (fun item => item.2 != "none")).map (fun item => item.1)

/-- The function `updateLightboxNavigation`. -/
def updateLightboxNavigation (visibleItems : List Nat) (lightbox : Lightbox) : Lightbox :=
  if visibleItems.length ≤ 1 then
    { lightbox with prevDisplay := "none", nextDisplay := "none" }
  else { lightbox with prevDisplay := "block", nextDisplay := "block" }

/-- The function `updateLightbox`: the lightbox after the call and the
exception that left it, if any.  `visibleItems[currentImageIndex]` is
undefined for an index that names no displayed entry, and reading its image
raises a `TypeError`. -/
def updateLightbox (visibleItems : List Nat) (lightbox : Lightbox) : Lightbox × Option String :=
  match lightbox.currentImageIndex with
  | some i =>
    if 0 ≤ i then
      match visibleItems[i.toNat]? with
      | some entry =>
        (updateLightboxNavigation visibleItems { lightbox with shown := some entry }, none)
      | none => (lightbox, some "TypeError: currentItem is undefined")
    else (lightbox, some "TypeError: currentItem is undefined")
  | none => (lightbox, some "TypeError: currentItem is undefined")

/-- The function `navigateLightbox`. -/
def navigateLightbox (direction : String) (galleryItems : List (Nat × String))
    (lightbox : Lightbox) : Lightbox × Option String :=
  let visible := visibleItems galleryItems
  let index : Option Int :=
    if direction = "prev" then
      lightbox.currentImageIndex.bind (fun c => jsMod (c - 1 + visible.length) visible.length)
    else lightbox.currentImageIndex.bind (fun c => jsMod (c + 1) visible.length)
  updateLightbox visible { lightbox with currentImageIndex := index }

/-- The outcome of `k` calls of `showNextSlide` in a row. -/
def showNextSlides : Nat → Slideshow → Except String Slideshow
  | 0, s => Except.ok s
  | k + 1, s =>
    match showNextSlide s with
    | Except.ok next => showNextSlides k next
    | Except.error e => Except.error e

/-- The class lists of `n` slides of which exactly the slide at index `c` is marked `active`. -/
def activeAt (n : Nat) (c : Int) : List Bool :=
  (List.range n).map (fun (k : Nat) => decide (Int.ofNat k = c))

/-- Exactly the slide at index `c` carries the class `active`. -/
def exactlyActive (slides : List Bool) (c : Int) : Prop :=
  ∀ k : Nat, k < slides.length → (slides[k]? = some true ↔ Int.ofNat k = c)

end Main

/-! ## Example galleries -/

/-- An item as `loadGalleryItems` records it, without a mesh. -/
def sampleItem (α : Type) (element : Nat) (dataCategory : String) : GalleryItem α :=
  { element := element, imgSrc := "photo.jpg", category := "", title := "photo",
    dataCategory := dataCategory }

/-- A gallery of two loaded items on the sphere of radius 2. -/
def twoItems (α : Type) [LinearOrderedField α] : Gallery α :=
  { galleryItems := [sampleItem α 0 "city", sampleItem α 1 "nature"], sphereRadius := 2 }

/-- A stand-in for `Math` over the rationals, used to evaluate definitions. -/
def ratMath : MathOps ℚ := ⟨3, fun v => v, fun _ => 1, fun _ => 0⟩

/-- Two gallery entries of a page, one per category. -/
def sampleEntries : List GalleryEntry :=
  [{ element := 0, img := some ⟨"a.jpg", "A"⟩, categoryLabel := some "City",
     dataCategory := some "city" },
   { element := 1, img := some ⟨"b.jpg", "B"⟩, categoryLabel := some "Nature",
     dataCategory := some "nature" }]

/-- A mesh of scale 1 with the given identity. -/
def sampleMesh (α : Type) [LinearOrderedField α] (id : Nat) : Mesh α :=
  { id := id, position := ⟨none, none, none⟩, scale := ⟨1, 1, 1⟩, visible := true }

/-- The gallery after `loadGalleryItems` on `sampleEntries`. -/
def loadedGallery : Gallery ℚ :=
  { (GlobeGalleryFixed.initial : Gallery ℚ) with
    galleryItems := GlobeGalleryFixed.loadGalleryItems sampleEntries [] }

/-- The loaded gallery after the texture of the first item has arrived. -/
def oneMeshGallery : Gallery ℚ :=
  { loadedGallery with
    galleryItems := modifyItem 0 (fun it => { it with mesh := some (sampleMesh ℚ 7) })
      loadedGallery.galleryItems }

/-- The loaded gallery after both textures have arrived. -/
def twoMeshGallery : Gallery ℚ :=
  { oneMeshGallery with
    galleryItems := modifyItem 1 (fun it => { it with mesh := some (sampleMesh ℚ 8) })
      oneMeshGallery.galleryItems }

/-- The gallery with both meshes after the filter `nature` was applied: the first item is hidden. -/
def filteredGallery : Gallery ℚ :=
  GlobeGalleryFixed.updateVisibleItems (some (some "nature")) twoMeshGallery

/-- A ray that meets the mesh 7 at distance 3 and every other mesh at distance 5. -/
def sampleRay : Mesh ℚ → Option ℚ :=
  fun m => if m.id = 7 then some 3 else some 5

/-- A ray that meets the mesh 8 only, at distance 4. -/
def secondRay : Mesh ℚ → Option ℚ :=
  fun m => if m.id = 8 then some 4 else none

/-- A loaded item of the given category, with a mesh of identity `element` when `hasMesh`. -/
def meshItem (element : Nat) (dataCategory : String) (hasMesh : Bool) : GalleryItem ℚ :=
  { element := element, imgSrc := "photo.jpg", category := "", title := "photo",
    dataCategory := dataCategory,
    mesh := if hasMesh then some (sampleMesh ℚ element) else none }

/-- Five visible items with meshes; the items 0 and 2 are of category `X`. -/
def fiveGallery : Gallery ℚ :=
  { galleryItems := [meshItem 0 "X" true, meshItem 1 "Y" true, meshItem 2 "X" true,
      meshItem 3 "Y" true, meshItem 4 "Y" true],
    sphereRadius := 2 }

/-- The same five items while the texture of item 2 is still loading. -/
def pendingGallery : Gallery ℚ :=
  { galleryItems := [meshItem 0 "X" true, meshItem 1 "Y" true, meshItem 2 "X" false,
      meshItem 3 "Y" true, meshItem 4 "Y" true],
    sphereRadius := 2 }

/-- A page with the container of the gallery and the two sample entries. -/
def samplePage : Page :=
  { elements := [("globe-gallery-container", 100)], entries := sampleEntries,
    clientWidth := 800, clientHeight := 600 }

/-- A ray that meets no mesh. -/
def missRay : Mesh ℚ → Option ℚ :=
  fun _ => none

/-- A frame at time 0 in which the pointer is over no mesh and no library call raises. -/
def sampleFrame : Frame ℚ :=
  { time := 0, ray := missRay }

/-- The gallery after `init` on the sample page. -/
def initializedGallery : Gallery ℚ :=
  GlobeGalleryFixed.init ratMath sampleFrame samplePage "globe-gallery-container"
    GlobeGalleryFixed.initial

/-- The gallery after `init` on the sample page when no renderer can be created. -/
def failedSceneGallery : Gallery ℚ :=
  GlobeGalleryFixed.init ratMath sampleFrame { samplePage with webgl := false }
    "globe-gallery-container" GlobeGalleryFixed.initial

/-- The gallery after `init` on the sample page when the 3D library is not loaded. -/
def noLibraryGallery : Gallery ℚ :=
  GlobeGalleryFixed.init ratMath sampleFrame { samplePage with three := false }
    "globe-gallery-container" GlobeGalleryFixed.initial

/-- The gallery with both meshes after the pointer was moved over the first item. -/
def hoveredGallery : Gallery ℚ :=
  GlobeGalleryFixed.checkIntersections sampleRay twoMeshGallery

/-- The hovered gallery after a filter that matches no item was applied:
the highlighted item is hidden, and so is every other item. -/
def hiddenHighlightGallery : Gallery ℚ :=
  GlobeGalleryFixed.updateVisibleItems (some (some "none")) hoveredGallery

/-- An entry whose caption element is there and holds no text. -/
def emptyCaptionEntry : GalleryEntry :=
  { element := 0, img := some ⟨"a.jpg", "Sunset"⟩, caption := some "" }

/-- Three entries of a page, the second without an `img`. -/
def brokenEntries : List GalleryEntry :=
  [{ element := 0, img := some ⟨"a.jpg", "A"⟩, dataCategory := some "city" },
   { element := 1, img := none, dataCategory := some "city" },
   { element := 2, img := some ⟨"c.jpg", "C"⟩, dataCategory := some "nature" }]

/-- Three slides, the last of which is shown. -/
def sampleSlideshow : Main.Slideshow :=
  { slides := [false, false, true], currentSlide := 2 }

/-- Four gallery entries of the page with their `style.display`; the entry with
handle 1 is filtered out. -/
def sampleDisplays : List (Nat × String) :=
  [(0, "block"), (1, "none"), (2, "block"), (3, "")]

/-- A lightbox that shows the last of the three displayed entries of `sampleDisplays`. -/
def sampleLightbox : Main.Lightbox :=
  { currentImageIndex := some 2, shown := some 3, prevDisplay := "block", nextDisplay := "block" }

/-- An entry with an image and without a `data-category` attribute. -/
def uncategorisedEntry : GalleryEntry :=
  { element := 0, img := some ⟨"a.jpg", "A"⟩ }

/-- A mesh with the given identity created at the given scale. -/
def scaledMesh (id : Nat) (scale : ℚ) : Mesh ℚ :=
  { id := id, position := ⟨none, none, none⟩, scale := ⟨scale, scale, scale⟩, visible := true }

/-- The loaded gallery after both textures have arrived, the meshes created at the
scales 0.95 and 1.05. -/
def scaledGallery : Gallery ℚ :=
  { loadedGallery with
    galleryItems :=
      modifyItem 1 (fun it => { it with mesh := some (scaledMesh 8 1.05) })
        (modifyItem 0 (fun it => { it with mesh := some (scaledMesh 7 0.95) })
          loadedGallery.galleryItems) }

/-- The gallery `scaledGallery` after the pointer was moved over the first item. -/
def hoveredScaledGallery : Gallery ℚ :=
  GlobeGalleryFixed.checkIntersections sampleRay scaledGallery

/-- An initialized gallery with orbit controls and three items: a visible item with a
mesh on the sphere of radius 2, an item hidden by a filter, and an item whose texture has
not arrived. -/
def floatingGallery (α : Type) [LinearOrderedField α] : Gallery α :=
  { galleryItems :=
      [{ sampleItem α 0 "city" with
          mesh := some { id := 0, position := ⟨some 2, some 0, some 0⟩, scale := ⟨1, 1, 1⟩ } },
        { sampleItem α 1 "nature" with
          mesh := some { id := 1, position := ⟨some 0, some 2, some 0⟩, scale := ⟨1, 1, 1⟩,
                         visible := false },
          visible := false },
        sampleItem α 2 "city"],
    sphereRadius := 2, isInitialized := true, controls := true }

/-- An initialized gallery with orbit controls whose only item has its mesh at
`(0.001, 0, 0)`, a thousandth of a unit from the centre of the sphere. -/
def nearCentreGallery (α : Type) [LinearOrderedField α] : Gallery α :=
  { galleryItems :=
      [{ sampleItem α 0 "city" with
          mesh := some { id := 0, position := ⟨some 0.001, some 0, some 0⟩,
                         scale := ⟨1, 1, 1⟩ } }],
    sphereRadius := 2, isInitialized := true, controls := true }

/-- A frame at `time = 5` in which the pointer is over no mesh and no library call raises. -/
def floatingFrame (α : Type) [LinearOrderedField α] : Frame α :=
  { time := 5, ray := fun _ => none }

/-! ## Auxiliary definitions -/

/-- The identity of the mesh of an item, if it has one. -/
def meshId {α : Type} (item : GalleryItem α) : Option Nat :=
  item.mesh.map (fun m => m.id)

/-- No two entries of a list of mesh identities name the same object. -/
def DistinctIds (ids : List (Option Nat)) : Prop :=
  ∀ i j a : Nat, ids[i]? = some (some a) → ids[j]? = some (some a) → i = j

/-- An item with every visibility flag (its own, its mesh's, its glow
mesh's, its label's) set to `true`: what remains is everything else the item holds. -/
def withoutVisibility {α : Type} (item : GalleryItem α) : GalleryItem α :=
  { item with
    visible := true
    mesh := item.mesh.map (fun m => { m with visible := true })
    glowMesh := item.glowMesh.map (fun m => { m with visible := true })
    label := item.label.map (fun _ => true) }

/-- The height `1 - (i / (N - 1)) * 2` of item `i` of `N`. -/
def height (α : Type) [LinearOrderedField α] (N i : Nat) : α :=
  1 - ((i : α) / ((N : α) - 1)) * 2

/-! ## The layout: lemmas -/

section Layout

variable {α : Type} [LinearOrderedField α]

theorem height_sq_le_one {N i : Nat} (hN : 2 ≤ N) (hi : i < N) :
    ¬ (1 - height α N i * height α N i < 0) := by
  have hN1 : (0 : α) < (N : α) - 1 := by
    have : (2 : α) ≤ (N : α) := by exact_mod_cast hN
    linarith
  have hi1 : (i : α) ≤ (N : α) - 1 := by
    have : (i : α) + 1 ≤ (N : α) := by exact_mod_cast hi
    linarith
  have h0 : (0 : α) ≤ (i : α) / ((N : α) - 1) := div_nonneg (Nat.cast_nonneg i) hN1.le
  have h1 : (i : α) / ((N : α) - 1) ≤ 1 := (div_le_one hN1).2 hi1
  unfold height
  nlinarith

theorem spherePosition_of_two_le (M : MathOps α) {N i : Nat} (R : α) (hN : 2 ≤ N) (hi : i < N) :
    spherePosition M N i R =
      Vector3.finite
        (M.cos (M.PI * (3 - M.sqrt 5) * (i : α)) *
          M.sqrt (1 - height α N i * height α N i) * R)
        (height α N i * R)
        (M.sin (M.PI * (3 - M.sqrt 5) * (i : α)) *
          M.sqrt (1 - height α N i * height α N i) * R) := by
  have hN1 : (N : α) - 1 ≠ 0 := by
    have : (2 : α) ≤ (N : α) := by exact_mod_cast hN
    intro h; linarith
  have hsq := height_sq_le_one (α := α) hN hi
  unfold height at hsq
  simp only [spherePosition, jsDiv, jsSqrt, if_neg hN1, if_neg hsq, Option.map_some',
    Option.some_bind, Vector3.multiplyScalar, Vector3.finite, height]

theorem height_injective {N i j : Nat} (hN : 2 ≤ N) (h : height α N i = height α N j) : i = j := by
  have hN1 : (N : α) - 1 ≠ 0 := by
    have : (2 : α) ≤ (N : α) := by exact_mod_cast hN
    intro h; linarith
  unfold height at h
  have h2 : (i : α) / ((N : α) - 1) = (j : α) / ((N : α) - 1) := by linarith
  have h3 : (i : α) = (j : α) := (div_left_inj' hN1).1 h2
  exact_mod_cast h3

theorem positionGalleryItems_getElem? (M : MathOps α) (g : Gallery α) {i : Nat}
    (hi : i < g.galleryItems.length) :
    (GlobeGalleryFixed.positionGalleryItems M g)[i]? =
        some (spherePosition M g.galleryItems.length i g.sphereRadius) ∧
      (GlobeGallery.positionGalleryItems M g)[i]? =
        some (spherePosition M g.galleryItems.length i g.sphereRadius) := by
  have h0 : g.galleryItems.length ≠ 0 := by omega
  simp [GlobeGalleryFixed.positionGalleryItems, GlobeGallery.positionGalleryItems, h0,
    List.getElem?_eq_getElem hi]

end Layout

/-! ## The layout: claims -/

/-- C1: for at least two items, index `i` below the item count and a
non-negative `sphereRadius`, the position `positionGalleryItems` computes for
item `i` (in either file) is the finite point with `y = (1 - 2i/(N-1)) * R`,
and in exact real arithmetic `x^2 + y^2 + z^2 = R^2`: the point is at
distance `sphereRadius` from the centre. -/
theorem positionGalleryItems_on_sphere (g : Gallery ℝ) (i : Nat)
    (hN : 2 ≤ g.galleryItems.length) (hi : i < g.galleryItems.length)
    (hR : 0 ≤ g.sphereRadius) :
    ∃ x y z : ℝ,
      (GlobeGalleryFixed.positionGalleryItems ⟨Real.pi, Real.sqrt, Real.cos, Real.sin⟩ g)[i]? =
          some (Vector3.finite x y z) ∧
        (GlobeGallery.positionGalleryItems ⟨Real.pi, Real.sqrt, Real.cos, Real.sin⟩ g)[i]? =
          some (Vector3.finite x y z) ∧
        y = (1 - ((i : ℝ) / ((g.galleryItems.length : ℝ) - 1)) * 2) * g.sphereRadius ∧
        x ^ 2 + y ^ 2 + z ^ 2 = g.sphereRadius ^ 2 ∧
        Real.sqrt (x ^ 2 + y ^ 2 + z ^ 2) = g.sphereRadius := by
  obtain ⟨h1, h2⟩ :=
    positionGalleryItems_getElem? (⟨Real.pi, Real.sqrt, Real.cos, Real.sin⟩ : MathOps ℝ) g hi
  rw [spherePosition_of_two_le _ _ hN hi] at h1 h2
  refine ⟨_, _, _, h1, h2, rfl, ?_⟩
  have hsq : 0 ≤ 1 - height ℝ g.galleryItems.length i * height ℝ g.galleryItems.length i :=
    not_lt.1 (height_sq_le_one hN hi)
  have key : ∀ t : ℝ,
      (Real.cos t * Real.sqrt (1 - height ℝ g.galleryItems.length i *
          height ℝ g.galleryItems.length i) * g.sphereRadius) ^ 2 +
        (height ℝ g.galleryItems.length i * g.sphereRadius) ^ 2 +
        (Real.sin t * Real.sqrt (1 - height ℝ g.galleryItems.length i *
          height ℝ g.galleryItems.length i) * g.sphereRadius) ^ 2 = g.sphereRadius ^ 2 := by
    intro t
    have hs := Real.sq_sqrt hsq
    have hc := Real.cos_sq_add_sin_sq t
    have hc2 : Real.sin t ^ 2 = 1 - Real.cos t ^ 2 := by linarith
    generalize Real.sqrt (1 - height ℝ g.galleryItems.length i *
      height ℝ g.galleryItems.length i) = r at hs ⊢
    have hr2 : r ^ 2 = 1 - height ℝ g.galleryItems.length i *
        height ℝ g.galleryItems.length i := hs
    calc (Real.cos t * r * g.sphereRadius) ^ 2 +
          (height ℝ g.galleryItems.length i * g.sphereRadius) ^ 2 +
          (Real.sin t * r * g.sphereRadius) ^ 2
        = ((Real.cos t ^ 2 + Real.sin t ^ 2) * r ^ 2 +
            height ℝ g.galleryItems.length i * height ℝ g.galleryItems.length i) *
            g.sphereRadius ^ 2 := by ring
      _ = g.sphereRadius ^ 2 := by rw [hc, hr2]; ring
  refine ⟨key _, ?_⟩
  rw [key _]
  exact Real.sqrt_sq hR

/-- Witness of C1: the first of two items on the sphere of radius 2. -/
theorem positionGalleryItems_on_sphere_witness :
    ∃ x y z : ℝ,
      (GlobeGalleryFixed.positionGalleryItems ⟨Real.pi, Real.sqrt, Real.cos, Real.sin⟩
          (twoItems ℝ))[0]? = some (Vector3.finite x y z) ∧
        (GlobeGallery.positionGalleryItems ⟨Real.pi, Real.sqrt, Real.cos, Real.sin⟩
          (twoItems ℝ))[0]? = some (Vector3.finite x y z) ∧
        y = (1 - (((0 : Nat) : ℝ) / (((twoItems ℝ).galleryItems.length : ℝ) - 1)) * 2) *
          (twoItems ℝ).sphereRadius ∧
        x ^ 2 + y ^ 2 + z ^ 2 = (twoItems ℝ).sphereRadius ^ 2 ∧
        Real.sqrt (x ^ 2 + y ^ 2 + z ^ 2) = (twoItems ℝ).sphereRadius :=
  positionGalleryItems_on_sphere (twoItems ℝ) 0 (by simp [twoItems]) (by simp [twoItems])
    (by simp [twoItems])

/-- C2: for at least two items, a positive `sphereRadius` and two different
indices below the item count, the positions `positionGalleryItems` computes
(in either file) for the two items are different points; they are the
values of the shared layout formula, which already differ in `y`. -/
theorem positionGalleryItems_distinct {α : Type} [LinearOrderedField α] (M : MathOps α)
    (g : Gallery α) (i j : Nat) (hN : 2 ≤ g.galleryItems.length)
    (hi : i < g.galleryItems.length) (hj : j < g.galleryItems.length) (hij : i ≠ j)
    (hR : 0 < g.sphereRadius) :
    ∃ p q : Vector3 (Option α),
      (GlobeGalleryFixed.positionGalleryItems M g)[i]? = some p ∧
        (GlobeGalleryFixed.positionGalleryItems M g)[j]? = some q ∧
        (GlobeGallery.positionGalleryItems M g)[i]? = some p ∧
        (GlobeGallery.positionGalleryItems M g)[j]? = some q ∧
        p = spherePosition M g.galleryItems.length i g.sphereRadius ∧
        q = spherePosition M g.galleryItems.length j g.sphereRadius ∧
        p.y ≠ q.y ∧ p ≠ q := by
  obtain ⟨hi1, hi2⟩ := positionGalleryItems_getElem? M g hi
  obtain ⟨hj1, hj2⟩ := positionGalleryItems_getElem? M g hj
  have hy : (spherePosition M g.galleryItems.length i g.sphereRadius).y ≠
      (spherePosition M g.galleryItems.length j g.sphereRadius).y := by
    rw [spherePosition_of_two_le M _ hN hi, spherePosition_of_two_le M _ hN hj]
    simp only [Vector3.finite, ne_eq, Option.some.injEq]
    intro h
    exact hij (height_injective hN (mul_right_cancel₀ (ne_of_gt hR) h))
  exact ⟨_, _, hi1, hj1, hi2, hj2, rfl, rfl, hy, fun h => hy (by rw [h])⟩

/-- Witness of C2: the two positions of a gallery of two items. -/
theorem positionGalleryItems_distinct_witness :
    ∃ p q : Vector3 (Option ℚ),
      (GlobeGalleryFixed.positionGalleryItems ratMath (twoItems ℚ))[0]? = some p ∧
        (GlobeGalleryFixed.positionGalleryItems ratMath (twoItems ℚ))[1]? = some q ∧
        (GlobeGallery.positionGalleryItems ratMath (twoItems ℚ))[0]? = some p ∧
        (GlobeGallery.positionGalleryItems ratMath (twoItems ℚ))[1]? = some q ∧
        p = spherePosition ratMath (twoItems ℚ).galleryItems.length 0 (twoItems ℚ).sphereRadius ∧
        q = spherePosition ratMath (twoItems ℚ).galleryItems.length 1 (twoItems ℚ).sphereRadius ∧
        p.y ≠ q.y ∧ p ≠ q :=
  positionGalleryItems_distinct ratMath (twoItems ℚ) 0 1 (by simp [twoItems])
    (by simp [twoItems]) (by simp [twoItems]) (by decide) (by simp [twoItems])

/-- C3 (the code at one item): with exactly one item the division
`0 / (itemCount - 1)` is `0 / 0`, so every component of the position that
`positionGalleryItems` computes (in either file), and of the target that
`rearrangeVisibleItems` computes for a single visible item with a mesh, is
`NaN`: the item is not placed at `(0, sphereRadius, 0)`. -/
theorem single_item_position_is_NaN {α : Type} [LinearOrderedField α] (M : MathOps α)
    (g : Gallery α) (item : GalleryItem α) (m : Mesh α) :
    GlobeGalleryFixed.positionGalleryItems M { g with galleryItems := [item] } =
        [⟨none, none, none⟩] ∧
      GlobeGallery.positionGalleryItems M { g with galleryItems := [item] } =
        [⟨none, none, none⟩] ∧
      GlobeGallery.rearrangeVisibleItems M
          { g with galleryItems := [{ item with visible := true, mesh := some m }] } =
        [⟨0, ⟨none, none, none⟩⟩] ∧
      (⟨none, none, none⟩ : Vector3 (Option α)) ≠ Vector3.finite 0 g.sphereRadius 0 := by
  have h : ∀ R : α, spherePosition M 1 0 R = ⟨none, none, none⟩ := by
    intro R
    simp [spherePosition, jsDiv, Vector3.multiplyScalar]
  refine ⟨?_, ?_, ?_, ?_⟩
  · simp [GlobeGalleryFixed.positionGalleryItems, h]
  · simp [GlobeGallery.positionGalleryItems, h]
  · simp [GlobeGallery.rearrangeVisibleItems, GlobeGallery.visibleItems, List.enum,
      List.enumFrom, h]
  · simp [Vector3.finite]

/-! ## The picker: lemmas -/

section Picker

variable {α : Type}

theorem getElem?_modifyItem (j : Nat) (f : GalleryItem α → GalleryItem α)
    (items : List (GalleryItem α)) (i : Nat) :
    (modifyItem j f items)[i]? = items[i]?.map (fun item => if i = j then f item else item) := by
  simp [modifyItem]

theorem map_mapIdx_of_preserved {β : Type} (π : GalleryItem α → β)
    (F : Nat → GalleryItem α → GalleryItem α) (hF : ∀ i item, π (F i item) = π item)
    (items : List (GalleryItem α)) : (items.mapIdx F).map π = items.map π := by
  apply List.ext_getElem?
  intro i
  simp only [List.getElem?_map, List.getElem?_mapIdx]
  cases items[i]? <;> simp [hF]

theorem map_modifyItem_of_preserved {β : Type} (π : GalleryItem α → β) (j : Nat)
    (f : GalleryItem α → GalleryItem α) (hf : ∀ item, π (f item) = π item)
    (items : List (GalleryItem α)) : (modifyItem j f items).map π = items.map π := by
  apply map_mapIdx_of_preserved
  intro i item
  split
  · exact hf item
  · rfl

theorem mem_validMeshes (items : List (GalleryItem α)) (m : Mesh α) :
    m ∈ validMeshes items ↔ ∃ item ∈ items, item.mesh = some m ∧ item.visible = true := by
  simp only [validMeshes, List.mem_filterMap, List.mem_filter]
  constructor
  · rintro ⟨item, ⟨hmem, hcond⟩, hm⟩
    refine ⟨item, hmem, hm, ?_⟩
    cases hv : item.visible <;> simp_all
  · rintro ⟨item, hmem, hm, hv⟩
    exact ⟨item, ⟨hmem, by simp [hm, hv]⟩, hm⟩

theorem findItem_eq (items : List (GalleryItem α)) (object : Mesh α) :
    findItem items object = (items.map meshId).findIdx? (fun o => o == some object.id) := by
  rw [List.findIdx?_map]
  unfold findItem
  congr 1
  funext item
  simp only [Function.comp, meshId]
  cases item.mesh <;> simp

theorem findItem_some (items : List (GalleryItem α)) (object : Mesh α) (j : Nat)
    (h : findItem items object = some j) : (items.map meshId)[j]? = some (some object.id) := by
  rw [findItem_eq] at h
  have := List.findIdx?_of_eq_some h
  cases hj : (items.map meshId)[j]? with
  | none => simp [hj] at this
  | some o =>
    rw [hj] at this
    simp only [beq_iff_eq] at this
    rw [this]

theorem findItem_isSome_of_mem (items : List (GalleryItem α)) (object : Mesh α)
    (item : GalleryItem α) (hmem : item ∈ items) (hm : item.mesh = some object) :
    ∃ j, findItem items object = some j := by
  cases h : findItem items object with
  | some j => exact ⟨j, rfl⟩
  | none =>
    rw [findItem_eq, List.findIdx?_eq_none_iff] at h
    have := h (meshId item) (List.mem_map_of_mem meshId hmem)
    simp [meshId, hm] at this

theorem meshIds_updateVisibleItems (activeFilter : Option (Option String)) (g : Gallery α) :
    (GlobeGalleryFixed.updateVisibleItems activeFilter g).galleryItems.map meshId =
      g.galleryItems.map meshId := by
  simp only [GlobeGalleryFixed.updateVisibleItems, List.map_map]
  apply List.map_congr_left
  intro item _
  simp only [Function.comp, meshId]
  cases item.mesh <;> rfl

theorem exists_mesh_of_meshId (items : List (GalleryItem α)) (j a : Nat)
    (h : (items.map meshId)[j]? = some (some a)) :
    ∃ item m, items[j]? = some item ∧ item.mesh = some m := by
  simp only [List.getElem?_map] at h
  cases hj : items[j]? with
  | none => simp [hj] at h
  | some item =>
    cases hm : item.mesh with
    | none => simp [hj, meshId, hm] at h
    | some m => exact ⟨item, m, rfl, hm⟩

theorem findItem_congr (items items' : List (GalleryItem α))
    (hids : items'.map meshId = items.map meshId) (object : Mesh α) :
    findItem items' object = findItem items object := by
  rw [findItem_eq, findItem_eq, hids]

variable [LinearOrderedField α]

theorem mem_intersectObjects (ray : Mesh α → Option α) (objects : List (Mesh α))
    (hit : Intersection α) :
    hit ∈ intersectObjects ray objects ↔
      hit.object ∈ objects ∧ ray hit.object = some hit.distance := by
  simp only [intersectObjects, List.mem_insertionSort, List.mem_filterMap, Option.map_eq_some']
  constructor
  · rintro ⟨m, hm, d, hd, rfl⟩
    exact ⟨hm, hd⟩
  · rintro ⟨hm, hd⟩
    exact ⟨hit.object, hm, hit.distance, hd, rfl⟩

theorem head_intersectObjects_le (ray : Mesh α → Option α) (objects : List (Mesh α))
    (hit other : Intersection α) (hhead : (intersectObjects ray objects).head? = some hit)
    (hother : other ∈ intersectObjects ray objects) : hit.distance ≤ other.distance := by
  haveI : IsTotal (Intersection α) (fun a b => a.distance ≤ b.distance) :=
    ⟨fun a b => le_total a.distance b.distance⟩
  haveI : IsTrans (Intersection α) (fun a b => a.distance ≤ b.distance) :=
    ⟨fun a b c hab hbc => le_trans hab hbc⟩
  have hs : (intersectObjects ray objects).Sorted (fun a b => a.distance ≤ b.distance) :=
    List.sorted_insertionSort _ _
  cases hl : intersectObjects ray objects with
  | nil => rw [hl] at hhead; simp at hhead
  | cons a l =>
    rw [hl] at hhead hother hs
    simp only [List.head?_cons, Option.some.injEq] at hhead
    subst hhead
    rcases List.mem_cons.1 hother with h | h
    · rw [h]
    · exact List.rel_of_sorted_cons hs other h

theorem meshId_resetScale (item : GalleryItem α) :
    meshId (GlobeGalleryFixed.resetScale item) = meshId item := by
  simp only [meshId, GlobeGalleryFixed.resetScale]
  cases item.mesh <;> rfl

theorem meshId_highlight (item : GalleryItem α) :
    meshId (GlobeGalleryFixed.highlight item) = meshId item := by
  unfold GlobeGalleryFixed.highlight meshId
  cases h : item.mesh <;> simp [h]

theorem meshIds_resetOthers (g : Gallery α) :
    (GlobeGalleryFixed.resetOthers g).map meshId = g.galleryItems.map meshId := by
  apply map_mapIdx_of_preserved
  intro i item
  split
  · rfl
  · exact meshId_resetScale item

theorem meshIds_checkIntersections (ray : Mesh α → Option α) (g : Gallery α) :
    (GlobeGalleryFixed.checkIntersections ray g).galleryItems.map meshId =
      g.galleryItems.map meshId := by
  unfold GlobeGalleryFixed.checkIntersections
  simp only
  split
  · rfl
  · split
    · split
      · split
        · exact meshIds_resetOthers g
        · cases g.INTERSECTED with
          | none =>
            simp only
            rw [map_modifyItem_of_preserved meshId _ _ meshId_highlight, meshIds_resetOthers]
          | some p =>
            simp only
            rw [map_modifyItem_of_preserved meshId _ _ meshId_highlight,
              map_modifyItem_of_preserved meshId _ _ meshId_resetScale, meshIds_resetOthers]
      · exact meshIds_resetOthers g
    · split
      · simp only
        rw [map_modifyItem_of_preserved meshId _ _ meshId_resetScale, meshIds_resetOthers]
      · exact meshIds_resetOthers g

theorem reachable_distinctIds {g : Gallery α} (h : GlobeGalleryFixed.Reachable g) :
    DistinctIds (g.galleryItems.map meshId) := by
  induction h with
  | load entries =>
    intro i j a hi _
    simp only at hi
    exfalso
    have hmem := List.getElem?_mem hi
    simp only [GlobeGalleryFixed.loadGalleryItems, List.nil_append, List.mem_map,
      List.mem_filterMap] at hmem
    obtain ⟨item, ⟨entry, _, he⟩, hid⟩ := hmem
    cases himg : entry.img with
    | none => simp [himg] at he
    | some img =>
      simp only [himg, Option.some.injEq] at he
      subst he
      simp [meshId] at hid
  | textureLoaded g i item m scale _ hitem _ hfresh _ _ _ _ ih =>
    have key : ∀ k a : Nat,
        ((modifyItem i (fun it => { it with mesh := some m }) g.galleryItems).map meshId)[k]? =
            some (some a) → k ≠ i → (g.galleryItems.map meshId)[k]? = some (some a) := by
      intro k a hk hki
      simp only [List.getElem?_map, getElem?_modifyItem, Option.map_map] at hk ⊢
      cases hgk : g.galleryItems[k]? with
      | none => simp [hgk] at hk
      | some it => simpa [hgk, hki] using hk
    have atI : ∀ a : Nat,
        ((modifyItem i (fun it => { it with mesh := some m }) g.galleryItems).map meshId)[i]? =
            some (some a) → a = m.id := by
      intro a hk
      simp only [List.getElem?_map, getElem?_modifyItem, Option.map_map, hitem] at hk
      simp [meshId] at hk
      exact hk.symm
    have fresh : ∀ k : Nat, (g.galleryItems.map meshId)[k]? ≠ some (some m.id) := by
      intro k hk
      simp only [List.getElem?_map] at hk
      cases hgk : g.galleryItems[k]? with
      | none => simp [hgk] at hk
      | some it =>
        simp only [hgk, Option.map_some', Option.some.injEq, meshId] at hk
        cases hm : it.mesh with
        | none => simp [hm] at hk
        | some m' =>
          simp only [hm, Option.map_some', Option.some.injEq] at hk
          exact hfresh it (List.getElem?_mem hgk) m' hm hk
    intro a b x ha hb
    by_cases hai : a = i
    · by_cases hbi : b = i
      · rw [hai, hbi]
      · exfalso
        subst hai
        have hx := atI x ha
        subst hx
        exact fresh b (key b _ hb hbi)
    · by_cases hbi : b = i
      · exfalso
        subst hbi
        have hx := atI x hb
        subst hx
        exact fresh a (key a _ ha hai)
      · exact ih a b x (key a x ha hai) (key b x hb hbi)
  | moved g position _ ih =>
    have : (g.galleryItems.mapIdx (fun i it =>
        ({ it with mesh := it.mesh.map (fun m => { m with position := position i }) } :
          GalleryItem α))).map meshId = g.galleryItems.map meshId := by
      apply map_mapIdx_of_preserved
      intro i item
      simp only [meshId]
      cases item.mesh <;> rfl
    simpa [this] using ih
  | updateVisibleItems g activeFilter _ ih =>
    rw [meshIds_updateVisibleItems]
    exact ih
  | checkIntersections g ray _ ih =>
    rw [meshIds_checkIntersections]
    exact ih

theorem pick_spec (items : List (GalleryItem α)) (hd : DistinctIds (items.map meshId))
    (ray : Mesh α → Option α) (hit : Intersection α) (j : Nat)
    (hhead : (intersectObjects ray (validMeshes items)).head? = some hit)
    (hfind : findItem items hit.object = some j) :
    ∃ item, items[j]? = some item ∧ item.visible = true ∧ item.mesh = some hit.object ∧
      hit.object ∈ validMeshes items ∧ ray hit.object = some hit.distance := by
  have hmem : hit ∈ intersectObjects ray (validMeshes items) := List.mem_of_mem_head? hhead
  obtain ⟨hvalid, hray⟩ := (mem_intersectObjects ray _ hit).1 hmem
  obtain ⟨item, hitem, hmesh, hvis⟩ := (mem_validMeshes items hit.object).1 hvalid
  obtain ⟨k, hk⟩ := List.getElem?_of_mem hitem
  have hkid : (items.map meshId)[k]? = some (some hit.object.id) := by
    simp [List.getElem?_map, hk, meshId, hmesh]
  have hjk : j = k := hd j k hit.object.id (findItem_some items hit.object j hfind) hkid
  subst hjk
  exact ⟨item, hk, hvis, hmesh, hvalid, hray⟩

theorem intersectedItem_eq (ray : Mesh α → Option α) (g : Gallery α) :
    GlobeGalleryFixed.intersectedItem ray g =
      (intersectObjects ray (validMeshes g.galleryItems)).head?.bind
        (fun hit => findItem g.galleryItems hit.object) := by
  unfold GlobeGalleryFixed.intersectedItem
  congr 1
  funext hit
  exact findItem_congr _ _ (meshIds_resetOthers g) hit.object

theorem clickedItem_eq (ray : Mesh α → Option α) (g : Gallery α) :
    GlobeGalleryFixed.clickedItem ray g = GlobeGalleryFixed.intersectedItem ray g := by
  rw [intersectedItem_eq]
  unfold GlobeGalleryFixed.clickedItem
  simp only
  split
  · rename_i h
    have : validMeshes g.galleryItems = [] := List.length_eq_zero.1 h
    simp [this, intersectObjects]
  · rfl

theorem intersectedItem_spec (g : Gallery α) (hd : DistinctIds (g.galleryItems.map meshId))
    (ray : Mesh α → Option α) (j : Nat) (h : GlobeGalleryFixed.intersectedItem ray g = some j) :
    ∃ hit item, (intersectObjects ray (validMeshes g.galleryItems)).head? = some hit ∧
      g.galleryItems[j]? = some item ∧ item.visible = true ∧ item.mesh = some hit.object ∧
      hit.object ∈ validMeshes g.galleryItems ∧ ray hit.object = some hit.distance := by
  rw [intersectedItem_eq] at h
  cases hh : (intersectObjects ray (validMeshes g.galleryItems)).head? with
  | none => simp [hh] at h
  | some hit =>
    simp only [hh, Option.some_bind] at h
    obtain ⟨item, h1, h2, h3, h4, h5⟩ := pick_spec g.galleryItems hd ray hit j hh h
    exact ⟨hit, item, rfl, h1, h2, h3, h4, h5⟩

theorem twoMeshGallery_reachable : GlobeGalleryFixed.Reachable twoMeshGallery := by
  have h0 : GlobeGalleryFixed.Reachable loadedGallery := GlobeGalleryFixed.Reachable.load _
  have h1 : GlobeGalleryFixed.Reachable oneMeshGallery :=
    GlobeGalleryFixed.Reachable.textureLoaded loadedGallery 0
      { element := 0, imgSrc := "a.jpg", category := "City", title := "A",
        dataCategory := "city" }
      (sampleMesh ℚ 7) 1 h0 (by rfl) (by rfl) (by decide) (by rfl) (by rfl)
      (by norm_num) (by norm_num)
  exact GlobeGalleryFixed.Reachable.textureLoaded oneMeshGallery 1
    { element := 1, imgSrc := "b.jpg", category := "Nature", title := "B",
      dataCategory := "nature" }
    (sampleMesh ℚ 8) 1 h1 (by rfl) (by rfl) (by decide) (by rfl) (by rfl)
    (by norm_num) (by norm_num)

theorem filteredGallery_reachable : GlobeGalleryFixed.Reachable filteredGallery :=
  GlobeGalleryFixed.Reachable.updateVisibleItems _ _ twoMeshGallery_reachable

end Picker

/-! ## The picker: claims -/

/-- C4: in every reachable state of the object-literal gallery and for every
ray, the candidate set of the ray test holds exactly the meshes of the items
that have a mesh and are visible, and the item that `checkIntersections` or
`onMouseClick` looks up from the first hit is one of those items: it is
visible, and the element `onMouseClick` clicks belongs to a visible item. -/
theorem picker_never_returns_hidden_item {α : Type} [LinearOrderedField α] (g : Gallery α)
    (hg : GlobeGalleryFixed.Reachable g) (ray : Mesh α → Option α) :
    (∀ m, m ∈ validMeshes g.galleryItems ↔
        ∃ item ∈ g.galleryItems, item.mesh = some m ∧ item.visible = true) ∧
      (∀ j, GlobeGalleryFixed.intersectedItem ray g = some j ∨
          GlobeGalleryFixed.clickedItem ray g = some j →
        ∃ item m, g.galleryItems[j]? = some item ∧ item.visible = true ∧
          item.mesh = some m ∧ m ∈ validMeshes g.galleryItems) ∧
      (∀ e, GlobeGalleryFixed.onMouseClick ray g = some e →
        ∃ item ∈ g.galleryItems, item.element = e ∧ item.visible = true) := by
  have hd := reachable_distinctIds hg
  have hpick : ∀ j, GlobeGalleryFixed.intersectedItem ray g = some j ∨
      GlobeGalleryFixed.clickedItem ray g = some j →
      ∃ item m, g.galleryItems[j]? = some item ∧ item.visible = true ∧
        item.mesh = some m ∧ m ∈ validMeshes g.galleryItems := by
    intro j hj
    have hj' : GlobeGalleryFixed.intersectedItem ray g = some j := by
      rcases hj with h | h
      · exact h
      · rw [← clickedItem_eq]; exact h
    obtain ⟨hit, item, _, h1, h2, h3, h4, _⟩ := intersectedItem_spec g hd ray j hj'
    exact ⟨item, hit.object, h1, h2, h3, h4⟩
  refine ⟨mem_validMeshes g.galleryItems, hpick, ?_⟩
  intro e he
  unfold GlobeGalleryFixed.onMouseClick at he
  cases hc : GlobeGalleryFixed.clickedItem ray g with
  | none => simp [hc] at he
  | some j =>
    obtain ⟨item, m, h1, h2, _, _⟩ := hpick j (Or.inr hc)
    simp only [hc, Option.some_bind, h1, Option.map_some', Option.some.injEq] at he
    exact ⟨item, List.getElem?_mem h1, he, h2⟩

/-- Witness of C4: two items with meshes, the first hidden by the filter
`nature`; the ray meets the hidden mesh first, and the item picked is the second. -/
theorem picker_never_returns_hidden_item_witness :
    GlobeGalleryFixed.Reachable filteredGallery ∧
      GlobeGalleryFixed.clickedItem sampleRay filteredGallery = some 1 ∧
      ((∀ m, m ∈ validMeshes filteredGallery.galleryItems ↔
          ∃ item ∈ filteredGallery.galleryItems, item.mesh = some m ∧ item.visible = true) ∧
        (∀ j, GlobeGalleryFixed.intersectedItem sampleRay filteredGallery = some j ∨
            GlobeGalleryFixed.clickedItem sampleRay filteredGallery = some j →
          ∃ item m, filteredGallery.galleryItems[j]? = some item ∧ item.visible = true ∧
            item.mesh = some m ∧ m ∈ validMeshes filteredGallery.galleryItems) ∧
        (∀ e, GlobeGalleryFixed.onMouseClick sampleRay filteredGallery = some e →
          ∃ item ∈ filteredGallery.galleryItems, item.element = e ∧ item.visible = true)) :=
  ⟨filteredGallery_reachable, by decide,
    picker_never_returns_hidden_item filteredGallery filteredGallery_reachable sampleRay⟩

/-- C5: when the meshes of different items are different objects and the ray
meets at least one candidate mesh, `checkIntersections` and `onMouseClick`
resolve the same item, its mesh is a candidate the ray meets, no candidate is
met at a smaller distance, and `onMouseClick` clicks the element of that
item; when the ray meets no candidate, no item is resolved and nothing is
clicked. -/
theorem picker_returns_nearest {α : Type} [LinearOrderedField α] (g : Gallery α)
    (hd : DistinctIds (g.galleryItems.map meshId)) (ray : Mesh α → Option α) :
    ((∃ m ∈ validMeshes g.galleryItems, ∃ d, ray m = some d) →
      ∃ j item m d,
        GlobeGalleryFixed.intersectedItem ray g = some j ∧
        GlobeGalleryFixed.clickedItem ray g = some j ∧
        GlobeGalleryFixed.onMouseClick ray g = some item.element ∧
        g.galleryItems[j]? = some item ∧ item.mesh = some m ∧
        m ∈ validMeshes g.galleryItems ∧ ray m = some d ∧
        ∀ m' ∈ validMeshes g.galleryItems, ∀ d', ray m' = some d' → d ≤ d') ∧
    ((∀ m ∈ validMeshes g.galleryItems, ray m = none) →
      GlobeGalleryFixed.intersectedItem ray g = none ∧
      GlobeGalleryFixed.clickedItem ray g = none ∧
      GlobeGalleryFixed.onMouseClick ray g = none) := by
  constructor
  · rintro ⟨m0, hm0, d0, hd0⟩
    have hmem0 : (⟨d0, m0⟩ : Intersection α) ∈
        intersectObjects ray (validMeshes g.galleryItems) :=
      (mem_intersectObjects ray _ _).2 ⟨hm0, hd0⟩
    cases hh : (intersectObjects ray (validMeshes g.galleryItems)).head? with
    | none =>
      rw [List.head?_eq_none_iff] at hh
      rw [hh] at hmem0
      simp at hmem0
    | some hit =>
      obtain ⟨hvalid, hray⟩ := (mem_intersectObjects ray _ hit).1 (List.mem_of_mem_head? hh)
      obtain ⟨item0, hitem0, hmesh0, _⟩ := (mem_validMeshes g.galleryItems hit.object).1 hvalid
      obtain ⟨j, hj⟩ := findItem_isSome_of_mem g.galleryItems hit.object item0 hitem0 hmesh0
      obtain ⟨item, h1, _, h3, h4, h5⟩ := pick_spec g.galleryItems hd ray hit j hh hj
      have hI : GlobeGalleryFixed.intersectedItem ray g = some j := by
        rw [intersectedItem_eq, hh]
        exact hj
      have hC : GlobeGalleryFixed.clickedItem ray g = some j := by
        rw [clickedItem_eq]
        exact hI
      refine ⟨j, item, hit.object, hit.distance, hI, hC, ?_, h1, h3, h4, h5, ?_⟩
      · simp [GlobeGalleryFixed.onMouseClick, hC, h1]
      · intro m' hm' d' hd'
        exact head_intersectObjects_le ray _ hit ⟨d', m'⟩ hh
          ((mem_intersectObjects ray _ _).2 ⟨hm', hd'⟩)
  · intro hnone
    have hI : GlobeGalleryFixed.intersectedItem ray g = none := by
      rw [intersectedItem_eq]
      cases hh : (intersectObjects ray (validMeshes g.galleryItems)).head? with
      | none => rfl
      | some hit =>
        obtain ⟨hvalid, hray⟩ := (mem_intersectObjects ray _ hit).1 (List.mem_of_mem_head? hh)
        rw [hnone hit.object hvalid] at hray
        cases hray
    have hC : GlobeGalleryFixed.clickedItem ray g = none := by
      rw [clickedItem_eq]
      exact hI
    exact ⟨hI, hC, by simp [GlobeGalleryFixed.onMouseClick, hC]⟩

/-- Witness of C5: the ray meets the two meshes of `twoMeshGallery` at
distances 3 and 5, and the item resolved is the first, the one at distance 3. -/
theorem picker_returns_nearest_witness :
    DistinctIds (twoMeshGallery.galleryItems.map meshId) ∧
      (twoMeshGallery.galleryItems.map (fun item => item.mesh.bind sampleRay)) =
        [some 3, some 5] ∧
      GlobeGalleryFixed.intersectedItem sampleRay twoMeshGallery = some 0 ∧
      GlobeGalleryFixed.onMouseClick sampleRay twoMeshGallery = some 0 ∧
      (((∃ m ∈ validMeshes twoMeshGallery.galleryItems, ∃ d, sampleRay m = some d) →
        ∃ j item m d,
          GlobeGalleryFixed.intersectedItem sampleRay twoMeshGallery = some j ∧
          GlobeGalleryFixed.clickedItem sampleRay twoMeshGallery = some j ∧
          GlobeGalleryFixed.onMouseClick sampleRay twoMeshGallery = some item.element ∧
          twoMeshGallery.galleryItems[j]? = some item ∧ item.mesh = some m ∧
          m ∈ validMeshes twoMeshGallery.galleryItems ∧ sampleRay m = some d ∧
          ∀ m' ∈ validMeshes twoMeshGallery.galleryItems, ∀ d', sampleRay m' = some d' →
            d ≤ d') ∧
      ((∀ m ∈ validMeshes twoMeshGallery.galleryItems, sampleRay m = none) →
        GlobeGalleryFixed.intersectedItem sampleRay twoMeshGallery = none ∧
        GlobeGalleryFixed.clickedItem sampleRay twoMeshGallery = none ∧
        GlobeGalleryFixed.onMouseClick sampleRay twoMeshGallery = none)) :=
  ⟨reachable_distinctIds twoMeshGallery_reachable, by decide, by decide, by decide,
    picker_returns_nearest twoMeshGallery (reachable_distinctIds twoMeshGallery_reachable)
      sampleRay⟩

/-! ## Highlighting: lemmas -/

section Highlight

variable {α : Type} [LinearOrderedField α]

theorem intersectedItem_some_meshId (ray : Mesh α → Option α) (g : Gallery α) (j : Nat)
    (h : GlobeGalleryFixed.intersectedItem ray g = some j) :
    ∃ a, (g.galleryItems.map meshId)[j]? = some (some a) := by
  rw [intersectedItem_eq] at h
  cases hh : (intersectObjects ray (validMeshes g.galleryItems)).head? with
  | none => simp [hh] at h
  | some hit =>
    simp only [hh, Option.some_bind] at h
    exact ⟨hit.object.id, findItem_some _ _ _ h⟩

theorem intersects_nonempty_of_intersectedItem (ray : Mesh α → Option α) (g : Gallery α)
    (j : Nat) (h : GlobeGalleryFixed.intersectedItem ray g = some j) :
    ¬ (validMeshes g.galleryItems).length = 0 ∧
      (intersectObjects ray (validMeshes g.galleryItems)).length > 0 := by
  unfold GlobeGalleryFixed.intersectedItem at h
  cases hl : intersectObjects ray (validMeshes g.galleryItems) with
  | nil => simp [hl] at h
  | cons hit rest =>
    refine ⟨?_, by simp⟩
    intro h0
    have hv : validMeshes g.galleryItems = [] := List.length_eq_zero.1 h0
    rw [hv] at hl
    simp [intersectObjects] at hl

/-- The step of `checkIntersections` on a newly intersected item. -/
theorem checkIntersections_of_new (ray : Mesh α → Option α) (g : Gallery α) (j : Nat)
    (h : GlobeGalleryFixed.intersectedItem ray g = some j) (hne : some j ≠ g.INTERSECTED) :
    GlobeGalleryFixed.checkIntersections ray g =
      { g with
        galleryItems := modifyItem j GlobeGalleryFixed.highlight
          (match g.INTERSECTED with
            | some p => modifyItem p GlobeGalleryFixed.resetScale (GlobeGalleryFixed.resetOthers g)
            | none => GlobeGalleryFixed.resetOthers g)
        INTERSECTED := some j
        cursor := "pointer" } := by
  obtain ⟨h1, h2⟩ := intersects_nonempty_of_intersectedItem ray g j h
  unfold GlobeGalleryFixed.checkIntersections
  simp only [if_neg h1, if_pos h2, h, if_neg hne]

/-- After a step that resolves item `j`, `INTERSECTED` is `j`. -/
theorem checkIntersections_INTERSECTED (ray : Mesh α → Option α) (g : Gallery α) (j : Nat)
    (h : GlobeGalleryFixed.intersectedItem ray g = some j) :
    (GlobeGalleryFixed.checkIntersections ray g).INTERSECTED = some j := by
  by_cases hne : some j = g.INTERSECTED
  · obtain ⟨h1, h2⟩ := intersects_nonempty_of_intersectedItem ray g j h
    unfold GlobeGalleryFixed.checkIntersections
    simp only [if_neg h1, if_pos h2, h, if_pos hne]
    exact hne.symm
  · rw [checkIntersections_of_new ray g j h hne]

theorem resetScale_baseline (item : GalleryItem α) (m : Mesh α)
    (h : (GlobeGalleryFixed.resetScale item).mesh = some m) :
    m.scale = ⟨orOne (GlobeGalleryFixed.resetScale item).originalScale,
      orOne (GlobeGalleryFixed.resetScale item).originalScale,
      orOne (GlobeGalleryFixed.resetScale item).originalScale⟩ := by
  unfold GlobeGalleryFixed.resetScale at h ⊢
  cases hm : item.mesh with
  | none => simp [hm] at h
  | some m0 =>
    simp only [hm, Option.map_some', Option.some.injEq] at h
    rw [← h]

theorem orOne_ne_zero (v : Option α) : orOne v ≠ 0 := by
  unfold orOne
  split
  · split
    · exact one_ne_zero
    · assumption
  · exact one_ne_zero

theorem highlight_resetScale (item : GalleryItem α) (m0 : Mesh α) (h : item.mesh = some m0) :
    ∃ m, (GlobeGalleryFixed.highlight (GlobeGalleryFixed.resetScale item)).mesh = some m ∧
      (GlobeGalleryFixed.highlight (GlobeGalleryFixed.resetScale item)).originalScale =
        some (orOne item.originalScale) ∧
      m.scale = ⟨orOne item.originalScale * 1.15, orOne item.originalScale * 1.15,
        orOne item.originalScale * 1.15⟩ := by
  have key : (match item.originalScale with
      | some v => if v = 0 then orOne item.originalScale else v
      | none => orOne item.originalScale) = orOne item.originalScale := by
    cases ho : item.originalScale with
    | none => rfl
    | some v =>
      by_cases hv : v = 0
      · simp [orOne, hv]
      · simp [orOne, hv]
  simp only [GlobeGalleryFixed.highlight, GlobeGalleryFixed.resetScale, h, Option.map_some', key]
  exact ⟨_, rfl, trivial, rfl⟩

/-- The items after a step that moves the highlight from item `A` to item `B`. -/
theorem getElem?_after_new (g : Gallery α) (A B k : Nat) (hAB : A ≠ B)
    (hI : g.INTERSECTED = some A) :
    (modifyItem B GlobeGalleryFixed.highlight
        (modifyItem A GlobeGalleryFixed.resetScale (GlobeGalleryFixed.resetOthers g)))[k]? =
      g.galleryItems[k]?.map (fun item =>
        if k = B then GlobeGalleryFixed.highlight (GlobeGalleryFixed.resetScale item)
        else GlobeGalleryFixed.resetScale item) := by
  simp only [getElem?_modifyItem, GlobeGalleryFixed.resetOthers, List.getElem?_mapIdx, hI,
    Option.map_map]
  cases g.galleryItems[k]? with
  | none => rfl
  | some item =>
    simp only [Option.map_some', Function.comp, Option.some.injEq]
    by_cases hkA : k = A
    · have hkB : k ≠ B := fun h => hAB (hkA.symm.trans h)
      simp [hkA, hAB]
    · by_cases hkB : k = B
      · simp [hkB, hkA, Ne.symm hAB]
      · simp [hkA, hkB]

end Highlight

/-! ## Highlighting: claims -/

/-- C6: a `checkIntersections` step that resolves item `A`, followed by one
that resolves a different item `B`, leaves `INTERSECTED` at `B`; the mesh of
`A` and of every item other than `B` is at its baseline scale
(`originalScale || 1`), and the mesh of `B` is at `originalScale * 1.15` with
a non-zero cached `originalScale`: only `B` is highlighted. -/
theorem highlight_exclusive {α : Type} [LinearOrderedField α] (g : Gallery α)
    (rayA rayB : Mesh α → Option α) (A B : Nat) (hAB : A ≠ B)
    (hA : GlobeGalleryFixed.intersectedItem rayA g = some A)
    (hB : GlobeGalleryFixed.intersectedItem rayB
      (GlobeGalleryFixed.checkIntersections rayA g) = some B) :
    (GlobeGalleryFixed.checkIntersections rayA g).INTERSECTED = some A ∧
      (GlobeGalleryFixed.checkIntersections rayB
        (GlobeGalleryFixed.checkIntersections rayA g)).INTERSECTED = some B ∧
      (∃ itemA mA,
        (GlobeGalleryFixed.checkIntersections rayB
          (GlobeGalleryFixed.checkIntersections rayA g)).galleryItems[A]? = some itemA ∧
        itemA.mesh = some mA ∧
        mA.scale = ⟨orOne itemA.originalScale, orOne itemA.originalScale,
          orOne itemA.originalScale⟩) ∧
      (∃ itemB mB o,
        (GlobeGalleryFixed.checkIntersections rayB
          (GlobeGalleryFixed.checkIntersections rayA g)).galleryItems[B]? = some itemB ∧
        itemB.mesh = some mB ∧ itemB.originalScale = some o ∧ o ≠ 0 ∧
        mB.scale = ⟨o * 1.15, o * 1.15, o * 1.15⟩) ∧
      (∀ k item m, k ≠ B →
        (GlobeGalleryFixed.checkIntersections rayB
          (GlobeGalleryFixed.checkIntersections rayA g)).galleryItems[k]? = some item →
        item.mesh = some m →
        m.scale = ⟨orOne item.originalScale, orOne item.originalScale,
          orOne item.originalScale⟩) := by
  have hI1 := checkIntersections_INTERSECTED rayA g A hA
  have hne : some B ≠ (GlobeGalleryFixed.checkIntersections rayA g).INTERSECTED := by
    rw [hI1]
    intro h
    exact hAB (Option.some.inj h).symm
  have hstep := checkIntersections_of_new rayB _ B hB hne
  have hAmesh : ∃ a, ((GlobeGalleryFixed.checkIntersections rayA g).galleryItems.map
      meshId)[A]? = some (some a) := by
    obtain ⟨a, ha⟩ := intersectedItem_some_meshId rayA g A hA
    exact ⟨a, by rw [meshIds_checkIntersections]; exact ha⟩
  generalize GlobeGalleryFixed.checkIntersections rayA g = g1 at hI1 hB hstep hAmesh ⊢
  simp only [hI1] at hstep
  have hget := fun k => getElem?_after_new g1 A B k hAB hI1
  rw [hstep]
  simp only [hget]
  refine ⟨hI1, trivial, ?_, ?_, ?_⟩
  · obtain ⟨a, ha⟩ := hAmesh
    obtain ⟨item, m, hitem, hm⟩ := exists_mesh_of_meshId _ _ _ ha
    have hmesh : (GlobeGalleryFixed.resetScale item).mesh =
        some { m with scale := ⟨orOne item.originalScale, orOne item.originalScale,
          orOne item.originalScale⟩ } := by
      simp [GlobeGalleryFixed.resetScale, hm]
    refine ⟨GlobeGalleryFixed.resetScale item, _, ?_, hmesh, ?_⟩
    · simp [hitem, hAB]
    · exact resetScale_baseline item _ hmesh
  · obtain ⟨a, ha⟩ := intersectedItem_some_meshId rayB g1 B hB
    obtain ⟨item, m0, hitem, hm0⟩ := exists_mesh_of_meshId _ _ _ ha
    obtain ⟨m, h1, h2, h3⟩ := highlight_resetScale item m0 hm0
    refine ⟨_, m, orOne item.originalScale, ?_, h1, h2, orOne_ne_zero _, h3⟩
    simp [hitem]
  · intro k item m hk hitem hm
    cases hk0 : g1.galleryItems[k]? with
    | none => simp [hk0] at hitem
    | some item0 =>
      simp only [hk0, Option.map_some', if_neg hk, Option.some.injEq] at hitem
      subst hitem
      exact resetScale_baseline item0 m hm

/-- Witness of C6: on `twoMeshGallery` the first ray resolves item 0 and the
second ray resolves item 1. -/
theorem highlight_exclusive_witness :
    GlobeGalleryFixed.intersectedItem sampleRay twoMeshGallery = some 0 ∧
      GlobeGalleryFixed.intersectedItem secondRay
        (GlobeGalleryFixed.checkIntersections sampleRay twoMeshGallery) = some 1 ∧
      ((GlobeGalleryFixed.checkIntersections sampleRay twoMeshGallery).INTERSECTED = some 0 ∧
        (GlobeGalleryFixed.checkIntersections secondRay
          (GlobeGalleryFixed.checkIntersections sampleRay twoMeshGallery)).INTERSECTED =
            some 1 ∧
        (∃ itemA mA,
          (GlobeGalleryFixed.checkIntersections secondRay
            (GlobeGalleryFixed.checkIntersections sampleRay twoMeshGallery)).galleryItems[0]? =
              some itemA ∧
          itemA.mesh = some mA ∧
          mA.scale = ⟨orOne itemA.originalScale, orOne itemA.originalScale,
            orOne itemA.originalScale⟩) ∧
        (∃ itemB mB o,
          (GlobeGalleryFixed.checkIntersections secondRay
            (GlobeGalleryFixed.checkIntersections sampleRay twoMeshGallery)).galleryItems[1]? =
              some itemB ∧
          itemB.mesh = some mB ∧ itemB.originalScale = some o ∧ o ≠ 0 ∧
          mB.scale = ⟨o * 1.15, o * 1.15, o * 1.15⟩) ∧
        (∀ k item m, k ≠ 1 →
          (GlobeGalleryFixed.checkIntersections secondRay
            (GlobeGalleryFixed.checkIntersections sampleRay twoMeshGallery)).galleryItems[k]? =
              some item →
          item.mesh = some m →
          m.scale = ⟨orOne item.originalScale, orOne item.originalScale,
            orOne item.originalScale⟩)) :=
  ⟨by decide, by decide,
    highlight_exclusive twoMeshGallery sampleRay secondRay 0 1 (by decide) (by decide)
      (by decide)⟩

/-! ## The visibility update: claims -/

/-- C7 as stated fails: an item loaded from an entry whose category label is
`Nature` and whose `data-category` attribute is `nature` is made visible by
the filter key `nature` (in both variants), although the key is not `all`
and `item.category`, the label the loader recorded, differs from the key. -/
theorem updateVisibleItems_category_counterexample :
    ¬ (∀ item ∈ (GlobeGalleryFixed.updateVisibleItems (some (some "nature"))
          loadedGallery).galleryItems,
        (item.visible = true ↔ ("nature" = "all" ∨ item.category = "nature"))) ∧
    ¬ (∀ item ∈ (GlobeGallery.updateVisibleItems ratMath (some (some "nature"))
          loadedGallery).1.galleryItems,
        (item.visible = true ↔ ("nature" = "all" ∨ item.category = "nature"))) := by
  decide

/-- C7 amended: for every filter key, `updateVisibleItems` (in both variants)
sets the `visible` flag of each item to `key = "all" ∨ item.dataCategory = key`
and the `visible` flag of its mesh, when it has one, to the same value; and
`dataCategory` is the `data-category` attribute of the entry the item was
loaded from (`''` when absent), while `category` is the text of its label. -/
theorem updateVisibleItems_sets_visible {α : Type} [LinearOrderedField α] (M : MathOps α)
    (g : Gallery α) (key : String) (entries : List GalleryEntry) :
    (GlobeGalleryFixed.updateVisibleItems (some (some key)) g).galleryItems.map
        (fun item => (item.visible, item.mesh.map (fun m => m.visible))) =
      g.galleryItems.map (fun item =>
        (decide (key = "all" ∨ item.dataCategory = key),
          item.mesh.map (fun _ => decide (key = "all" ∨ item.dataCategory = key)))) ∧
    (GlobeGallery.updateVisibleItems M (some (some key)) g).1.galleryItems.map
        (fun item => (item.visible, item.mesh.map (fun m => m.visible))) =
      g.galleryItems.map (fun item =>
        (decide (key = "all" ∨ item.dataCategory = key),
          item.mesh.map (fun _ => decide (key = "all" ∨ item.dataCategory = key)))) ∧
    (GlobeGalleryFixed.loadGalleryItems entries ([] : List (GalleryItem α))).map
        (fun item => (item.dataCategory, item.category)) =
      (entries.filter (fun entry => entry.img.isSome)).map
        (fun entry => (orString entry.dataCategory "", orString entry.categoryLabel "")) := by
  have hvis : ∀ item : GalleryItem α,
      isVisible (some key) item = decide (key = "all" ∨ item.dataCategory = key) := by
    intro item
    by_cases h1 : key = "all" <;> by_cases h2 : item.dataCategory = key <;>
      simp [isVisible, h1, h2]
  refine ⟨?_, ?_, ?_⟩
  · simp only [GlobeGalleryFixed.updateVisibleItems, filterValue, List.map_map]
    apply List.map_congr_left
    intro item _
    simp only [Function.comp, hvis]
    cases item.mesh <;> rfl
  · simp only [GlobeGallery.updateVisibleItems, filterValue, List.map_map]
    apply List.map_congr_left
    intro item _
    cases hm : item.mesh <;> simp [GlobeGallery.setVisibility, hm, hvis]
  · simp only [GlobeGalleryFixed.loadGalleryItems, List.nil_append]
    induction entries with
    | nil => rfl
    | cons entry rest ih =>
      cases himg : entry.img with
      | none => simpa [List.filterMap_cons, List.filter_cons, himg] using ih
      | some img => simpa [List.filterMap_cons, List.filter_cons, himg] using ih

/-! ## Re-layout: lemmas -/

section Relayout

variable {α : Type}

theorem mem_visibleItems (g : Gallery α) (idx : Nat) (item : GalleryItem α) :
    (idx, item) ∈ GlobeGallery.visibleItems g ↔
      g.galleryItems[idx]? = some item ∧ item.visible = true := by
  simp [GlobeGallery.visibleItems, List.mem_filter, List.mk_mem_enum_iff_getElem?]

theorem visibleItems_indices_increasing (g : Gallery α) :
    ((GlobeGallery.visibleItems g).map Prod.fst).Pairwise (fun a b => a < b) := by
  have hsub : ((GlobeGallery.visibleItems g).map Prod.fst).Sublist
      (g.galleryItems.enum.map Prod.fst) :=
    List.Sublist.map _ (List.filter_sublist _)
  rw [List.enum_map_fst] at hsub
  exact List.Pairwise.sublist hsub (List.pairwise_lt_range _)

theorem length_visibleItems (g : Gallery α) :
    (GlobeGallery.visibleItems g).length = g.galleryItems.countP (fun item => item.visible) := by
  have h : (GlobeGallery.visibleItems g).map Prod.snd =
      g.galleryItems.filter (fun item => item.visible) := by
    unfold GlobeGallery.visibleItems
    have := List.filter_map (f := (Prod.snd : Nat × GalleryItem α → GalleryItem α))
      (p := fun item => item.visible) (l := g.galleryItems.enum)
    rw [List.enum_map_snd] at this
    exact this.symm
  rw [List.countP_eq_length_filter, ← h, List.length_map]

variable [LinearOrderedField α]

theorem mem_rearrangeVisibleItems (M : MathOps α) (g : Gallery α) (t : Tween α) :
    t ∈ GlobeGallery.rearrangeVisibleItems M g ↔
      ∃ k idx item, (GlobeGallery.visibleItems g)[k]? = some (idx, item) ∧
        item.mesh.isSome = true ∧
        t = ⟨idx, spherePosition M (GlobeGallery.visibleItems g).length k g.sphereRadius⟩ := by
  unfold GlobeGallery.rearrangeVisibleItems
  simp only
  split
  · rename_i h0
    have hnil : GlobeGallery.visibleItems g = [] := List.length_eq_zero.1 h0
    simp [hnil]
  · simp only [List.mem_filterMap, Prod.exists, List.mk_mem_enum_iff_getElem?]
    constructor
    · rintro ⟨k, idx, item, hk, ht⟩
      by_cases hm : item.mesh.isSome = true
      · simp only [hm, if_true, Option.some.injEq] at ht
        exact ⟨k, idx, item, hk, hm, ht.symm⟩
      · simp [hm] at ht
    · rintro ⟨k, idx, item, hk, hm, ht⟩
      exact ⟨k, idx, item, hk, by simp [hm, ht]⟩

end Relayout

/-! ## Re-layout: claims -/

/-- C8 as stated fails: of five items the filter `X` matches two, the items 0
and 2, and item 2 has no mesh yet; the visible count is 2, but
`rearrangeVisibleItems` starts a transition for item 0 only, so the second
visible item is not targeted at the position for index 1 of 2. -/
theorem relayout_pending_counterexample :
    (GlobeGallery.visibleItems
        (GlobeGallery.updateVisibleItems ratMath (some (some "X")) pendingGallery).1).length = 2 ∧
    ¬ (∀ k idx item,
        (GlobeGallery.visibleItems
          (GlobeGallery.updateVisibleItems ratMath (some (some "X")) pendingGallery).1)[k]? =
            some (idx, item) →
        ∃ t ∈ (GlobeGallery.updateVisibleItems ratMath (some (some "X")) pendingGallery).2,
          t.item = idx ∧ t.target = spherePosition ratMath 2 k 2) := by
  refine ⟨by decide, ?_⟩
  intro h
  have hitems : (GlobeGallery.updateVisibleItems ratMath (some (some "X")) pendingGallery).2.map
      (fun t => t.item) = [0] := by decide
  obtain ⟨t, ht, hidx, _⟩ := h 1 2 (GlobeGallery.setVisibility (some "X") (meshItem 2 "X" false))
    (by rfl)
  have hmem : t.item ∈ (GlobeGallery.updateVisibleItems ratMath (some (some "X"))
      pendingGallery).2.map (fun t => t.item) := List.mem_map_of_mem _ ht
  rw [hitems, hidx] at hmem
  simp at hmem

/-- C8 amended: after the visibility update of the class variant for a filter
key, an item is visible exactly when the key is `all` or equals its
`dataCategory`, and the visible items, `M` of them, are listed in the
original order; re-layout starts a transition only for visible items that
have a mesh, a visible item without a mesh gets none, and for `M ≥ 2` the
transitions are exactly those that target the `k`-th visible item (counted
over all visible items), when it has a mesh, at the layout position for
index `k` of `M`. -/
theorem relayout_targets_visible_meshes {α : Type} [LinearOrderedField α] (M : MathOps α)
    (g : Gallery α) (key : String) :
    (GlobeGallery.updateVisibleItems M (some (some key)) g).1.galleryItems.map
        (fun item => item.visible) =
      g.galleryItems.map (fun item => decide (key = "all" ∨ item.dataCategory = key)) ∧
    (GlobeGallery.visibleItems (GlobeGallery.updateVisibleItems M (some (some key)) g).1).length =
      g.galleryItems.countP (fun item => decide (key = "all" ∨ item.dataCategory = key)) ∧
    ((GlobeGallery.visibleItems
      (GlobeGallery.updateVisibleItems M (some (some key)) g).1).map Prod.fst).Pairwise
        (fun a b => a < b) ∧
    (∀ idx item,
      (idx, item) ∈ GlobeGallery.visibleItems
          (GlobeGallery.updateVisibleItems M (some (some key)) g).1 ↔
        (GlobeGallery.updateVisibleItems M (some (some key)) g).1.galleryItems[idx]? =
          some item ∧ item.visible = true) ∧
    (∀ t ∈ (GlobeGallery.updateVisibleItems M (some (some key)) g).2,
      ∃ item m,
        (t.item, item) ∈ GlobeGallery.visibleItems
          (GlobeGallery.updateVisibleItems M (some (some key)) g).1 ∧
        item.mesh = some m) ∧
    (∀ idx item,
      (idx, item) ∈ GlobeGallery.visibleItems
          (GlobeGallery.updateVisibleItems M (some (some key)) g).1 →
      item.mesh = none →
      ∀ t ∈ (GlobeGallery.updateVisibleItems M (some (some key)) g).2, t.item ≠ idx) ∧
    (2 ≤ g.galleryItems.countP (fun item => decide (key = "all" ∨ item.dataCategory = key)) →
      ∀ t, t ∈ (GlobeGallery.updateVisibleItems M (some (some key)) g).2 ↔
        ∃ k idx item,
          (GlobeGallery.visibleItems
            (GlobeGallery.updateVisibleItems M (some (some key)) g).1)[k]? = some (idx, item) ∧
          item.mesh.isSome = true ∧
          t = ⟨idx, spherePosition M
            (g.galleryItems.countP (fun item => decide (key = "all" ∨ item.dataCategory = key)))
            k g.sphereRadius⟩) := by
  have hvis : ∀ item : GalleryItem α,
      isVisible (some key) item = decide (key = "all" ∨ item.dataCategory = key) := by
    intro item
    by_cases h1 : key = "all" <;> by_cases h2 : item.dataCategory = key <;>
      simp [isVisible, h1, h2]
  have h1 : (GlobeGallery.updateVisibleItems M (some (some key)) g).1.galleryItems.map
        (fun item => item.visible) =
      g.galleryItems.map (fun item => decide (key = "all" ∨ item.dataCategory = key)) := by
    simp only [GlobeGallery.updateVisibleItems, filterValue, List.map_map]
    apply List.map_congr_left
    intro item _
    simp [GlobeGallery.setVisibility, hvis]
  have h2 : (GlobeGallery.visibleItems
        (GlobeGallery.updateVisibleItems M (some (some key)) g).1).length =
      g.galleryItems.countP (fun item => decide (key = "all" ∨ item.dataCategory = key)) := by
    rw [length_visibleItems]
    simp only [GlobeGallery.updateVisibleItems, filterValue, List.countP_map]
    congr 1
    funext item
    simp [GlobeGallery.setVisibility, hvis]
  have h5 : ∀ t, t ∈ (GlobeGallery.updateVisibleItems M (some (some key)) g).2 ↔
      ∃ k idx item,
        (GlobeGallery.visibleItems
          (GlobeGallery.updateVisibleItems M (some (some key)) g).1)[k]? = some (idx, item) ∧
        item.mesh.isSome = true ∧
        t = ⟨idx, spherePosition M
          (g.galleryItems.countP (fun item => decide (key = "all" ∨ item.dataCategory = key)))
          k g.sphereRadius⟩ := by
    intro t
    rw [← h2]
    exact mem_rearrangeVisibleItems M _ t
  have h6 : ∀ t ∈ (GlobeGallery.updateVisibleItems M (some (some key)) g).2,
      ∃ item m,
        (t.item, item) ∈ GlobeGallery.visibleItems
          (GlobeGallery.updateVisibleItems M (some (some key)) g).1 ∧
        item.mesh = some m := by
    intro t ht
    obtain ⟨k, idx, item, hk, hsome, rfl⟩ := (h5 t).1 ht
    obtain ⟨m, hm⟩ := Option.isSome_iff_exists.1 hsome
    exact ⟨item, m, List.getElem?_mem hk, hm⟩
  refine ⟨h1, h2, visibleItems_indices_increasing _, mem_visibleItems _, h6, ?_, fun _ => h5⟩
  intro idx item hmem hmesh t ht hidx
  obtain ⟨item', m, hmem', hm⟩ := h6 t ht
  rw [hidx] at hmem'
  have e1 := (mem_visibleItems _ _ _).1 hmem
  have e2 := (mem_visibleItems _ _ _).1 hmem'
  rw [e1.1] at e2
  have : item = item' := Option.some.inj e2.1
  subst this
  rw [hmesh] at hm
  cases hm

/-- Witness of C8: five items with meshes, two of them of category `X`;
after the update for `X` the visible count is 2 and the items 0 and 2 are
targeted at the positions for the indices 0 and 1 of 2. -/
theorem relayout_targets_visible_meshes_witness :
    (GlobeGallery.visibleItems
        (GlobeGallery.updateVisibleItems ratMath (some (some "X")) fiveGallery).1).length = 2 ∧
    (GlobeGallery.updateVisibleItems ratMath (some (some "X")) fiveGallery).2 =
      [⟨0, spherePosition ratMath 2 0 2⟩, ⟨2, spherePosition ratMath 2 1 2⟩] ∧
    2 ≤ fiveGallery.galleryItems.countP
      (fun item => decide ("X" = "all" ∨ item.dataCategory = "X")) ∧
    (∀ t, t ∈ (GlobeGallery.updateVisibleItems ratMath (some (some "X")) fiveGallery).2 ↔
      ∃ k idx item,
        (GlobeGallery.visibleItems
          (GlobeGallery.updateVisibleItems ratMath (some (some "X")) fiveGallery).1)[k]? =
            some (idx, item) ∧
        item.mesh.isSome = true ∧
        t = ⟨idx, spherePosition ratMath
          (fiveGallery.galleryItems.countP
            (fun item => decide ("X" = "all" ∨ item.dataCategory = "X")))
          k fiveGallery.sphereRadius⟩) :=
  ⟨by decide, by rfl, by decide,
    (relayout_targets_visible_meshes ratMath fiveGallery "X").2.2.2.2.2.2 (by decide)⟩

/-! ## The visibility update: idempotence and frame -/

section Frame

variable {α : Type}

theorem setVisibility_idem (fv : Option String) (item : GalleryItem α) :
    GlobeGallery.setVisibility fv (GlobeGallery.setVisibility fv item) =
      GlobeGallery.setVisibility fv item := by
  have h : isVisible fv (GlobeGallery.setVisibility fv item) = isVisible fv item := rfl
  unfold GlobeGallery.setVisibility at h ⊢
  simp only [h, Option.map_map]
  cases item.mesh <;> cases item.glowMesh <;> cases item.label <;> rfl

theorem withoutVisibility_setVisibility (fv : Option String) (item : GalleryItem α) :
    withoutVisibility (GlobeGallery.setVisibility fv item) = withoutVisibility item := by
  unfold withoutVisibility GlobeGallery.setVisibility
  simp only [Option.map_map]
  cases item.mesh <;> cases item.glowMesh <;> cases item.label <;> rfl

end Frame

/-- C9: running the visibility update twice with the same active filter gives
the same gallery, hence the same visible flags, and the same transitions,
hence the same target positions, as running it once; so does the update of
the object-literal variant, which starts no transition. -/
theorem updateVisibleItems_idempotent {α : Type} [LinearOrderedField α] (M : MathOps α)
    (activeFilter : Option (Option String)) (g : Gallery α) :
    GlobeGallery.updateVisibleItems M activeFilter
        (GlobeGallery.updateVisibleItems M activeFilter g).1 =
      GlobeGallery.updateVisibleItems M activeFilter g ∧
    GlobeGalleryFixed.updateVisibleItems activeFilter
        (GlobeGalleryFixed.updateVisibleItems activeFilter g) =
      GlobeGalleryFixed.updateVisibleItems activeFilter g := by
  constructor
  · have hitems : (g.galleryItems.map (GlobeGallery.setVisibility (filterValue activeFilter))).map
        (GlobeGallery.setVisibility (filterValue activeFilter)) =
        g.galleryItems.map (GlobeGallery.setVisibility (filterValue activeFilter)) := by
      rw [List.map_map]
      apply List.map_congr_left
      intro item _
      exact setVisibility_idem _ item
    simp only [GlobeGallery.updateVisibleItems, hitems]
  · have hitem : ∀ item : GalleryItem α,
        ({ ({ item with
              visible := isVisible (filterValue activeFilter) item
              mesh := item.mesh.map (fun m =>
                { m with visible := isVisible (filterValue activeFilter) item }) } :
              GalleryItem α) with
            visible := isVisible (filterValue activeFilter) item
            mesh := (item.mesh.map (fun m =>
                ({ m with visible := isVisible (filterValue activeFilter) item } :
                  Mesh α))).map (fun m =>
                { m with visible := isVisible (filterValue activeFilter) item }) } :
          GalleryItem α) =
        { item with
          visible := isVisible (filterValue activeFilter) item
          mesh := item.mesh.map (fun m =>
            { m with visible := isVisible (filterValue activeFilter) item }) } := by
      intro item
      cases item.mesh <;> rfl
    simp only [GlobeGalleryFixed.updateVisibleItems, List.map_map]
    congr 1
    apply List.map_congr_left
    intro item _
    exact hitem item

/-- C10: the visibility update, in both variants, leaves the sequence of
gallery items as it is: the same number of items, in the same order, each
with the same element, `imgSrc`, `title`, `category` and `dataCategory`, and
with everything else but its visibility flags unchanged; `INTERSECTED` and
`sphereRadius` are unchanged as well. -/
theorem updateVisibleItems_keeps_sequence {α : Type} [LinearOrderedField α] (M : MathOps α)
    (activeFilter : Option (Option String)) (g : Gallery α) :
    ((GlobeGalleryFixed.updateVisibleItems activeFilter g).galleryItems.length =
        g.galleryItems.length ∧
      (GlobeGalleryFixed.updateVisibleItems activeFilter g).galleryItems.map
          (fun item => (item.element, item.imgSrc, item.title, item.category,
            item.dataCategory)) =
        g.galleryItems.map
          (fun item => (item.element, item.imgSrc, item.title, item.category,
            item.dataCategory)) ∧
      (GlobeGalleryFixed.updateVisibleItems activeFilter g).galleryItems.map withoutVisibility =
        g.galleryItems.map withoutVisibility ∧
      (GlobeGalleryFixed.updateVisibleItems activeFilter g).INTERSECTED = g.INTERSECTED ∧
      (GlobeGalleryFixed.updateVisibleItems activeFilter g).sphereRadius = g.sphereRadius) ∧
    ((GlobeGallery.updateVisibleItems M activeFilter g).1.galleryItems.length =
        g.galleryItems.length ∧
      (GlobeGallery.updateVisibleItems M activeFilter g).1.galleryItems.map
          (fun item => (item.element, item.imgSrc, item.title, item.category,
            item.dataCategory)) =
        g.galleryItems.map
          (fun item => (item.element, item.imgSrc, item.title, item.category,
            item.dataCategory)) ∧
      (GlobeGallery.updateVisibleItems M activeFilter g).1.galleryItems.map withoutVisibility =
        g.galleryItems.map withoutVisibility ∧
      (GlobeGallery.updateVisibleItems M activeFilter g).1.INTERSECTED = g.INTERSECTED ∧
      (GlobeGallery.updateVisibleItems M activeFilter g).1.sphereRadius = g.sphereRadius) := by
  refine ⟨⟨?_, ?_, ?_, rfl, rfl⟩, ⟨?_, ?_, ?_, rfl, rfl⟩⟩
  · simp [GlobeGalleryFixed.updateVisibleItems]
  · simp only [GlobeGalleryFixed.updateVisibleItems, List.map_map]
    apply List.map_congr_left
    intro item _
    rfl
  · simp only [GlobeGalleryFixed.updateVisibleItems, List.map_map]
    apply List.map_congr_left
    intro item _
    simp only [Function.comp, withoutVisibility, Option.map_map]
    cases item.mesh <;> rfl
  · simp [GlobeGallery.updateVisibleItems]
  · simp only [GlobeGallery.updateVisibleItems, List.map_map]
    apply List.map_congr_left
    intro item _
    rfl
  · simp only [GlobeGallery.updateVisibleItems, List.map_map]
    apply List.map_congr_left
    intro item _
    exact withoutVisibility_setVisibility _ item

/-! ## The animation loop: lemmas -/

section Loop

variable {α : Type}

theorem addEventListeners_keeps (page : Page) (g : Gallery α) :
    (GlobeGalleryFixed.addEventListeners page g).container = g.container ∧
    (GlobeGalleryFixed.addEventListeners page g).isInitialized = g.isInitialized ∧
    (GlobeGalleryFixed.addEventListeners page g).scheduledFrames = g.scheduledFrames ∧
    (GlobeGalleryFixed.addEventListeners page g).galleryItems = g.galleryItems := by
  unfold GlobeGalleryFixed.addEventListeners
  split <;> exact ⟨rfl, rfl, rfl, rfl⟩

theorem render_frame (frame : Frame α) (g : Gallery α) :
    { GlobeGalleryFixed.render frame g with renderedFrames := g.renderedFrames } = g := by
  unfold GlobeGalleryFixed.render
  split
  · split <;> rfl
  · rfl

variable [LinearOrderedField α]

/-- The method `checkIntersections` writes to the items, to `INTERSECTED` and to the cursor only. -/
theorem checkIntersections_frame (ray : Mesh α → Option α) (g : Gallery α) :
    { GlobeGalleryFixed.checkIntersections ray g with
      galleryItems := g.galleryItems, INTERSECTED := g.INTERSECTED, cursor := g.cursor } = g := by
  unfold GlobeGalleryFixed.checkIntersections
  simp only
  split
  · rfl
  · split
    · split
      · split
        · rfl
        · rfl
      · rfl
    · split <;> rfl

theorem animateBody_scheduledFrames (M : MathOps α) (frame : Frame α) (g g2 : Gallery α)
    (h : GlobeGalleryFixed.animateBody M frame g = Except.ok g2) :
    g2.scheduledFrames = g.scheduledFrames ∧ g2.isInitialized = g.isInitialized := by
  have hc : ∀ g' : Gallery α,
      (GlobeGalleryFixed.render frame
        (GlobeGalleryFixed.checkIntersections frame.ray g')).scheduledFrames =
          g'.scheduledFrames ∧
      (GlobeGalleryFixed.render frame
        (GlobeGalleryFixed.checkIntersections frame.ray g')).isInitialized =
          g'.isInitialized := by
    intro g'
    have h1 := congrArg Gallery.scheduledFrames (checkIntersections_frame frame.ray g')
    have h2 := congrArg Gallery.isInitialized (checkIntersections_frame frame.ray g')
    have h3 := congrArg Gallery.scheduledFrames
      (render_frame frame (GlobeGalleryFixed.checkIntersections frame.ray g'))
    have h4 := congrArg Gallery.isInitialized
      (render_frame frame (GlobeGalleryFixed.checkIntersections frame.ray g'))
    simp only at h1 h2 h3 h4
    exact ⟨h3.trans h1, h4.trans h2⟩
  unfold GlobeGalleryFixed.animateBody at h
  simp only at h
  split at h
  · cases h
  · rename_i g1 hmoved
    cases h
    obtain ⟨e1, e2⟩ := hc
      { g1 with
        bgSphere := g1.bgSphere.map (fun r => ⟨r.x + 0.001 * 0.05, r.y + 0.001 * 0.1⟩)
        innerSphere := g1.innerSphere.map (fun r => ⟨r.x + 0.001 * 0.1, r.y - 0.001 * 0.3⟩) }
    rw [e1, e2]
    simp only
    split at hmoved
    · split at hmoved
      · cases hmoved
      · cases hmoved
        exact ⟨rfl, rfl⟩
    · split at hmoved
      · cases hmoved
      · cases hmoved
        exact ⟨rfl, rfl⟩

theorem initScene_keeps (page : Page) (g : Gallery α) :
    (GlobeGalleryFixed.initScene page g).container = g.container ∧
    (GlobeGalleryFixed.initScene page g).isInitialized = g.isInitialized ∧
    (GlobeGalleryFixed.initScene page g).scheduledFrames = g.scheduledFrames ∧
    (GlobeGalleryFixed.initScene page g).listeners = g.listeners ∧
    (GlobeGalleryFixed.initScene page g).galleryItems = g.galleryItems := by
  unfold GlobeGalleryFixed.initScene
  simp only
  split
  · exact ⟨rfl, rfl, rfl, rfl, rfl⟩
  · split <;> exact ⟨rfl, rfl, rfl, rfl, rfl⟩

end Loop

/-! ## The animation loop: claims -/

/-- C11 (the code on a page that has the container and the 3D library): `init` calls `animate`
before it sets `isInitialized`, so that call returns at its first line and
requests no frame; `init` ends with `isInitialized` set, the listeners
registered and as many frames scheduled as before, none for the gallery as
first created: the loop is not running. -/
theorem init_schedules_no_frame {α : Type} [LinearOrderedField α] (M : MathOps α)
    (frame : Frame α) (page : Page) (containerId : String) (c : Nat) (g : Gallery α) :
    (GlobeGalleryFixed.init M frame { page with elements := (containerId, c) :: page.elements, three := true }
        containerId { g with isInitialized := false }).container = some c ∧
    (GlobeGalleryFixed.init M frame { page with elements := (containerId, c) :: page.elements, three := true }
        containerId { g with isInitialized := false }).isInitialized = true ∧
    (GlobeGalleryFixed.init M frame { page with elements := (containerId, c) :: page.elements, three := true }
        containerId { g with isInitialized := false }).scheduledFrames = g.scheduledFrames ∧
    (GlobeGalleryFixed.init M frame { page with elements := (containerId, c) :: page.elements, three := true }
        containerId (GlobeGalleryFixed.initial : Gallery α)).scheduledFrames = 0 := by
  have hlookup : (Page.getElementById { page with elements := (containerId, c) :: page.elements, three := true }
      containerId) = some c := by
    simp [Page.getElementById, List.lookup]
  have key : ∀ g0 : Gallery α, g0.isInitialized = false →
      GlobeGalleryFixed.init M frame { page with elements := (containerId, c) :: page.elements, three := true }
        containerId g0 =
      { GlobeGalleryFixed.addEventListeners
          { page with elements := (containerId, c) :: page.elements, three := true }
          (GlobeGalleryFixed.initScene
            { page with elements := (containerId, c) :: page.elements, three := true }
            { g0 with
              container := some c, darkMode := page.darkTheme, raycaster := true,
              mouse := some ⟨some 0, some 0⟩,
              galleryItems := GlobeGalleryFixed.loadGalleryItems page.entries g0.galleryItems })
        with isInitialized := true } := by
    intro g0 h0
    have hinit : (GlobeGalleryFixed.addEventListeners
        { page with elements := (containerId, c) :: page.elements, three := true }
        (GlobeGalleryFixed.initScene
          { page with elements := (containerId, c) :: page.elements, three := true }
          { g0 with
            container := some c, darkMode := page.darkTheme, raycaster := true,
            mouse := some ⟨some 0, some 0⟩,
            galleryItems := GlobeGalleryFixed.loadGalleryItems page.entries
              g0.galleryItems })).isInitialized = false := by
      rw [(addEventListeners_keeps _ _).2.1, (initScene_keeps _ _).2.1]
      exact h0
    unfold GlobeGalleryFixed.init
    simp only [hlookup, Bool.not_true, Bool.false_eq_true, if_false]
    unfold GlobeGalleryFixed.animate
    simp only [hinit, Bool.not_false, if_true]
  refine ⟨?_, ?_, ?_, ?_⟩
  · rw [key _ rfl]
    simp only
    rw [(addEventListeners_keeps _ _).1, (initScene_keeps _ _).1]
  · rw [key _ rfl]
  · rw [key _ rfl]
    simp only
    rw [(addEventListeners_keeps _ _).2.2.1, (initScene_keeps _ _).2.2.1]
  · rw [key _ rfl]
    simp only
    rw [(addEventListeners_keeps _ _).2.2.1, (initScene_keeps _ _).2.2.1]
    rfl

/-- C12: in a step of `animate` on an initialized gallery the next frame is
requested whether or not the body raises: the count of scheduled frames goes
up by one and the gallery stays initialized; when the body raises (no
sphere to rotate, or `controls.update()` raising) the step leaves the
gallery as it was but for the scheduled frame. -/
theorem animate_always_schedules {α : Type} [LinearOrderedField α] (M : MathOps α)
    (frame : Frame α) (g : Gallery α) (hinit : g.isInitialized = true) :
    (GlobeGalleryFixed.animate M frame g).scheduledFrames = g.scheduledFrames + 1 ∧
    (GlobeGalleryFixed.animate M frame g).isInitialized = true ∧
    (∀ e, GlobeGalleryFixed.animateBody M frame
          { g with scheduledFrames := g.scheduledFrames + 1 } = Except.error e →
      GlobeGalleryFixed.animate M frame g =
        { g with scheduledFrames := g.scheduledFrames + 1 }) ∧
    (g.controls = false → g.sphere = none →
      ∃ e, GlobeGalleryFixed.animateBody M frame
        { g with scheduledFrames := g.scheduledFrames + 1 } = Except.error e) ∧
    (g.controls = true → frame.controlsUpdateThrows = true →
      ∃ e, GlobeGalleryFixed.animateBody M frame
        { g with scheduledFrames := g.scheduledFrames + 1 } = Except.error e) := by
  have hstep : GlobeGalleryFixed.animate M frame g =
      match GlobeGalleryFixed.animateBody M frame
          { g with scheduledFrames := g.scheduledFrames + 1 } with
      | Except.ok g2 => g2
      | Except.error _ => { g with scheduledFrames := g.scheduledFrames + 1 } := by
    unfold GlobeGalleryFixed.animate
    simp [hinit]
  refine ⟨?_, ?_, ?_, ?_, ?_⟩
  · rw [hstep]
    cases hb : GlobeGalleryFixed.animateBody M frame
        { g with scheduledFrames := g.scheduledFrames + 1 } with
    | error e => rfl
    | ok g2 => exact (animateBody_scheduledFrames M frame _ g2 hb).1
  · rw [hstep]
    cases hb : GlobeGalleryFixed.animateBody M frame
        { g with scheduledFrames := g.scheduledFrames + 1 } with
    | error e => exact hinit
    | ok g2 => exact (animateBody_scheduledFrames M frame _ g2 hb).2.trans hinit
  · intro e he
    rw [hstep, he]
  · intro hc hs
    exact ⟨"TypeError: this.sphere is null", by simp [GlobeGalleryFixed.animateBody, hc, hs]⟩
  · intro hc ht
    exact ⟨"controls.update raised", by simp [GlobeGalleryFixed.animateBody, hc, ht]⟩

/-- Witness of C12: after `init` on a page where no renderer can be created
the gallery is initialized and has no sphere, so the body of the step
raises, and the frame is scheduled all the same. -/
theorem animate_always_schedules_witness :
    failedSceneGallery.isInitialized = true ∧
    GlobeGalleryFixed.animateBody ratMath sampleFrame
        { failedSceneGallery with scheduledFrames := failedSceneGallery.scheduledFrames + 1 } =
      Except.error "TypeError: this.sphere is null" ∧
    (GlobeGalleryFixed.animate ratMath sampleFrame failedSceneGallery).scheduledFrames =
      failedSceneGallery.scheduledFrames + 1 ∧
    (GlobeGalleryFixed.animate ratMath sampleFrame initializedGallery).scheduledFrames =
      initializedGallery.scheduledFrames + 1 :=
  ⟨by rfl, by rfl,
    (animate_always_schedules ratMath sampleFrame failedSceneGallery (by rfl)).1,
    (animate_always_schedules ratMath sampleFrame initializedGallery (by rfl)).1⟩

/-! ## No intersection: lemmas -/

section Miss

variable {α : Type} [LinearOrderedField α]

theorem intersectObjects_eq_nil_of_miss (ray : Mesh α → Option α) (objects : List (Mesh α))
    (hmiss : ∀ m ∈ objects, ray m = none) : intersectObjects ray objects = [] := by
  apply List.eq_nil_iff_forall_not_mem.2
  intro hit hmem
  obtain ⟨hobj, hray⟩ := (mem_intersectObjects ray objects hit).1 hmem
  rw [hmiss hit.object hobj] at hray
  cases hray

theorem resetOthers_of_none (g : Gallery α) (hI : g.INTERSECTED = none) :
    GlobeGalleryFixed.resetOthers g = g.galleryItems.map GlobeGalleryFixed.resetScale := by
  apply List.ext_getElem?
  intro k
  simp only [GlobeGalleryFixed.resetOthers, List.getElem?_mapIdx, hI, List.getElem?_map]
  cases g.galleryItems[k]? <;> simp

theorem restore_resetOthers (g : Gallery α) (p : Nat) (hI : g.INTERSECTED = some p) :
    modifyItem p GlobeGalleryFixed.resetScale (GlobeGalleryFixed.resetOthers g) =
      g.galleryItems.map GlobeGalleryFixed.resetScale := by
  apply List.ext_getElem?
  intro k
  simp only [getElem?_modifyItem, GlobeGalleryFixed.resetOthers, List.getElem?_mapIdx, hI,
    List.getElem?_map, Option.map_map]
  cases g.galleryItems[k]? with
  | none => rfl
  | some item =>
    by_cases hk : k = p
    · simp [hk]
    · have hk' : ¬ p = k := fun h => hk h.symm
      simp [hk, hk']

/-- The step of `checkIntersections` when the ray test runs and meets nothing. -/
theorem checkIntersections_of_miss (ray : Mesh α → Option α) (g : Gallery α)
    (hvalid : validMeshes g.galleryItems ≠ [])
    (hmiss : ∀ m ∈ validMeshes g.galleryItems, ray m = none) :
    GlobeGalleryFixed.checkIntersections ray g =
      match g.INTERSECTED with
      | some _ =>
        { g with
          galleryItems := g.galleryItems.map GlobeGalleryFixed.resetScale
          INTERSECTED := none
          cursor := "auto" }
      | none => { g with galleryItems := g.galleryItems.map GlobeGalleryFixed.resetScale } := by
  have h1 : ¬ (validMeshes g.galleryItems).length = 0 := fun h =>
    hvalid (List.length_eq_zero.1 h)
  have h2 : ¬ (intersectObjects ray (validMeshes g.galleryItems)).length > 0 := by
    rw [intersectObjects_eq_nil_of_miss ray _ hmiss]
    simp
  unfold GlobeGalleryFixed.checkIntersections
  simp only [if_neg h1, if_neg h2]
  cases hI : g.INTERSECTED with
  | none => simp only [resetOthers_of_none g hI]
  | some p => simp only [restore_resetOthers g p hI]

end Miss

/-! ## No intersection: claims -/

/-- C13 as stated fails: in the reachable gallery where the highlighted item
0 and every other item were hidden by a filter, no visible item has a mesh,
the picker finds no intersection, and the step returns at the guard on the
candidate list: `INTERSECTED` stays at item 0, the cursor stays `pointer`
and the mesh of item 0 keeps the highlight scale.  And where the ray test
runs and there was no intersected item, the cursor is not set to `auto`. -/
theorem no_intersection_hidden_counterexample :
    GlobeGalleryFixed.Reachable hiddenHighlightGallery ∧
    validMeshes hiddenHighlightGallery.galleryItems = [] ∧
    GlobeGalleryFixed.intersectedItem missRay hiddenHighlightGallery = none ∧
    (GlobeGalleryFixed.checkIntersections missRay hiddenHighlightGallery).INTERSECTED = some 0 ∧
    (GlobeGalleryFixed.checkIntersections missRay hiddenHighlightGallery).cursor = "pointer" ∧
    (GlobeGalleryFixed.checkIntersections missRay hiddenHighlightGallery).galleryItems.map
        (fun item => (item.originalScale, item.mesh.map (fun m => m.scale.x))) =
      [(some 1, some (1 * 1.15)), (none, some 1)] ∧
    ¬ ((GlobeGalleryFixed.checkIntersections missRay hiddenHighlightGallery).INTERSECTED = none ∧
      (GlobeGalleryFixed.checkIntersections missRay hiddenHighlightGallery).cursor = "auto") ∧
    (validMeshes twoMeshGallery.galleryItems).length = 2 ∧
    GlobeGalleryFixed.intersectedItem missRay twoMeshGallery = none ∧
    (GlobeGalleryFixed.checkIntersections missRay twoMeshGallery).cursor = "" := by
  refine ⟨?_, by rfl, by decide, by decide, by decide, by rfl, by decide, by decide, by decide,
    by decide⟩
  exact GlobeGalleryFixed.Reachable.updateVisibleItems _ _
    (GlobeGalleryFixed.Reachable.checkIntersections _ _ twoMeshGallery_reachable)

/-- C13 amended: when the ray test runs, that is when some visible item has
a mesh, and the ray meets none of the candidate meshes, the step sets the
mesh of every item, the last intersected one included, to its baseline
scale and changes nothing else of the items, clears `INTERSECTED`, and sets
the cursor to `auto` if there was an intersected item, leaving it as it was
if there was none. -/
theorem no_intersection_restores {α : Type} [LinearOrderedField α] (g : Gallery α)
    (ray : Mesh α → Option α) (hvalid : validMeshes g.galleryItems ≠ [])
    (hmiss : ∀ m ∈ validMeshes g.galleryItems, ray m = none) :
    (GlobeGalleryFixed.checkIntersections ray g).INTERSECTED = none ∧
    (GlobeGalleryFixed.checkIntersections ray g).galleryItems =
      g.galleryItems.map GlobeGalleryFixed.resetScale ∧
    (∀ (k : Nat) (item : GalleryItem α) (m : Mesh α),
      (GlobeGalleryFixed.checkIntersections ray g).galleryItems[k]? = some item →
      item.mesh = some m →
      m.scale = ⟨orOne item.originalScale, orOne item.originalScale,
        orOne item.originalScale⟩) ∧
    (g.INTERSECTED ≠ none → (GlobeGalleryFixed.checkIntersections ray g).cursor = "auto") ∧
    (g.INTERSECTED = none → (GlobeGalleryFixed.checkIntersections ray g).cursor = g.cursor) := by
  have hstep := checkIntersections_of_miss ray g hvalid hmiss
  have hitems : (GlobeGalleryFixed.checkIntersections ray g).galleryItems =
      g.galleryItems.map GlobeGalleryFixed.resetScale := by
    rw [hstep]
    cases g.INTERSECTED <;> rfl
  refine ⟨?_, hitems, ?_, ?_, ?_⟩
  · rw [hstep]
    cases hI : g.INTERSECTED with
    | none => simp only [hI]
    | some p => rfl
  · intro k item m hk hm
    rw [hitems, List.getElem?_map] at hk
    cases hk0 : g.galleryItems[k]? with
    | none => simp [hk0] at hk
    | some item0 =>
      simp only [hk0, Option.map_some', Option.some.injEq] at hk
      subst hk
      exact resetScale_baseline item0 m hm
  · intro hI
    rw [hstep]
    cases hI' : g.INTERSECTED with
    | none => exact absurd hI' hI
    | some p => rfl
  · intro hI
    rw [hstep]
    simp only [hI]

/-- Witness of C13: the pointer leaves the first item of `hoveredGallery`;
the ray test runs over both meshes and meets nothing. -/
theorem no_intersection_restores_witness :
    validMeshes hoveredGallery.galleryItems ≠ [] ∧
    (∀ m ∈ validMeshes hoveredGallery.galleryItems, missRay m = none) ∧
    hoveredGallery.INTERSECTED = some 0 ∧
    hoveredGallery.cursor = "pointer" ∧
    (GlobeGalleryFixed.checkIntersections missRay hoveredGallery).cursor = "auto" ∧
    ((GlobeGalleryFixed.checkIntersections missRay hoveredGallery).INTERSECTED = none ∧
      (GlobeGalleryFixed.checkIntersections missRay hoveredGallery).galleryItems =
        hoveredGallery.galleryItems.map GlobeGalleryFixed.resetScale ∧
      (∀ (k : Nat) (item : GalleryItem ℚ) (m : Mesh ℚ),
        (GlobeGalleryFixed.checkIntersections missRay hoveredGallery).galleryItems[k]? =
          some item →
        item.mesh = some m →
        m.scale = ⟨orOne item.originalScale, orOne item.originalScale,
          orOne item.originalScale⟩) ∧
      (hoveredGallery.INTERSECTED ≠ none →
        (GlobeGalleryFixed.checkIntersections missRay hoveredGallery).cursor = "auto") ∧
      (hoveredGallery.INTERSECTED = none →
        (GlobeGalleryFixed.checkIntersections missRay hoveredGallery).cursor =
          hoveredGallery.cursor)) :=
  ⟨List.ne_nil_of_length_pos (by decide), fun _ _ => rfl, by decide, by decide, by decide,
    no_intersection_restores hoveredGallery missRay
      (List.ne_nil_of_length_pos (by decide)) (fun _ _ => rfl)⟩

/-! ## Resizing and initialization: claims -/

/-- C14: while `isInitialized` is false, `onWindowResize` returns the gallery
as it is, whatever the camera, the renderer and the client size of the
container are, in the object-literal variant and in the class variant, where
no exception leaves it. -/
theorem onWindowResize_before_init {α : Type} [LinearOrderedField α]
    (clientWidth clientHeight : Nat) (g : Gallery α) (hinit : g.isInitialized = false) :
    GlobeGalleryFixed.onWindowResize clientWidth clientHeight g = g ∧
    GlobeGallery.onWindowResize clientWidth clientHeight g = (g, none) := by
  constructor
  · simp [GlobeGalleryFixed.onWindowResize, hinit]
  · simp [GlobeGallery.onWindowResize, hinit]

/-- Witness of C14: the loaded gallery, not yet initialized, with a container of height 0. -/
theorem onWindowResize_before_init_witness :
    loadedGallery.isInitialized = false ∧
    GlobeGalleryFixed.onWindowResize 800 0 loadedGallery = loadedGallery ∧
    GlobeGallery.onWindowResize 800 0 loadedGallery = (loadedGallery, none) :=
  ⟨rfl, onWindowResize_before_init 800 0 loadedGallery rfl⟩

/-- C15: for a fixed client size of the container, `onWindowResize` run
twice gives the gallery it gives when run once; it leaves everything but
the camera and the renderer as it was, and of a camera everything but
`aspect` and the projection; on an initialized gallery with a camera the
aspect and the projection are those of `clientWidth / clientHeight`, and
with a renderer too the renderer has the client size. -/
theorem onWindowResize_idempotent {α : Type} [LinearOrderedField α]
    (clientWidth clientHeight : Nat) (g : Gallery α) :
    GlobeGalleryFixed.onWindowResize clientWidth clientHeight
        (GlobeGalleryFixed.onWindowResize clientWidth clientHeight g) =
      GlobeGalleryFixed.onWindowResize clientWidth clientHeight g ∧
    { GlobeGalleryFixed.onWindowResize clientWidth clientHeight g with
      camera := g.camera, renderer := g.renderer } = g ∧
    (GlobeGalleryFixed.onWindowResize clientWidth clientHeight g).renderer.isSome =
      g.renderer.isSome ∧
    (GlobeGalleryFixed.onWindowResize clientWidth clientHeight g).camera.map
        (fun c => (c.fov, c.near, c.far, c.positionZ)) =
      g.camera.map (fun c => (c.fov, c.near, c.far, c.positionZ)) ∧
    (g.isInitialized = true →
      (GlobeGalleryFixed.onWindowResize clientWidth clientHeight g).camera.map
          (fun c => (c.aspect, c.projectionAspect)) =
        g.camera.map (fun _ =>
          (jsDiv (clientWidth : α) (clientHeight : α),
            jsDiv (clientWidth : α) (clientHeight : α))) ∧
      (g.camera.isSome = true →
        (GlobeGalleryFixed.onWindowResize clientWidth clientHeight g).renderer =
          g.renderer.map (fun _ => ⟨clientWidth, clientHeight⟩))) := by
  by_cases hi : g.isInitialized = true
  swap
  · have h : GlobeGalleryFixed.onWindowResize clientWidth clientHeight g = g := by
      simp [GlobeGalleryFixed.onWindowResize, hi]
    rw [h, h]
    exact ⟨rfl, rfl, rfl, rfl, fun h' => absurd h' hi⟩
  have hcam : g.camera = none ∨ ∃ camera, g.camera = some camera := by
    cases g.camera
    · exact Or.inl rfl
    · exact Or.inr ⟨_, rfl⟩
  have hren : g.renderer = none ∨ ∃ renderer, g.renderer = some renderer := by
    cases g.renderer
    · exact Or.inl rfl
    · exact Or.inr ⟨_, rfl⟩
  rcases hcam with hc | ⟨camera, hc⟩
  · have h : GlobeGalleryFixed.onWindowResize clientWidth clientHeight g = g := by
      simp [GlobeGalleryFixed.onWindowResize, hi, hc]
    rw [h, h]
    exact ⟨rfl, rfl, rfl, rfl, fun _ => ⟨by simp [hc], fun h' => by simp [hc] at h'⟩⟩
  rcases hren with hr | ⟨renderer, hr⟩
  · have h : GlobeGalleryFixed.onWindowResize clientWidth clientHeight g =
        { g with camera := some { camera with
            aspect := jsDiv (clientWidth : α) (clientHeight : α)
            projectionAspect := jsDiv (clientWidth : α) (clientHeight : α) } } := by
      simp [GlobeGalleryFixed.onWindowResize, hi, hc, hr]
    have h2 : GlobeGalleryFixed.onWindowResize clientWidth clientHeight
        { g with camera := some { camera with
            aspect := jsDiv (clientWidth : α) (clientHeight : α)
            projectionAspect := jsDiv (clientWidth : α) (clientHeight : α) } } =
        { g with camera := some { camera with
            aspect := jsDiv (clientWidth : α) (clientHeight : α)
            projectionAspect := jsDiv (clientWidth : α) (clientHeight : α) } } := by
      simp [GlobeGalleryFixed.onWindowResize, hi, hr]
    rw [h, h2]
    exact ⟨rfl, rfl, rfl, by simp [hc], fun _ => ⟨by simp [hc], fun _ => by simp [hr]⟩⟩
  · have h : GlobeGalleryFixed.onWindowResize clientWidth clientHeight g =
        { g with
          camera := some { camera with
            aspect := jsDiv (clientWidth : α) (clientHeight : α)
            projectionAspect := jsDiv (clientWidth : α) (clientHeight : α) }
          renderer := some ⟨clientWidth, clientHeight⟩ } := by
      simp [GlobeGalleryFixed.onWindowResize, hi, hc, hr]
    have h2 : GlobeGalleryFixed.onWindowResize clientWidth clientHeight
        { g with
          camera := some { camera with
            aspect := jsDiv (clientWidth : α) (clientHeight : α)
            projectionAspect := jsDiv (clientWidth : α) (clientHeight : α) }
          renderer := some ⟨clientWidth, clientHeight⟩ } =
        { g with
          camera := some { camera with
            aspect := jsDiv (clientWidth : α) (clientHeight : α)
            projectionAspect := jsDiv (clientWidth : α) (clientHeight : α) }
          renderer := some ⟨clientWidth, clientHeight⟩ } := by
      simp [GlobeGalleryFixed.onWindowResize, hi]
    rw [h, h2]
    exact ⟨rfl, rfl, by simp [hr], by simp [hc],
      fun _ => ⟨by simp [hc], fun _ => by simp [hr]⟩⟩

/-- C18: `init` with an id that names no element of the page returns after
writing `container` only, and so does the constructor of the class variant;
on the gallery as first created, `isInitialized` is false, the item list is
empty, there is no scene, camera or renderer, no listener is registered and
no frame is scheduled. -/
theorem init_missing_container {α : Type} [LinearOrderedField α] (M : MathOps α)
    (frame : Frame α) (page : Page) (containerId : String) (g : Gallery α)
    (rest : Gallery α → Gallery α) (hmissing : page.getElementById containerId = none) :
    GlobeGalleryFixed.init M frame page containerId g = { g with container := none } ∧
    GlobeGallery.construct page containerId rest g = { g with container := none } ∧
    (GlobeGalleryFixed.init M frame page containerId
        (GlobeGalleryFixed.initial : Gallery α)).isInitialized = false ∧
    (GlobeGalleryFixed.init M frame page containerId
        (GlobeGalleryFixed.initial : Gallery α)).galleryItems = [] ∧
    (GlobeGalleryFixed.init M frame page containerId
        (GlobeGalleryFixed.initial : Gallery α)).scene = false ∧
    (GlobeGalleryFixed.init M frame page containerId
        (GlobeGalleryFixed.initial : Gallery α)).camera.isNone = true ∧
    (GlobeGalleryFixed.init M frame page containerId
        (GlobeGalleryFixed.initial : Gallery α)).renderer = none ∧
    (GlobeGalleryFixed.init M frame page containerId
        (GlobeGalleryFixed.initial : Gallery α)).listeners = [] ∧
    (GlobeGalleryFixed.init M frame page containerId
        (GlobeGalleryFixed.initial : Gallery α)).scheduledFrames = 0 := by
  have h : ∀ g0 : Gallery α,
      GlobeGalleryFixed.init M frame page containerId g0 = { g0 with container := none } := by
    intro g0
    unfold GlobeGalleryFixed.init
    simp only [hmissing]
  refine ⟨h g, ?_, ?_, ?_, ?_, ?_, ?_, ?_, ?_⟩
  · unfold GlobeGallery.construct
    simp only [hmissing]
  all_goals rw [h]; rfl

/-- Witness of C18: the sample page has no element with the id `missing`. -/
theorem init_missing_container_witness :
    samplePage.getElementById "missing" = none ∧
    GlobeGalleryFixed.init ratMath sampleFrame samplePage "missing"
        (GlobeGalleryFixed.initial : Gallery ℚ) =
      { (GlobeGalleryFixed.initial : Gallery ℚ) with container := none } ∧
    (GlobeGalleryFixed.init ratMath sampleFrame samplePage "missing"
        (GlobeGalleryFixed.initial : Gallery ℚ)).isInitialized = false ∧
    (GlobeGalleryFixed.init ratMath sampleFrame samplePage "missing"
        (GlobeGalleryFixed.initial : Gallery ℚ)).listeners = [] :=
  ⟨by decide,
    (init_missing_container ratMath sampleFrame samplePage "missing"
      GlobeGalleryFixed.initial id (by decide)).1,
    (init_missing_container ratMath sampleFrame samplePage "missing"
      GlobeGalleryFixed.initial id (by decide)).2.2.1,
    (init_missing_container ratMath sampleFrame samplePage "missing"
      GlobeGalleryFixed.initial id (by decide)).2.2.2.2.2.2.2.1⟩

/-! ## The item loader: lemmas -/

section Loader

variable {α : Type}

theorem fixed_load_cons_some (entry : GalleryEntry) (img : ImgElement)
    (rest : List GalleryEntry) (himg : entry.img = some img) :
    GlobeGalleryFixed.loadGalleryItems (entry :: rest) ([] : List (GalleryItem α)) =
      { element := entry.element, imgSrc := img.src,
        category := orString entry.categoryLabel "", title := orString entry.caption img.alt,
        dataCategory := orString entry.dataCategory "", mesh := none, visible := true } ::
        GlobeGalleryFixed.loadGalleryItems rest [] := by
  simp [GlobeGalleryFixed.loadGalleryItems, List.filterMap_cons, himg]

theorem fixed_load_cons_none (entry : GalleryEntry) (rest : List GalleryEntry)
    (himg : entry.img = none) :
    GlobeGalleryFixed.loadGalleryItems (entry :: rest) ([] : List (GalleryItem α)) =
      GlobeGalleryFixed.loadGalleryItems rest [] := by
  simp [GlobeGalleryFixed.loadGalleryItems, List.filterMap_cons, himg]

theorem class_load_of_images (entries : List GalleryEntry) (items : List (GalleryItem α))
    (himg : ∀ entry ∈ entries, entry.img.isSome = true) :
    GlobeGallery.loadGalleryItems entries items =
      Except.ok (items ++ GlobeGalleryFixed.loadGalleryItems entries []) := by
  induction entries generalizing items with
  | nil => simp [GlobeGallery.loadGalleryItems, GlobeGalleryFixed.loadGalleryItems]
  | cons entry rest ih =>
    have h0 := himg entry (List.mem_cons_self _ _)
    obtain ⟨img, hi⟩ := Option.isSome_iff_exists.1 h0
    rw [fixed_load_cons_some entry img rest hi]
    unfold GlobeGallery.loadGalleryItems
    simp only [hi]
    rw [ih _ (fun e he => himg e (List.mem_cons_of_mem _ he))]
    simp

theorem class_load_raises (before after : List GalleryEntry) (entry : GalleryEntry)
    (items : List (GalleryItem α)) (hbefore : ∀ e ∈ before, e.img.isSome = true)
    (hentry : entry.img = none) :
    GlobeGallery.loadGalleryItems (before ++ entry :: after) items =
      Except.error "TypeError: img is null" := by
  induction before generalizing items with
  | nil =>
    simp only [List.nil_append]
    unfold GlobeGallery.loadGalleryItems
    simp only [hentry]
  | cons first rest ih =>
    have h0 := hbefore first (List.mem_cons_self _ _)
    obtain ⟨img, hi⟩ := Option.isSome_iff_exists.1 h0
    simp only [List.cons_append]
    unfold GlobeGallery.loadGalleryItems
    simp only [hi]
    exact ih _ (fun e he => hbefore e (List.mem_cons_of_mem _ he))

end Loader

/-! ## The item loader: claims -/

/-- C16 as stated fails: for an entry whose caption element holds the empty
text, the loader does not record the caption text as title but the `alt`
text of the image (both variants). -/
theorem load_empty_caption_counterexample :
    emptyCaptionEntry.caption = some "" ∧
    (GlobeGalleryFixed.loadGalleryItems [emptyCaptionEntry]
        ([] : List (GalleryItem ℚ))).map (fun item => item.title) = ["Sunset"] ∧
    (GlobeGallery.loadGalleryItems [emptyCaptionEntry] ([] : List (GalleryItem ℚ))).map
        (fun items => items.map (fun item => item.title)) = Except.ok ["Sunset"] ∧
    ¬ (∀ item ∈ GlobeGalleryFixed.loadGalleryItems [emptyCaptionEntry]
          ([] : List (GalleryItem ℚ)),
        item.title = (match emptyCaptionEntry.caption with
          | some caption => caption
          | none => "Sunset")) := by
  refine ⟨by decide, by decide, by rfl, by decide⟩

/-- C16 amended: on an empty item list and entries that each hold an image,
`loadGalleryItems` (both variants) produces one item per entry, in document
order, with the element, the image source, the label text as category (`''`
when there is no label), as title the caption text when it is not empty and
the `alt` text of the image when there is no caption or its text is empty,
no mesh and `visible` set; the class variant raises no exception. -/
theorem load_items_of_entries {α : Type} (pairs : List (GalleryEntry × ImgElement)) :
    GlobeGalleryFixed.loadGalleryItems
        (pairs.map (fun p => { p.1 with img := some p.2 })) ([] : List (GalleryItem α)) =
      pairs.map (fun p =>
        { element := p.1.element, imgSrc := p.2.src,
          category := orString p.1.categoryLabel "", title := orString p.1.caption p.2.alt,
          dataCategory := orString p.1.dataCategory "", mesh := none, visible := true }) ∧
    GlobeGallery.loadGalleryItems
        (pairs.map (fun p => { p.1 with img := some p.2 })) ([] : List (GalleryItem α)) =
      Except.ok (pairs.map (fun p =>
        { element := p.1.element, imgSrc := p.2.src,
          category := orString p.1.categoryLabel "", title := orString p.1.caption p.2.alt,
          dataCategory := orString p.1.dataCategory "", mesh := none, visible := true })) ∧
    (GlobeGalleryFixed.loadGalleryItems
        (pairs.map (fun p => { p.1 with img := some p.2 }))
        ([] : List (GalleryItem α))).length = pairs.length ∧
    (∀ text fallback : String, text ≠ "" → orString (some text) fallback = text) ∧
    (∀ fallback : String,
      orString none fallback = fallback ∧ orString (some "") fallback = fallback) := by
  have h1 : GlobeGalleryFixed.loadGalleryItems
        (pairs.map (fun p => { p.1 with img := some p.2 })) ([] : List (GalleryItem α)) =
      pairs.map (fun p =>
        { element := p.1.element, imgSrc := p.2.src,
          category := orString p.1.categoryLabel "", title := orString p.1.caption p.2.alt,
          dataCategory := orString p.1.dataCategory "", mesh := none, visible := true }) := by
    induction pairs with
    | nil => rfl
    | cons p rest ih =>
      simp only [List.map_cons]
      rw [fixed_load_cons_some _ p.2 _ rfl, ih]
  refine ⟨h1, ?_, ?_, ?_, ?_⟩
  · rw [class_load_of_images _ _ (by
      intro entry hentry
      obtain ⟨p, _, rfl⟩ := List.mem_map.1 hentry
      rfl), h1]
    simp
  · rw [h1, List.length_map]
  · intro text fallback h
    simp [orString, h]
  · intro fallback
    exact ⟨rfl, by simp [orString]⟩

/-- C17: the Item Loader, `loadGalleryItems` of `globe-gallery-fixed.js`, skips a gallery
entry that has no image element and always returns: for every list of entries the loaded
items are those of the list with the entries without an image removed, they carry, in
order, the element and the image source of the entries that contain an image, there are
as many of them as such entries, and an entry without an image can be taken out of the
list, wherever it stands, without any change to the loaded items; of the three entries
of `brokenEntries`, the second without an image, the first and the third are loaded. -/
theorem load_skips_entries_without_image {α : Type} (entries : List GalleryEntry) :
    GlobeGalleryFixed.loadGalleryItems entries ([] : List (GalleryItem α)) =
        GlobeGalleryFixed.loadGalleryItems (entries.filter (fun e => e.img.isSome)) [] ∧
      (GlobeGalleryFixed.loadGalleryItems entries ([] : List (GalleryItem α))).map
          (fun item => (item.element, item.imgSrc)) =
        entries.filterMap (fun e => e.img.map (fun img => (e.element, img.src))) ∧
      (GlobeGalleryFixed.loadGalleryItems entries ([] : List (GalleryItem α))).length =
        (entries.filter (fun e => e.img.isSome)).length ∧
      (∀ (before after : List GalleryEntry) (entry : GalleryEntry), entry.img = none →
        entries = before ++ entry :: after →
        GlobeGalleryFixed.loadGalleryItems entries ([] : List (GalleryItem α)) =
          GlobeGalleryFixed.loadGalleryItems (before ++ after) []) ∧
      (GlobeGalleryFixed.loadGalleryItems brokenEntries ([] : List (GalleryItem α))).map
          (fun item => item.element) = [0, 2] := by
  have h1 : ∀ es : List GalleryEntry,
      GlobeGalleryFixed.loadGalleryItems es ([] : List (GalleryItem α)) =
        GlobeGalleryFixed.loadGalleryItems (es.filter (fun e => e.img.isSome)) [] := by
    intro es
    induction es with
    | nil => rfl
    | cons entry rest ih =>
      cases himg : entry.img with
      | none =>
        rw [fixed_load_cons_none entry rest himg]
        simpa [List.filter_cons, himg] using ih
      | some img =>
        rw [fixed_load_cons_some entry img rest himg]
        have hf : (entry :: rest).filter (fun e => e.img.isSome) =
            entry :: rest.filter (fun e => e.img.isSome) := by
          simp [List.filter_cons, himg]
        rw [hf, fixed_load_cons_some entry img _ himg, ← ih]
  have h2 : ∀ es : List GalleryEntry,
      (GlobeGalleryFixed.loadGalleryItems es ([] : List (GalleryItem α))).map
          (fun item => (item.element, item.imgSrc)) =
        es.filterMap (fun e => e.img.map (fun img => (e.element, img.src))) ∧
      (GlobeGalleryFixed.loadGalleryItems es ([] : List (GalleryItem α))).length =
        (es.filter (fun e => e.img.isSome)).length := by
    intro es
    induction es with
    | nil => exact ⟨rfl, rfl⟩
    | cons entry rest ih =>
      cases himg : entry.img with
      | none =>
        rw [fixed_load_cons_none entry rest himg]
        simpa [List.filter_cons, List.filterMap_cons, himg] using ih
      | some img =>
        rw [fixed_load_cons_some entry img rest himg]
        simp [List.filter_cons, List.filterMap_cons, himg, ih.1, ih.2]
  refine ⟨h1 entries, (h2 entries).1, (h2 entries).2, ?_, by rfl⟩
  intro before after entry hentry hsplit
  rw [h1 entries, h1 (before ++ after), hsplit]
  simp [List.filter_append, List.filter_cons, hentry]

/-! ## Clicks: claims -/

/-- C19: `onMouseClick` leaves the gallery as it is (the class variant
returns it unchanged, the object-literal variant writes to nothing); when
the lookup resolves item `j`, one click is dispatched, on the element of
that item; when it resolves nothing, as when no visible item has a mesh or
the ray meets no candidate, no click is dispatched. -/
theorem onMouseClick_forwards_click {α : Type} [LinearOrderedField α] (g : Gallery α)
    (ray : Mesh α → Option α) :
    GlobeGallery.onMouseClick ray g = (g, (GlobeGalleryFixed.onMouseClick ray g).toList) ∧
    (∀ j : Nat, GlobeGalleryFixed.clickedItem ray g = some j →
      ∃ item, g.galleryItems[j]? = some item ∧
        GlobeGalleryFixed.onMouseClick ray g = some item.element ∧
        GlobeGallery.onMouseClick ray g = (g, [item.element])) ∧
    (GlobeGalleryFixed.clickedItem ray g = none →
      GlobeGalleryFixed.onMouseClick ray g = none ∧ GlobeGallery.onMouseClick ray g = (g, [])) ∧
    (validMeshes g.galleryItems = [] → GlobeGalleryFixed.clickedItem ray g = none) ∧
    ((∀ m ∈ validMeshes g.galleryItems, ray m = none) →
      GlobeGalleryFixed.clickedItem ray g = none) := by
  have hclass : GlobeGallery.onMouseClick ray g =
      (g, (GlobeGalleryFixed.onMouseClick ray g).toList) := by
    unfold GlobeGallery.onMouseClick GlobeGalleryFixed.onMouseClick GlobeGalleryFixed.clickedItem
    simp only
    split
    · rfl
    · cases (intersectObjects ray (validMeshes g.galleryItems)).head? with
      | none => rfl
      | some hit =>
        simp only [Option.some_bind]
        cases findItem g.galleryItems hit.object with
        | none => rfl
        | some j =>
          simp only [Option.some_bind]
          cases g.galleryItems[j]? <;> rfl
  refine ⟨hclass, ?_, ?_, ?_, ?_⟩
  · intro j hj
    have hI : GlobeGalleryFixed.intersectedItem ray g = some j := by
      rw [← clickedItem_eq]
      exact hj
    obtain ⟨a, ha⟩ := intersectedItem_some_meshId ray g j hI
    obtain ⟨item, m, hitem, _⟩ := exists_mesh_of_meshId _ _ _ ha
    have hfixed : GlobeGalleryFixed.onMouseClick ray g = some item.element := by
      simp [GlobeGalleryFixed.onMouseClick, hj, hitem]
    exact ⟨item, hitem, hfixed, by rw [hclass, hfixed]; rfl⟩
  · intro hnone
    have hfixed : GlobeGalleryFixed.onMouseClick ray g = none := by
      simp [GlobeGalleryFixed.onMouseClick, hnone]
    exact ⟨hfixed, by rw [hclass, hfixed]; rfl⟩
  · intro hnil
    simp [GlobeGalleryFixed.clickedItem, hnil]
  · intro hmiss
    unfold GlobeGalleryFixed.clickedItem
    simp only
    split
    · rfl
    · rw [intersectObjects_eq_nil_of_miss ray _ hmiss]
      rfl

/-! ## The contact form: claims -/

/-- C20: on submit the form is replaced by the success message exactly when
the trimmed name, the trimmed email and the trimmed message are not empty
and `isValidEmail` accepts the email value; the error beside the name is
shown exactly when the trimmed name is empty, the one beside the message
likewise, and beside the email `Please enter your email` is shown exactly
when the trimmed email is empty and `Please enter a valid email` exactly
when it is not empty and `isValidEmail` rejects the value. -/
theorem submit_replaces_form_iff_valid (name email message : String) :
    ((Main.submit name email message).replaced = true ↔
      Main.trim name ≠ "" ∧ Main.trim email ≠ "" ∧ Main.isValidEmail email = true ∧
        Main.trim message ≠ "") ∧
    ((Main.submit name email message).replaced = false ↔
      (Main.submit name email message).nameError ≠ none ∨
        (Main.submit name email message).emailError ≠ none ∨
        (Main.submit name email message).messageError ≠ none) ∧
    ((Main.submit name email message).nameError = some "Please enter your name" ↔
      Main.trim name = "") ∧
    ((Main.submit name email message).nameError = none ↔ Main.trim name ≠ "") ∧
    ((Main.submit name email message).emailError = some "Please enter your email" ↔
      Main.trim email = "") ∧
    ((Main.submit name email message).emailError = some "Please enter a valid email" ↔
      Main.trim email ≠ "" ∧ Main.isValidEmail email = false) ∧
    ((Main.submit name email message).emailError = none ↔
      Main.trim email ≠ "" ∧ Main.isValidEmail email = true) ∧
    ((Main.submit name email message).messageError = some "Please enter your message" ↔
      Main.trim message = "") ∧
    ((Main.submit name email message).messageError = none ↔ Main.trim message ≠ "") := by
  unfold Main.submit
  by_cases hn : Main.trim name = "" <;> by_cases he : Main.trim email = "" <;>
    by_cases hm : Main.trim message = "" <;>
    cases hv : Main.isValidEmail email <;> simp [hn, he, hm, hv]

/-! ## The slideshow: lemmas -/

section SlideshowLemmas

theorem showSlide_ok (s : Main.Slideshow) (i : Int) (hc0 : 0 ≤ s.currentSlide)
    (hc1 : s.currentSlide < s.slides.length) (hi0 : 0 ≤ i) (hi1 : i < s.slides.length) :
    Main.showSlide s (some i) =
      Except.ok
        { slides := (s.slides.set s.currentSlide.toNat false).set i.toNat true
          currentSlide := i } := by
  unfold Main.showSlide
  simp only [hc0, hc1, hi0, hi1, and_self, if_true]

theorem set_activeAt (n : Nat) (c i : Int) (hi0 : 0 ≤ i) (hi1 : i < n) :
    ((Main.activeAt n c).set c.toNat false).set i.toNat true = Main.activeAt n i := by
  apply List.ext_getElem?
  intro k
  simp only [Main.activeAt, List.getElem?_set, List.length_set, List.length_map,
    List.length_range, List.getElem?_map]
  by_cases hk : k < n
  · rw [List.getElem?_range hk]
    simp only [Option.map_some', Int.ofNat_eq_coe]
    by_cases hik : i.toNat = k
    · have : (k : Int) = i := by omega
      simp [hik, hk, this]
    · have hne : ¬ (k : Int) = i := by omega
      simp only [hik, if_false, hne, decide_False]
      by_cases hck : c.toNat = k
      · simp [hck, hk]
      · have hne2 : ¬ (k : Int) = c := by omega
        simp [hck, hne2]
  · have hnone : (List.range n)[k]? = none := by
      simp only [List.getElem?_eq_none_iff, List.length_range]
      omega
    have hik : ¬ i.toNat = k := by omega
    simp only [hnone, Option.map_none', hik, if_false]
    by_cases hck : c.toNat = k
    · simp [hck, hk]
    · simp [hck]

theorem next_index (c n : Int) (hc0 : 0 ≤ c) (hc1 : c < n) :
    Main.jsMod (c + 1) n = some ((c + 1) % n) ∧ 0 ≤ (c + 1) % n ∧ (c + 1) % n < n ∧
      (c + 1 < n → (c + 1) % n = c + 1) ∧ (c = n - 1 → (c + 1) % n = 0) := by
  have hn : n ≠ 0 := by omega
  refine ⟨?_, Int.emod_nonneg _ hn, Int.emod_lt_of_pos _ (by omega), ?_, ?_⟩
  · simp only [Main.jsMod, if_neg hn]
    rw [Int.tmod_eq_emod (by omega) (by omega)]
  · intro h
    exact Int.emod_eq_of_lt (by omega) h
  · intro h
    have : c + 1 = n := by omega
    rw [this]
    exact Int.emod_self

theorem prev_index (c n : Int) (hc0 : 0 ≤ c) (hc1 : c < n) :
    Main.jsMod (c - 1 + n) n = some ((c - 1 + n) % n) ∧ 0 ≤ (c - 1 + n) % n ∧
      (c - 1 + n) % n < n ∧
      (1 ≤ c → (c - 1 + n) % n = c - 1) ∧ (c = 0 → (c - 1 + n) % n = n - 1) := by
  have hn : n ≠ 0 := by omega
  refine ⟨?_, Int.emod_nonneg _ hn, Int.emod_lt_of_pos _ (by omega), ?_, ?_⟩
  · simp only [Main.jsMod, if_neg hn]
    rw [Int.tmod_eq_emod (by omega) (by omega)]
  · intro h
    rw [Int.add_emod_self]
    exact Int.emod_eq_of_lt (by omega) (by omega)
  · intro h
    have h0 : c - 1 + n = n - 1 := by omega
    rw [h0]
    exact Int.emod_eq_of_lt (by omega) (by omega)

theorem prev_next_index (c n : Int) (hc0 : 0 ≤ c) (hc1 : c < n) :
    ((c + 1) % n - 1 + n) % n = c ∧ ((c - 1 + n) % n + 1) % n = c := by
  obtain ⟨_, _, _, hn1, hn2⟩ := next_index c n hc0 hc1
  obtain ⟨_, _, _, hp1, hp2⟩ := prev_index c n hc0 hc1
  constructor
  · by_cases h : c + 1 < n
    · rw [hn1 h]
      have : c + 1 - 1 + n = c + n := by omega
      rw [this, Int.add_emod_self]
      exact Int.emod_eq_of_lt hc0 hc1
    · have hc : c = n - 1 := by omega
      rw [hn2 hc]
      have : (0 : Int) - 1 + n = c := by omega
      rw [this]
      exact Int.emod_eq_of_lt hc0 hc1
  · by_cases h : 1 ≤ c
    · rw [hp1 h]
      have : c - 1 + 1 = c := by omega
      rw [this]
      exact Int.emod_eq_of_lt hc0 hc1
    · have hc : c = 0 := by omega
      rw [hp2 hc]
      have : n - 1 + 1 = n := by omega
      rw [this, hc]
      exact Int.emod_self

theorem showNextSlide_eq (s : Main.Slideshow) (hc0 : 0 ≤ s.currentSlide)
    (hc1 : s.currentSlide < s.slides.length) :
    Main.showNextSlide s =
      Except.ok
        { slides := (s.slides.set s.currentSlide.toNat false).set
            ((s.currentSlide + 1) % s.slides.length).toNat true
          currentSlide := (s.currentSlide + 1) % s.slides.length } := by
  obtain ⟨h1, h2, h3, _, _⟩ := next_index s.currentSlide s.slides.length hc0 hc1
  unfold Main.showNextSlide
  rw [h1]
  exact showSlide_ok s _ hc0 hc1 h2 h3

theorem showPrevSlide_eq (s : Main.Slideshow) (hc0 : 0 ≤ s.currentSlide)
    (hc1 : s.currentSlide < s.slides.length) :
    Main.showPrevSlide s =
      Except.ok
        { slides := (s.slides.set s.currentSlide.toNat false).set
            ((s.currentSlide - 1 + s.slides.length) % s.slides.length).toNat true
          currentSlide := (s.currentSlide - 1 + s.slides.length) % s.slides.length } := by
  obtain ⟨h1, h2, h3, _, _⟩ := prev_index s.currentSlide s.slides.length hc0 hc1
  unfold Main.showPrevSlide
  rw [h1]
  exact showSlide_ok s _ hc0 hc1 h2 h3

theorem showNextSlides_index (k : Nat) (s : Main.Slideshow) (hc0 : 0 ≤ s.currentSlide)
    (hc1 : s.currentSlide < s.slides.length) :
    ∃ r, Main.showNextSlides k s = Except.ok r ∧ r.slides.length = s.slides.length ∧
      r.currentSlide = (s.currentSlide + k) % s.slides.length := by
  induction k generalizing s with
  | zero =>
    refine ⟨s, rfl, rfl, ?_⟩
    simp only [Nat.cast_zero, Int.add_zero]
    exact (Int.emod_eq_of_lt hc0 hc1).symm
  | succ k ih =>
    obtain ⟨_, h2, h3, _, _⟩ := next_index s.currentSlide s.slides.length hc0 hc1
    unfold Main.showNextSlides
    rw [showNextSlide_eq s hc0 hc1]
    simp only
    obtain ⟨r, hr, hlen, hidx⟩ := ih
      { slides := (s.slides.set s.currentSlide.toNat false).set
          ((s.currentSlide + 1) % s.slides.length).toNat true
        currentSlide := (s.currentSlide + 1) % s.slides.length }
      (by simpa using h2) (by simpa using h3)
    refine ⟨r, hr, by simpa using hlen, ?_⟩
    rw [hidx]
    simp only [List.length_set, Nat.cast_add, Nat.cast_one]
    rw [Int.emod_add_emod]
    congr 1
    omega

theorem exactlyActive_iff (slides : List Bool) (c : Int) :
    Main.exactlyActive slides c ↔ slides = Main.activeAt slides.length c := by
  constructor
  · intro h
    apply List.ext_getElem?
    intro k
    by_cases hk : k < slides.length
    · have hk2 := h k hk
      simp only [Main.activeAt, List.getElem?_map, List.getElem?_range hk, Option.map_some']
      rw [List.getElem?_eq_getElem hk] at hk2 ⊢
      cases hb : slides[k] with
      | true =>
        rw [hb] at hk2
        have he : (k : Int) = c := hk2.mp rfl
        simp [he]
      | false =>
        rw [hb] at hk2
        have hne : ¬ (k : Int) = c := fun e => by simpa using hk2.mpr e
        simp [hne]
    · have h1 : slides[k]? = none := List.getElem?_eq_none_iff.mpr (by omega)
      have h2 : (Main.activeAt slides.length c)[k]? = none :=
        List.getElem?_eq_none_iff.mpr (by simp [Main.activeAt]; omega)
      rw [h1, h2]
  · intro h
    generalize slides.length = n at h
    subst h
    intro k hk
    have hk2 : k < n := by simpa [Main.activeAt] using hk
    simp [Main.activeAt, List.getElem?_range hk2]

theorem showSlide_active (s : Main.Slideshow) (i : Int) (hi0 : 0 ≤ i)
    (hi1 : i < s.slides.length) (h : Main.exactlyActive s.slides s.currentSlide) :
    (s.slides.set s.currentSlide.toNat false).set i.toNat true =
      Main.activeAt s.slides.length i := by
  have h2 := (exactlyActive_iff _ _).mp h
  generalize s.slides.length = n at h2 hi1 ⊢
  rw [h2]
  exact set_activeAt n _ i hi0 hi1

theorem showNextSlides_active (k : Nat) (s : Main.Slideshow) (hc0 : 0 ≤ s.currentSlide)
    (hc1 : s.currentSlide < s.slides.length)
    (h : Main.exactlyActive s.slides s.currentSlide) :
    ∃ r, Main.showNextSlides k s = Except.ok r ∧
      r.slides = Main.activeAt s.slides.length r.currentSlide := by
  induction k generalizing s with
  | zero => exact ⟨s, rfl, (exactlyActive_iff _ _).mp h⟩
  | succ k ih =>
    obtain ⟨_, h2, h3, _, _⟩ := next_index s.currentSlide s.slides.length hc0 hc1
    have hset := showSlide_active s _ h2 h3 h
    unfold Main.showNextSlides
    rw [showNextSlide_eq s hc0 hc1]
    simp only
    obtain ⟨r, hr, hact⟩ := ih
      { slides := (s.slides.set s.currentSlide.toNat false).set
          ((s.currentSlide + 1) % s.slides.length).toNat true
        currentSlide := (s.currentSlide + 1) % s.slides.length }
      (by simpa using h2) (by simpa using h3)
      (by
        apply (exactlyActive_iff _ _).mpr
        simpa using hset)
    exact ⟨r, hr, by simpa using hact⟩

end SlideshowLemmas

/-! ## C27: the slideshow wraps around -/

/-- C27: for a slideshow of `n ≥ 1` slides whose current index `c` satisfies `0 ≤ c < n`,
`showNextSlide` and `showPrevSlide` both complete and keep the index in `[0, n)`, with
wrap-around (next from `n - 1` gives `0`, prev from `0` gives `n - 1`, otherwise `c + 1`
and `c - 1`); prev after next and next after prev return to `c`, and so do `n` consecutive
`showNextSlide` calls; if exactly the slide at `c` is marked active before a call, exactly
the slide at the new index is marked active after it (so that the inverse calls and the
`n` calls restore the whole slideshow). -/
theorem slideshow_wraps_around (s : Main.Slideshow) (hc0 : 0 ≤ s.currentSlide)
    (hc1 : s.currentSlide < s.slides.length) :
    ∃ next prev, Main.showNextSlide s = Except.ok next ∧ Main.showPrevSlide s = Except.ok prev ∧
      next.slides.length = s.slides.length ∧ prev.slides.length = s.slides.length ∧
      (0 ≤ next.currentSlide ∧ next.currentSlide < s.slides.length) ∧
      (0 ≤ prev.currentSlide ∧ prev.currentSlide < s.slides.length) ∧
      (s.currentSlide + 1 < s.slides.length → next.currentSlide = s.currentSlide + 1) ∧
      (s.currentSlide = s.slides.length - 1 → next.currentSlide = 0) ∧
      (1 ≤ s.currentSlide → prev.currentSlide = s.currentSlide - 1) ∧
      (s.currentSlide = 0 → prev.currentSlide = s.slides.length - 1) ∧
      (∃ r, Main.showPrevSlide next = Except.ok r ∧ r.currentSlide = s.currentSlide) ∧
      (∃ r, Main.showNextSlide prev = Except.ok r ∧ r.currentSlide = s.currentSlide) ∧
      (∃ r, Main.showNextSlides s.slides.length s = Except.ok r ∧
        r.currentSlide = s.currentSlide) ∧
      (Main.exactlyActive s.slides s.currentSlide →
        Main.exactlyActive next.slides next.currentSlide ∧
        Main.exactlyActive prev.slides prev.currentSlide ∧
        Main.showPrevSlide next = Except.ok s ∧ Main.showNextSlide prev = Except.ok s ∧
        Main.showNextSlides s.slides.length s = Except.ok s) := by
  obtain ⟨_, hn0, hn1, hn2, hn3⟩ := next_index s.currentSlide s.slides.length hc0 hc1
  obtain ⟨_, hp0, hp1, hp2, hp3⟩ := prev_index s.currentSlide s.slides.length hc0 hc1
  obtain ⟨hpn, hnp⟩ := prev_next_index s.currentSlide s.slides.length hc0 hc1
  have hnext := showNextSlide_eq s hc0 hc1
  have hprev := showPrevSlide_eq s hc0 hc1
  have hpnext := showPrevSlide_eq
    { slides := (s.slides.set s.currentSlide.toNat false).set
        ((s.currentSlide + 1) % s.slides.length).toNat true
      currentSlide := (s.currentSlide + 1) % s.slides.length }
    (by simpa using hn0) (by simpa using hn1)
  have hnprev := showNextSlide_eq
    { slides := (s.slides.set s.currentSlide.toNat false).set
        ((s.currentSlide - 1 + s.slides.length) % s.slides.length).toNat true
      currentSlide := (s.currentSlide - 1 + s.slides.length) % s.slides.length }
    (by simpa using hp0) (by simpa using hp1)
  simp only [List.length_set, hpn, hnp] at hpnext hnprev
  obtain ⟨r, hr, hrlen, hridx⟩ := showNextSlides_index s.slides.length s hc0 hc1
  have hridx2 : r.currentSlide = s.currentSlide := by
    rw [hridx, Int.add_emod_self]
    exact Int.emod_eq_of_lt hc0 hc1
  refine ⟨_, _, hnext, hprev, by simp, by simp, ⟨hn0, hn1⟩, ⟨hp0, hp1⟩, hn2, hn3, hp2, hp3,
    ⟨_, hpnext, rfl⟩, ⟨_, hnprev, rfl⟩, ⟨r, hr, hridx2⟩, ?_⟩
  intro hact
  have hs : s.slides = Main.activeAt s.slides.length s.currentSlide :=
    (exactlyActive_iff _ _).mp hact
  have hsn := showSlide_active s _ hn0 hn1 hact
  have hsp := showSlide_active s _ hp0 hp1 hact
  have hback : ∀ i : Int, 0 ≤ i → i < s.slides.length →
      ((Main.activeAt s.slides.length i).set i.toNat false).set s.currentSlide.toNat true =
        s.slides := by
    intro i hi0 hi1
    rw [set_activeAt _ i _ hc0 hc1]
    exact hs.symm
  refine ⟨?_, ?_, ?_, ?_, ?_⟩
  · apply (exactlyActive_iff _ _).mpr
    simpa using hsn
  · apply (exactlyActive_iff _ _).mpr
    simpa using hsp
  · rw [hpnext, hsn, hback _ hn0 hn1]
  · rw [hnprev, hsp, hback _ hp0 hp1]
  · obtain ⟨r2, hr2, hact2⟩ := showNextSlides_active s.slides.length s hc0 hc1 hact
    rw [hr] at hr2
    cases hr2
    rw [hr]
    have : r = s := by
      cases r
      cases s
      simp only at hact2 hridx2 hs ⊢
      rw [hridx2] at hact2
      rw [hact2.trans hs.symm, hridx2]
    rw [this]

/-- Witness for C27 on three slides of which the last is shown. -/
theorem slideshow_wraps_around_witness :
    (0 : Int) ≤ sampleSlideshow.currentSlide ∧
      sampleSlideshow.currentSlide < sampleSlideshow.slides.length ∧
      ∃ next prev, Main.showNextSlide sampleSlideshow = Except.ok next ∧
        Main.showPrevSlide sampleSlideshow = Except.ok prev ∧
        next.slides.length = sampleSlideshow.slides.length ∧
        prev.slides.length = sampleSlideshow.slides.length ∧
        (0 ≤ next.currentSlide ∧ next.currentSlide < sampleSlideshow.slides.length) ∧
        (0 ≤ prev.currentSlide ∧ prev.currentSlide < sampleSlideshow.slides.length) ∧
        (sampleSlideshow.currentSlide + 1 < sampleSlideshow.slides.length →
          next.currentSlide = sampleSlideshow.currentSlide + 1) ∧
        (sampleSlideshow.currentSlide = sampleSlideshow.slides.length - 1 →
          next.currentSlide = 0) ∧
        (1 ≤ sampleSlideshow.currentSlide →
          prev.currentSlide = sampleSlideshow.currentSlide - 1) ∧
        (sampleSlideshow.currentSlide = 0 →
          prev.currentSlide = sampleSlideshow.slides.length - 1) ∧
        (∃ r, Main.showPrevSlide next = Except.ok r ∧
          r.currentSlide = sampleSlideshow.currentSlide) ∧
        (∃ r, Main.showNextSlide prev = Except.ok r ∧
          r.currentSlide = sampleSlideshow.currentSlide) ∧
        (∃ r, Main.showNextSlides sampleSlideshow.slides.length sampleSlideshow = Except.ok r ∧
          r.currentSlide = sampleSlideshow.currentSlide) ∧
        (Main.exactlyActive sampleSlideshow.slides sampleSlideshow.currentSlide →
          Main.exactlyActive next.slides next.currentSlide ∧
          Main.exactlyActive prev.slides prev.currentSlide ∧
          Main.showPrevSlide next = Except.ok sampleSlideshow ∧
          Main.showNextSlide prev = Except.ok sampleSlideshow ∧
          Main.showNextSlides sampleSlideshow.slides.length sampleSlideshow =
            Except.ok sampleSlideshow) :=
  ⟨by decide, by decide, slideshow_wraps_around sampleSlideshow (by decide) (by decide)⟩

/-! ## C28: the lightbox navigation -/

section LightboxLemmas

theorem mem_main_visibleItems (galleryItems : List (Nat × String)) (entry : Nat) :
    entry ∈ Main.visibleItems galleryItems ↔
      ∃ display, (entry, display) ∈ galleryItems ∧ display ≠ "none" := by
  simp only [Main.visibleItems, List.mem_map, List.mem_filter, bne_iff_ne, ne_eq, Prod.exists]
  constructor
  · rintro ⟨a, b, ⟨hmem, hne⟩, rfl⟩
    exact ⟨b, hmem, hne⟩
  · rintro ⟨d, hmem, hne⟩
    exact ⟨entry, d, ⟨hmem, hne⟩, rfl⟩

theorem updateLightbox_of_index (visible : List Nat) (lightbox : Main.Lightbox) (i : Int)
    (hi0 : 0 ≤ i) (hi1 : i < visible.length) :
    ∃ entry, visible[i.toNat]? = some entry ∧
      Main.updateLightbox visible { lightbox with currentImageIndex := some i } =
        (Main.updateLightboxNavigation visible
          { lightbox with currentImageIndex := some i, shown := some entry }, none) := by
  have hlt : i.toNat < visible.length := by omega
  refine ⟨visible[i.toNat], List.getElem?_eq_getElem hlt, ?_⟩
  simp only [Main.updateLightbox, hi0, if_true, List.getElem?_eq_getElem hlt]

theorem updateLightboxNavigation_hidden (visible : List Nat) (lightbox : Main.Lightbox) :
    ((Main.updateLightboxNavigation visible lightbox).prevDisplay = "none" ↔
        visible.length ≤ 1) ∧
      ((Main.updateLightboxNavigation visible lightbox).nextDisplay = "none" ↔
        visible.length ≤ 1) ∧
      (Main.updateLightboxNavigation visible lightbox).currentImageIndex =
        lightbox.currentImageIndex ∧
      (Main.updateLightboxNavigation visible lightbox).shown = lightbox.shown := by
  unfold Main.updateLightboxNavigation
  by_cases h : visible.length ≤ 1
  · simp [h]
  · simp [h]

theorem navigateLightbox_next (galleryItems : List (Nat × String)) (lightbox : Main.Lightbox)
    (c : Int) (hc : lightbox.currentImageIndex = some c) (hc0 : 0 ≤ c)
    (hL : 1 ≤ (Main.visibleItems galleryItems).length) :
    ∃ entry,
      (Main.visibleItems galleryItems)[((c + 1) % (Main.visibleItems galleryItems).length).toNat]?
        = some entry ∧
      Main.navigateLightbox "next" galleryItems lightbox =
        (Main.updateLightboxNavigation (Main.visibleItems galleryItems)
          { lightbox with
            currentImageIndex := some ((c + 1) % (Main.visibleItems galleryItems).length)
            shown := some entry }, none) := by
  have hn : ((Main.visibleItems galleryItems).length : Int) ≠ 0 := by omega
  have h0 := Int.emod_nonneg (c + 1) hn
  have h1 := Int.emod_lt_of_pos (c + 1)
    (show (0 : Int) < (Main.visibleItems galleryItems).length by omega)
  obtain ⟨entry, he, hu⟩ := updateLightbox_of_index (Main.visibleItems galleryItems) lightbox
    _ h0 h1
  refine ⟨entry, he, ?_⟩
  have hne : ¬ ("next" = "prev") := by decide
  simp only [Main.navigateLightbox, hne, if_false, hc, Option.some_bind, Main.jsMod, if_neg hn]
  rw [Int.tmod_eq_emod (by omega) (by omega)]
  exact hu

theorem navigateLightbox_prev (galleryItems : List (Nat × String)) (lightbox : Main.Lightbox)
    (c : Int) (hc : lightbox.currentImageIndex = some c) (hc0 : 0 ≤ c)
    (hL : 1 ≤ (Main.visibleItems galleryItems).length) :
    ∃ entry,
      (Main.visibleItems galleryItems)[((c - 1 + (Main.visibleItems galleryItems).length) %
        (Main.visibleItems galleryItems).length).toNat]? = some entry ∧
      Main.navigateLightbox "prev" galleryItems lightbox =
        (Main.updateLightboxNavigation (Main.visibleItems galleryItems)
          { lightbox with
            currentImageIndex := some ((c - 1 + (Main.visibleItems galleryItems).length) %
              (Main.visibleItems galleryItems).length)
            shown := some entry }, none) := by
  have hn : ((Main.visibleItems galleryItems).length : Int) ≠ 0 := by omega
  have h0 := Int.emod_nonneg (c - 1 + (Main.visibleItems galleryItems).length) hn
  have h1 := Int.emod_lt_of_pos (c - 1 + (Main.visibleItems galleryItems).length)
    (show (0 : Int) < (Main.visibleItems galleryItems).length by omega)
  obtain ⟨entry, he, hu⟩ := updateLightbox_of_index (Main.visibleItems galleryItems) lightbox
    _ h0 h1
  refine ⟨entry, he, ?_⟩
  simp only [Main.navigateLightbox, if_true, hc, Option.some_bind, Main.jsMod, if_neg hn]
  rw [Int.tmod_eq_emod (by omega) (by omega)]
  exact hu

end LightboxLemmas

/-- C28: with `L ≥ 1` displayed gallery entries and a current index `c ≥ 0`,
`navigateLightbox('next')` completes and sets the index to `(c + 1) mod L`,
`navigateLightbox('prev')` completes and sets it to `(c - 1 + L) mod L`; both indices are
in `[0, L)` and the lightbox then shows an entry of the page whose display is not `none`;
for `c < L`, next followed by prev returns to `c`; after either call the prev and next
buttons are hidden exactly when `L ≤ 1`. -/
theorem navigateLightbox_wraps_around (galleryItems : List (Nat × String))
    (lightbox : Main.Lightbox) (c : Int) (L : Nat)
    (hvisible : (Main.visibleItems galleryItems).length = L) (hL : 1 ≤ L)
    (hc : lightbox.currentImageIndex = some c) (hc0 : 0 ≤ c) :
    ∃ next prev : Main.Lightbox,
      Main.navigateLightbox "next" galleryItems lightbox = (next, none) ∧
      Main.navigateLightbox "prev" galleryItems lightbox = (prev, none) ∧
      next.currentImageIndex = some ((c + 1) % L) ∧
      prev.currentImageIndex = some ((c - 1 + L) % L) ∧
      (0 ≤ (c + 1) % L ∧ (c + 1) % (L : Int) < L) ∧
      (0 ≤ (c - 1 + L) % L ∧ (c - 1 + L) % (L : Int) < L) ∧
      (∃ entry display, next.shown = some entry ∧
        (Main.visibleItems galleryItems)[((c + 1) % (L : Int)).toNat]? = some entry ∧
        (entry, display) ∈ galleryItems ∧ display ≠ "none") ∧
      (∃ entry display, prev.shown = some entry ∧
        (Main.visibleItems galleryItems)[((c - 1 + L) % (L : Int)).toNat]? = some entry ∧
        (entry, display) ∈ galleryItems ∧ display ≠ "none") ∧
      (c < L → ∃ back, Main.navigateLightbox "prev" galleryItems next = (back, none) ∧
        back.currentImageIndex = some c) ∧
      ((next.prevDisplay = "none" ↔ L ≤ 1) ∧ (next.nextDisplay = "none" ↔ L ≤ 1)) ∧
      ((prev.prevDisplay = "none" ↔ L ≤ 1) ∧ (prev.nextDisplay = "none" ↔ L ≤ 1)) := by
  subst hvisible
  have hn : ((Main.visibleItems galleryItems).length : Int) ≠ 0 := by omega
  have hpos : (0 : Int) < (Main.visibleItems galleryItems).length := by omega
  obtain ⟨en, hen, hnext⟩ := navigateLightbox_next galleryItems lightbox c hc hc0 hL
  obtain ⟨ep, hep, hprev⟩ := navigateLightbox_prev galleryItems lightbox c hc hc0 hL
  obtain ⟨dn, hdn, hdn2⟩ := (mem_main_visibleItems galleryItems en).mp (List.getElem?_mem hen)
  obtain ⟨dp, hdp, hdp2⟩ := (mem_main_visibleItems galleryItems ep).mp (List.getElem?_mem hep)
  have hbn := updateLightboxNavigation_hidden (Main.visibleItems galleryItems)
    { lightbox with
      currentImageIndex := some ((c + 1) % (Main.visibleItems galleryItems).length)
      shown := some en }
  have hbp := updateLightboxNavigation_hidden (Main.visibleItems galleryItems)
    { lightbox with
      currentImageIndex := some ((c - 1 + (Main.visibleItems galleryItems).length) %
        (Main.visibleItems galleryItems).length)
      shown := some ep }
  refine ⟨_, _, hnext, hprev, hbn.2.2.1, hbp.2.2.1,
    ⟨Int.emod_nonneg _ hn, Int.emod_lt_of_pos _ hpos⟩,
    ⟨Int.emod_nonneg _ hn, Int.emod_lt_of_pos _ hpos⟩,
    ⟨en, dn, hbn.2.2.2, hen, hdn, hdn2⟩, ⟨ep, dp, hbp.2.2.2, hep, hdp, hdp2⟩, ?_,
    ⟨hbn.1, hbn.2.1⟩, ⟨hbp.1, hbp.2.1⟩⟩
  intro hcL
  obtain ⟨eb, _, hback⟩ := navigateLightbox_prev galleryItems
    (Main.updateLightboxNavigation (Main.visibleItems galleryItems)
      { lightbox with
        currentImageIndex := some ((c + 1) % (Main.visibleItems galleryItems).length)
        shown := some en })
    ((c + 1) % (Main.visibleItems galleryItems).length) hbn.2.2.1
    (Int.emod_nonneg _ hn) hL
  refine ⟨_, hback, ?_⟩
  rw [(updateLightboxNavigation_hidden _ _).2.2.1]
  simp only
  rw [(prev_next_index c _ hc0 hcL).1]

/-- Witness for C28 on a page with three displayed entries, the lightbox on the last. -/
theorem navigateLightbox_wraps_around_witness :
    (Main.visibleItems sampleDisplays).length = 3 ∧
      sampleLightbox.currentImageIndex = some 2 ∧
      ∃ next prev : Main.Lightbox,
        Main.navigateLightbox "next" sampleDisplays sampleLightbox = (next, none) ∧
        Main.navigateLightbox "prev" sampleDisplays sampleLightbox = (prev, none) ∧
        next.currentImageIndex = some ((2 + 1) % (3 : Nat)) ∧
        prev.currentImageIndex = some ((2 - 1 + (3 : Nat)) % (3 : Nat)) ∧
        (0 ≤ ((2 : Int) + 1) % (3 : Nat) ∧ ((2 : Int) + 1) % ((3 : Nat) : Int) < (3 : Nat)) ∧
        (0 ≤ ((2 : Int) - 1 + (3 : Nat)) % (3 : Nat) ∧
          ((2 : Int) - 1 + (3 : Nat)) % ((3 : Nat) : Int) < (3 : Nat)) ∧
        (∃ entry display, next.shown = some entry ∧
          (Main.visibleItems sampleDisplays)[(((2 : Int) + 1) % ((3 : Nat) : Int)).toNat]? =
            some entry ∧
          (entry, display) ∈ sampleDisplays ∧ display ≠ "none") ∧
        (∃ entry display, prev.shown = some entry ∧
          (Main.visibleItems sampleDisplays)[(((2 : Int) - 1 + (3 : Nat)) %
            ((3 : Nat) : Int)).toNat]? = some entry ∧
          (entry, display) ∈ sampleDisplays ∧ display ≠ "none") ∧
        ((2 : Int) < (3 : Nat) →
          ∃ back, Main.navigateLightbox "prev" sampleDisplays next = (back, none) ∧
            back.currentImageIndex = some 2) ∧
        ((next.prevDisplay = "none" ↔ 3 ≤ 1) ∧ (next.nextDisplay = "none" ↔ 3 ≤ 1)) ∧
        ((prev.prevDisplay = "none" ↔ 3 ≤ 1) ∧ (prev.nextDisplay = "none" ↔ 3 ≤ 1)) :=
  ⟨by decide, rfl,
    navigateLightbox_wraps_around sampleDisplays sampleLightbox 2 3 (by decide) (by decide)
      rfl (by decide)⟩

/-! ## C29: the page filter and the gallery filter -/

theorem isVisible_loaded_eq (fv : Option String) (d : Option String)
    (h : d ≠ none ∨ (fv ≠ none ∧ fv ≠ some "")) :
    (fv == some "all" || some (orString d "") == fv) =
      decide ((if (fv == some "all" || d == fv) = true then "block" else "none") = "block") := by
  by_cases hall : fv = some "all"
  · subst hall
    simp
  · have h1 : (fv == some "all") = false := by simpa using hall
    simp only [h1, Bool.false_or]
    cases d with
    | none =>
      rcases h with h | ⟨h2, h3⟩
      · exact absurd rfl h
      · cases fv with
        | none => exact absurd rfl h2
        | some v =>
          have hv : ¬ v = "" := fun e => h3 (by rw [e])
          have hv2 : ¬ "" = v := fun e => hv e.symm
          simp [orString, hv2]
    | some v =>
      by_cases hv : v = ""
      · subst hv
        by_cases hfv : fv = some ""
        · subst hfv
          simp [orString]
        · have hfv2 : ¬ some "" = fv := fun e => hfv e.symm
          simp [orString, hfv2]
      · by_cases hfv : fv = some v
        · subst hfv
          simp [orString, hv]
        · have hfv2 : ¬ some v = fv := fun e => hfv e.symm
          simp [orString, hv, hfv2]

/-- C29 (amended): for every list of gallery entries and every filter value, if every
entry has a `data-category` attribute, or the filter value is a non-empty string, then the
items that `loadGalleryItems` records for the entries with an image are, in order, marked
visible by `updateVisibleItems` exactly when the filter click handler of the page displays
their entry. -/
theorem page_filter_agrees_with_gallery {α : Type} (entries : List GalleryEntry)
    (fv : Option String) (g : Gallery α)
    (h : (∀ e ∈ entries, e.dataCategory ≠ none) ∨ (fv ≠ none ∧ fv ≠ some "")) :
    (GlobeGalleryFixed.updateVisibleItems (some fv)
        { g with galleryItems := GlobeGalleryFixed.loadGalleryItems entries [] }).galleryItems.map
        (fun item => (item.element, item.visible)) =
      (entries.filter (fun e => e.img.isSome)).map
        (fun e => (e.element, decide (Main.filterDisplay fv e = "block"))) := by
  simp only [GlobeGalleryFixed.updateVisibleItems, GlobeGalleryFixed.loadGalleryItems,
    filterValue, List.nil_append, List.map_map]
  induction entries with
  | nil => rfl
  | cons e rest ih =>
    have hrest : (∀ e ∈ rest, e.dataCategory ≠ none) ∨ (fv ≠ none ∧ fv ≠ some "") := by
      rcases h with h | h
      · exact Or.inl (fun e he => h e (List.mem_cons_of_mem _ he))
      · exact Or.inr h
    have he : e.dataCategory ≠ none ∨ (fv ≠ none ∧ fv ≠ some "") := by
      rcases h with h | h
      · exact Or.inl (h e (List.mem_cons_self _ _))
      · exact Or.inr h
    cases himg : e.img with
    | none =>
      simp only [List.filterMap_cons, himg, List.filter_cons, Option.isSome_none,
        Bool.false_eq_true, if_false]
      exact ih hrest
    | some img =>
      simp only [List.filterMap_cons, himg, List.filter_cons, Option.isSome_some, if_true,
        List.map_cons, Function.comp_apply, isVisible, Main.filterDisplay]
      rw [isVisible_loaded_eq fv e.dataCategory he]
      congr 1
      exact ih hrest

/-- Witness for C29 on the sample page and the filter value `city`. -/
theorem page_filter_agrees_with_gallery_witness :
    ((∀ e ∈ sampleEntries, e.dataCategory ≠ none) ∨
        ((some "city" : Option String) ≠ none ∧ (some "city" : Option String) ≠ some "")) ∧
      (GlobeGalleryFixed.updateVisibleItems (some (some "city"))
          { loadedGallery with
            galleryItems := GlobeGalleryFixed.loadGalleryItems sampleEntries []
          }).galleryItems.map
          (fun item => (item.element, item.visible)) =
        (sampleEntries.filter (fun e => e.img.isSome)).map
          (fun e => (e.element, decide (Main.filterDisplay (some "city") e = "block"))) :=
  ⟨Or.inr ⟨by decide, by decide⟩,
    page_filter_agrees_with_gallery sampleEntries (some "city") loadedGallery
      (Or.inr ⟨by decide, by decide⟩)⟩

/-- Counterexample to C29 as stated: an entry without a `data-category` attribute is
recorded with `dataCategory = ''`; for a filter button whose `data-filter` is the empty
string the page hides the entry (`null === ''` is false) while `updateVisibleItems` marks
its item visible (`'' === ''`). -/
theorem page_filter_uncategorised_counterexample :
    Main.filterDisplay (some "") uncategorisedEntry = "none" ∧
      (GlobeGalleryFixed.updateVisibleItems (some (some ""))
          { (GlobeGalleryFixed.initial : Gallery ℚ) with
            galleryItems := GlobeGalleryFixed.loadGalleryItems [uncategorisedEntry] []
          }).galleryItems.map
          (fun item => (item.element, item.visible)) = [(0, true)] :=
  ⟨by decide, by decide⟩

/-! ## C30: initialisation survives a failed scene -/

section InitLemmas

variable {α : Type} [LinearOrderedField α]

theorem animateBody_keeps (M : MathOps α) (frame : Frame α) (g g2 : Gallery α)
    (h : GlobeGalleryFixed.animateBody M frame g = Except.ok g2) :
    g2.listeners = g.listeners ∧ g2.container = g.container ∧ g2.renderer = g.renderer := by
  have hc : ∀ g0 : Gallery α,
      (GlobeGalleryFixed.render frame
        (GlobeGalleryFixed.checkIntersections frame.ray g0)).listeners = g0.listeners ∧
      (GlobeGalleryFixed.render frame
        (GlobeGalleryFixed.checkIntersections frame.ray g0)).container = g0.container ∧
      (GlobeGalleryFixed.render frame
        (GlobeGalleryFixed.checkIntersections frame.ray g0)).renderer = g0.renderer := by
    intro g0
    have h1 := congrArg Gallery.listeners (checkIntersections_frame frame.ray g0)
    have h2 := congrArg Gallery.container (checkIntersections_frame frame.ray g0)
    have h3 := congrArg Gallery.renderer (checkIntersections_frame frame.ray g0)
    have h4 := congrArg Gallery.listeners
      (render_frame frame (GlobeGalleryFixed.checkIntersections frame.ray g0))
    have h5 := congrArg Gallery.container
      (render_frame frame (GlobeGalleryFixed.checkIntersections frame.ray g0))
    have h6 := congrArg Gallery.renderer
      (render_frame frame (GlobeGalleryFixed.checkIntersections frame.ray g0))
    simp only at h1 h2 h3 h4 h5 h6
    exact ⟨h4.trans h1, h5.trans h2, h6.trans h3⟩
  unfold GlobeGalleryFixed.animateBody at h
  simp only at h
  split at h
  · cases h
  · rename_i g1 hmoved
    cases h
    obtain ⟨e1, e2, e3⟩ := hc
      { g1 with
        bgSphere := g1.bgSphere.map (fun r => ⟨r.x + 0.001 * 0.05, r.y + 0.001 * 0.1⟩)
        innerSphere := g1.innerSphere.map (fun r => ⟨r.x + 0.001 * 0.1, r.y - 0.001 * 0.3⟩) }
    rw [e1, e2, e3]
    simp only
    split at hmoved
    · split at hmoved
      · cases hmoved
      · cases hmoved
        exact ⟨rfl, rfl, rfl⟩
    · split at hmoved
      · cases hmoved
      · cases hmoved
        exact ⟨rfl, rfl, rfl⟩

theorem animate_keeps (M : MathOps α) (frame : Frame α) (g : Gallery α) :
    (GlobeGalleryFixed.animate M frame g).listeners = g.listeners ∧
      (GlobeGalleryFixed.animate M frame g).container = g.container ∧
      (GlobeGalleryFixed.animate M frame g).renderer = g.renderer := by
  unfold GlobeGalleryFixed.animate
  split
  · exact ⟨rfl, rfl, rfl⟩
  · simp only
    split
    · rename_i g2 h2
      exact animateBody_keeps M frame { g with scheduledFrames := g.scheduledFrames + 1 } g2 h2
    · exact ⟨rfl, rfl, rfl⟩

end InitLemmas

/-- C30 (amended): once `init` has found its container and the 3D library is loaded, so
that the raycaster and the mouse vector are created, it ends with `isInitialized = true`,
the container recorded and the mousemove, click and resize listeners registered (with the
theme listener when the page has a theme toggle), for every page and every gallery object;
when the renderer cannot be created, `initScene` catches its exception, the renderer is
what it was before (absent for a fresh gallery), and the gallery is marked initialized
with its listeners all the same. -/
theorem init_marks_initialized {α : Type} [LinearOrderedField α] (M : MathOps α)
    (frame : Frame α) (page : Page) (containerId : String) (c : Nat) (g : Gallery α)
    (hc : page.getElementById containerId = some c) (hthree : page.three = true) :
    (GlobeGalleryFixed.init M frame page containerId g).isInitialized = true ∧
      (GlobeGalleryFixed.init M frame page containerId g).container = some c ∧
      (GlobeGalleryFixed.init M frame page containerId g).raycaster = true ∧
      (GlobeGalleryFixed.init M frame page containerId g).listeners =
        g.listeners ++ ["container mousemove", "container click", "window resize"] ++
          (if page.themeToggle then ["theme-toggle click"] else []) ∧
      (page.webgl = false →
        (GlobeGalleryFixed.init M frame page containerId g).renderer = g.renderer) := by
  have hraycaster : ∀ g0 : Gallery α,
      (GlobeGalleryFixed.animate M frame g0).raycaster = g0.raycaster := by
    intro g0
    unfold GlobeGalleryFixed.animate
    split
    · rfl
    · simp only
      split
      · rename_i g2 h2
        unfold GlobeGalleryFixed.animateBody at h2
        simp only at h2
        split at h2
        · cases h2
        · rename_i g1 hmoved
          cases h2
          have h1 := congrArg Gallery.raycaster (checkIntersections_frame frame.ray
            { g1 with
              bgSphere := g1.bgSphere.map (fun r => ⟨r.x + 0.001 * 0.05, r.y + 0.001 * 0.1⟩)
              innerSphere := g1.innerSphere.map
                (fun r => ⟨r.x + 0.001 * 0.1, r.y - 0.001 * 0.3⟩) })
          have h3 := congrArg Gallery.raycaster (render_frame frame
            (GlobeGalleryFixed.checkIntersections frame.ray
              { g1 with
                bgSphere := g1.bgSphere.map (fun r => ⟨r.x + 0.001 * 0.05, r.y + 0.001 * 0.1⟩)
                innerSphere := g1.innerSphere.map
                  (fun r => ⟨r.x + 0.001 * 0.1, r.y - 0.001 * 0.3⟩) }))
          simp only at h1 h3
          rw [h3, h1]
          split at hmoved
          · split at hmoved
            · cases hmoved
            · cases hmoved
              rfl
          · split at hmoved
            · cases hmoved
            · cases hmoved
              rfl
      · rfl
  have hscene : ∀ g0 : Gallery α,
      (GlobeGalleryFixed.initScene page g0).raycaster = g0.raycaster ∧
      (page.webgl = false → (GlobeGalleryFixed.initScene page g0).renderer = g0.renderer) := by
    intro g0
    unfold GlobeGalleryFixed.initScene
    simp only [hthree, Bool.not_true, Bool.false_eq_true, if_false]
    refine ⟨?_, ?_⟩
    · split <;> rfl
    · intro hw
      simp only [hw, Bool.false_eq_true, if_false]
  have hlisten : ∀ g0 : Gallery α,
      (GlobeGalleryFixed.addEventListeners page g0).raycaster = g0.raycaster ∧
      (GlobeGalleryFixed.addEventListeners page g0).renderer = g0.renderer := by
    intro g0
    unfold GlobeGalleryFixed.addEventListeners
    split <;> exact ⟨rfl, rfl⟩
  unfold GlobeGalleryFixed.init
  simp only [hc, hthree, Bool.not_true, Bool.false_eq_true, if_false]
  refine ⟨trivial, ?_, ?_, ?_, ?_⟩
  · rw [(animate_keeps M frame _).2.1, (addEventListeners_keeps _ _).1, (initScene_keeps _ _).1]
  · rw [hraycaster, (hlisten _).1, (hscene _).1]
  · rw [(animate_keeps M frame _).1]
    unfold GlobeGalleryFixed.addEventListeners
    rw [(initScene_keeps _ _).1]
    simp only
    rw [(initScene_keeps _ _).2.2.2.1]
  · intro hw
    rw [(animate_keeps M frame _).2.2, (hlisten _).2, (hscene _).2 hw]

/-- Witness for C30 on the sample page when no renderer can be created. -/
theorem init_marks_initialized_witness :
    Page.getElementById { samplePage with webgl := false } "globe-gallery-container" = some 100 ∧
      ({ samplePage with webgl := false } : Page).three = true ∧
      failedSceneGallery.isInitialized = true ∧
      failedSceneGallery.container = some 100 ∧
      failedSceneGallery.raycaster = true ∧
      failedSceneGallery.listeners =
        (GlobeGalleryFixed.initial : Gallery ℚ).listeners ++
          ["container mousemove", "container click", "window resize"] ++
          (if ({ samplePage with webgl := false } : Page).themeToggle then
            ["theme-toggle click"] else []) ∧
      (({ samplePage with webgl := false } : Page).webgl = false →
        failedSceneGallery.renderer = (GlobeGalleryFixed.initial : Gallery ℚ).renderer) :=
  ⟨rfl, rfl, init_marks_initialized ratMath sampleFrame { samplePage with webgl := false }
    "globe-gallery-container" 100 GlobeGalleryFixed.initial rfl rfl⟩

/-- Counterexample to C30 as stated: on the sample page without the 3D library `init`
finds its container, `new THREE.Raycaster()` raises, and the `catch` of `init` ends the
call: the gallery is not marked initialized, has no raycaster, no scene and no listener. -/
theorem init_without_library_counterexample :
    Page.getElementById { samplePage with three := false } "globe-gallery-container" = some 100 ∧
      noLibraryGallery.container = some 100 ∧
      noLibraryGallery.isInitialized = false ∧
      noLibraryGallery.raycaster = false ∧
      noLibraryGallery.scene = false ∧
      noLibraryGallery.listeners = [] ∧
      noLibraryGallery.galleryItems = [] :=
  ⟨rfl, rfl, rfl, rfl, rfl, rfl, rfl⟩

/-! ## C24: the normalized pointer coordinates -/

/-- C24: for a gallery that has its container and its `mouse` vector, a container of client
size `width × height` with both positive, and a pointer event with
`0 ≤ clientX - left ≤ width` and `0 ≤ clientY - top ≤ height`, `onMouseMove` (in both
variants, the class variant raising nothing) stores finite coordinates
`x = (clientX - left) / width * 2 - 1` and `y = -((clientY - top) / height) * 2 + 1`, both
in `[-1, 1]`; the centre of the container maps to `(0, 0)`, the left edge to `x = -1`, the
right edge to `x = 1`, the top edge to `y = +1` and the bottom edge to `y = -1`. -/
theorem onMouseMove_normalized {α : Type} [LinearOrderedField α]
    (clientX clientY left top : α) (clientWidth clientHeight : Nat) (g : Gallery α)
    (hcontainer : g.container ≠ none) (hmouse : g.mouse ≠ none)
    (hw : 0 < clientWidth) (hh : 0 < clientHeight)
    (hx0 : 0 ≤ clientX - left) (hx1 : clientX - left ≤ clientWidth)
    (hy0 : 0 ≤ clientY - top) (hy1 : clientY - top ≤ clientHeight) :
    ∃ x y : α,
      (GlobeGalleryFixed.onMouseMove clientX clientY left top clientWidth clientHeight g).mouse =
        some ⟨some x, some y⟩ ∧
      GlobeGallery.onMouseMove clientX clientY left top clientWidth clientHeight g =
        ({ g with mouse := some ⟨some x, some y⟩ }, none) ∧
      x = (clientX - left) / clientWidth * 2 - 1 ∧
      y = -((clientY - top) / clientHeight) * 2 + 1 ∧
      (-1 ≤ x ∧ x ≤ 1) ∧ (-1 ≤ y ∧ y ≤ 1) ∧
      (clientX - left = clientWidth / 2 → x = 0) ∧
      (clientY - top = clientHeight / 2 → y = 0) ∧
      (clientX = left → x = -1) ∧ (clientX - left = clientWidth → x = 1) ∧
      (clientY = top → y = 1) ∧ (clientY - top = clientHeight → y = -1) := by
  have hW : (0 : α) < clientWidth := by exact_mod_cast hw
  have hH : (0 : α) < clientHeight := by exact_mod_cast hh
  have hW0 : (clientWidth : α) ≠ 0 := ne_of_gt hW
  have hH0 : (clientHeight : α) ≠ 0 := ne_of_gt hH
  obtain ⟨c, hc⟩ := Option.ne_none_iff_exists'.mp hcontainer
  obtain ⟨m, hm⟩ := Option.ne_none_iff_exists'.mp hmouse
  have hqx0 : 0 ≤ (clientX - left) / clientWidth := div_nonneg hx0 (le_of_lt hW)
  have hqx1 : (clientX - left) / clientWidth ≤ 1 := (div_le_one hW).mpr hx1
  have hqy0 : 0 ≤ (clientY - top) / clientHeight := div_nonneg hy0 (le_of_lt hH)
  have hqy1 : (clientY - top) / clientHeight ≤ 1 := (div_le_one hH).mpr hy1
  refine ⟨(clientX - left) / clientWidth * 2 - 1, -((clientY - top) / clientHeight) * 2 + 1,
    ?_, ?_, rfl, rfl, ⟨by linarith, by linarith⟩, ⟨by linarith, by linarith⟩, ?_, ?_, ?_, ?_,
    ?_, ?_⟩
  · simp only [GlobeGalleryFixed.onMouseMove, hc, hm, jsDiv, if_neg hW0, if_neg hH0,
      Option.map_some']
  · simp only [GlobeGallery.onMouseMove, hc, hm, jsDiv, if_neg hW0, if_neg hH0,
      Option.map_some']
  · intro h
    rw [h]
    field_simp
    ring
  · intro h
    rw [h]
    field_simp
    ring
  · intro h
    rw [h]
    simp
  · intro h
    rw [h, div_self hW0]
    norm_num
  · intro h
    rw [h]
    simp
  · intro h
    rw [h, div_self hH0]
    norm_num

/-- Witness for C24: the centre of a container of 800 × 600 pixels at `(10, 20)`. -/
theorem onMouseMove_normalized_witness :
    initializedGallery.container ≠ none ∧ initializedGallery.mouse ≠ none ∧
      ∃ x y : ℚ,
        (GlobeGalleryFixed.onMouseMove 410 320 10 20 800 600 initializedGallery).mouse =
          some ⟨some x, some y⟩ ∧
        GlobeGallery.onMouseMove 410 320 10 20 800 600 initializedGallery =
          ({ initializedGallery with mouse := some ⟨some x, some y⟩ }, none) ∧
        x = (410 - 10) / ((800 : Nat) : ℚ) * 2 - 1 ∧
        y = -((320 - 20) / ((600 : Nat) : ℚ)) * 2 + 1 ∧
        (-1 ≤ x ∧ x ≤ 1) ∧ (-1 ≤ y ∧ y ≤ 1) ∧
        ((410 : ℚ) - 10 = ((800 : Nat) : ℚ) / 2 → x = 0) ∧
        ((320 : ℚ) - 20 = ((600 : Nat) : ℚ) / 2 → y = 0) ∧
        ((410 : ℚ) = 10 → x = -1) ∧ ((410 : ℚ) - 10 = ((800 : Nat) : ℚ) → x = 1) ∧
        ((320 : ℚ) = 20 → y = 1) ∧ ((320 : ℚ) - 20 = ((600 : Nat) : ℚ) → y = -1) :=
  ⟨by decide, by decide,
    onMouseMove_normalized 410 320 10 20 800 600 initializedGallery (by decide) (by decide)
      (by decide) (by decide) (by norm_num) (by norm_num) (by norm_num) (by norm_num)⟩

/-! ## C22: re-layout leaves the hidden items in place -/

section RelayoutFrame

variable {α : Type}

theorem applyTweens_getElem?_of_not_named (progress : Tween α → Vector3 (Option α))
    (tweens : List (Tween α)) (g : Gallery α) (idx : Nat)
    (h : ∀ t ∈ tweens, t.item ≠ idx) :
    (GlobeGallery.applyTweens progress tweens g).galleryItems[idx]? = g.galleryItems[idx]? := by
  unfold GlobeGallery.applyTweens
  induction tweens generalizing g with
  | nil => rfl
  | cons t rest ih =>
    simp only [List.foldl_cons]
    rw [ih _ (fun t2 h2 => h t2 (List.mem_cons_of_mem _ h2))]
    simp only
    rw [getElem?_modifyItem]
    have hne : ¬ idx = t.item := fun e => h t (List.mem_cons_self _ _) e.symm
    simp only [hne, if_false]
    cases g.galleryItems[idx]? <;> rfl

theorem tween_names_visible_mesh [LinearOrderedField α] (M : MathOps α) (g : Gallery α)
    (t : Tween α) (ht : t ∈ GlobeGallery.rearrangeVisibleItems M g) :
    ∃ item m, g.galleryItems[t.item]? = some item ∧ item.visible = true ∧ item.mesh = some m := by
  obtain ⟨k, idx, item, hk, hm, rfl⟩ := (mem_rearrangeVisibleItems M g t).mp ht
  obtain ⟨h1, h2⟩ := (mem_visibleItems g idx item).mp (List.getElem?_mem hk)
  obtain ⟨m, hm2⟩ := Option.isSome_iff_exists.mp hm
  exact ⟨item, m, h1, h2, hm2⟩

end RelayoutFrame

/-- C22: for every gallery state of the class variant, `rearrangeVisibleItems` starts a
position transition only for items with `visible = true` and a mesh; an item with
`visible = false` is named by no transition, and is unchanged (its mesh position
included) wherever the started transitions have got to; so after a whole
`updateVisibleItems`, which itself writes to no position, every item that the filter
hides has the mesh position it had before. -/
theorem relayout_leaves_hidden_items {α : Type} [LinearOrderedField α] (M : MathOps α)
    (g : Gallery α) :
    (∀ t ∈ GlobeGallery.rearrangeVisibleItems M g,
      ∃ item m, g.galleryItems[t.item]? = some item ∧ item.visible = true ∧
        item.mesh = some m) ∧
    (∀ (idx : Nat) (item : GalleryItem α), g.galleryItems[idx]? = some item →
      item.visible = false →
      (∀ t ∈ GlobeGallery.rearrangeVisibleItems M g, t.item ≠ idx) ∧
      ∀ progress : Tween α → Vector3 (Option α),
        (GlobeGallery.applyTweens progress (GlobeGallery.rearrangeVisibleItems M g)
          g).galleryItems[idx]? = some item) ∧
    (∀ activeFilter : Option (Option String),
      (GlobeGallery.updateVisibleItems M activeFilter g).1.galleryItems.map
          (fun item => item.mesh.map (fun m => m.position)) =
        g.galleryItems.map (fun item => item.mesh.map (fun m => m.position))) ∧
    (∀ (activeFilter : Option (Option String)) (idx : Nat) (item : GalleryItem α),
      g.galleryItems[idx]? = some item →
      isVisible (filterValue activeFilter) item = false →
      ∀ progress : Tween α → Vector3 (Option α),
        (GlobeGallery.applyTweens progress (GlobeGallery.updateVisibleItems M activeFilter g).2
          (GlobeGallery.updateVisibleItems M activeFilter g).1).galleryItems[idx]?.map
            (fun after => (after.visible, after.mesh.map (fun m => m.position))) =
          some (false, item.mesh.map (fun m => m.position))) := by
  have hnot : ∀ (g0 : Gallery α) (idx : Nat) (item : GalleryItem α),
      g0.galleryItems[idx]? = some item → item.visible = false →
      ∀ t ∈ GlobeGallery.rearrangeVisibleItems M g0, t.item ≠ idx := by
    intro g0 idx item hidx hvis t ht e
    obtain ⟨item2, m, h1, h2, _⟩ := tween_names_visible_mesh M g0 t ht
    rw [e, hidx] at h1
    cases h1
    rw [hvis] at h2
    cases h2
  refine ⟨fun t ht => tween_names_visible_mesh M g t ht, ?_, ?_, ?_⟩
  · intro idx item hidx hvis
    refine ⟨hnot g idx item hidx hvis, fun progress => ?_⟩
    rw [applyTweens_getElem?_of_not_named progress _ g idx (hnot g idx item hidx hvis)]
    exact hidx
  · intro activeFilter
    simp only [GlobeGallery.updateVisibleItems, List.map_map]
    apply List.map_congr_left
    intro item _
    simp only [Function.comp_apply, GlobeGallery.setVisibility]
    cases item.mesh <;> rfl
  · intro activeFilter idx item hidx hvis progress
    have hidx1 : (GlobeGallery.updateVisibleItems M activeFilter g).1.galleryItems[idx]? =
        some (GlobeGallery.setVisibility (filterValue activeFilter) item) := by
      simp only [GlobeGallery.updateVisibleItems, List.getElem?_map, hidx, Option.map_some']
    have hvis1 : (GlobeGallery.setVisibility (filterValue activeFilter) item).visible = false := by
      simp only [GlobeGallery.setVisibility]
      exact hvis
    have hkeep := applyTweens_getElem?_of_not_named progress
      (GlobeGallery.rearrangeVisibleItems M (GlobeGallery.updateVisibleItems M activeFilter g).1)
      (GlobeGallery.updateVisibleItems M activeFilter g).1 idx
      (hnot _ idx _ hidx1 hvis1)
    have h2 : (GlobeGallery.updateVisibleItems M activeFilter g).2 =
        GlobeGallery.rearrangeVisibleItems M
          (GlobeGallery.updateVisibleItems M activeFilter g).1 := rfl
    rw [h2, hkeep, hidx1]
    simp only [Option.map_some', GlobeGallery.setVisibility, hvis]
    cases item.mesh <;> rfl

/-! ## The cached scale: lemmas -/

section CachedScale

variable {α : Type} [LinearOrderedField α]

theorem getElem?_resetOthers (g : Gallery α) (k : Nat) :
    (GlobeGalleryFixed.resetOthers g)[k]? =
      g.galleryItems[k]?.map (fun item =>
        if some k = g.INTERSECTED then item else GlobeGalleryFixed.resetScale item) := by
  simp only [GlobeGalleryFixed.resetOthers, List.getElem?_mapIdx]

/-- The items after a `checkIntersections` step that reaches the ray test: the item that
becomes `INTERSECTED` is reset and highlighted, the item that stays `INTERSECTED` is left
as it is, and every other item is reset. -/
theorem getElem?_checkIntersections (ray : Mesh α → Option α) (g : Gallery α)
    (hvalid : validMeshes g.galleryItems ≠ []) (k : Nat) :
    (GlobeGalleryFixed.checkIntersections ray g).galleryItems[k]? =
      g.galleryItems[k]?.map (fun item =>
        if some k = (GlobeGalleryFixed.checkIntersections ray g).INTERSECTED then
          (if some k = g.INTERSECTED then item
            else GlobeGalleryFixed.highlight (GlobeGalleryFixed.resetScale item))
        else GlobeGalleryFixed.resetScale item) := by
  have h1 : ¬ (validMeshes g.galleryItems).length = 0 := fun h =>
    hvalid (List.length_eq_zero.1 h)
  cases hj : GlobeGalleryFixed.intersectedItem ray g with
  | some j =>
    by_cases hne : some j = g.INTERSECTED
    · obtain ⟨_, h2⟩ := intersects_nonempty_of_intersectedItem ray g j hj
      have hstep : GlobeGalleryFixed.checkIntersections ray g =
          { g with galleryItems := GlobeGalleryFixed.resetOthers g } := by
        unfold GlobeGalleryFixed.checkIntersections
        simp only [if_neg h1, if_pos h2, hj, if_pos hne]
      rw [hstep]
      simp only [getElem?_resetOthers]
      cases g.galleryItems[k]? with
      | none => rfl
      | some item =>
        by_cases hk : some k = g.INTERSECTED
        · simp [hk]
        · simp [hk]
    · rw [checkIntersections_of_new ray g j hj hne]
      simp only
      cases hI : g.INTERSECTED with
      | none =>
        simp only [getElem?_modifyItem, getElem?_resetOthers, hI, Option.map_map]
        cases g.galleryItems[k]? with
        | none => rfl
        | some item =>
          by_cases hk : k = j
          · simp [hk]
          · simp [hk]
      | some A =>
        have hAj : A ≠ j := fun e => hne (by rw [hI, e])
        rw [getElem?_after_new g A j k hAj hI]
        cases g.galleryItems[k]? with
        | none => rfl
        | some item =>
          by_cases hk : k = j
          · have hjA : ¬ j = A := fun e => hAj e.symm
            simp [hk, hjA]
          · simp [hk]
  | none =>
    by_cases h2 : (intersectObjects ray (validMeshes g.galleryItems)).length > 0
    · have hstep : GlobeGalleryFixed.checkIntersections ray g =
          { g with galleryItems := GlobeGalleryFixed.resetOthers g } := by
        unfold GlobeGalleryFixed.checkIntersections
        simp only [if_neg h1, if_pos h2, hj]
      rw [hstep]
      simp only [getElem?_resetOthers]
      cases g.galleryItems[k]? with
      | none => rfl
      | some item =>
        by_cases hk : some k = g.INTERSECTED
        · simp [hk]
        · simp [hk]
    · cases hI : g.INTERSECTED with
      | none =>
        have hstep : GlobeGalleryFixed.checkIntersections ray g =
            { g with galleryItems := g.galleryItems.map GlobeGalleryFixed.resetScale } := by
          unfold GlobeGalleryFixed.checkIntersections
          simp only [if_neg h1, if_neg h2, hI, resetOthers_of_none g hI]
        rw [hstep]
        simp only [hI, List.getElem?_map]
        cases g.galleryItems[k]? <;> simp
      | some p =>
        have hstep : GlobeGalleryFixed.checkIntersections ray g =
            { g with
              galleryItems := g.galleryItems.map GlobeGalleryFixed.resetScale
              INTERSECTED := none
              cursor := "auto" } := by
          unfold GlobeGalleryFixed.checkIntersections
          simp only [if_neg h1, if_neg h2, hI, restore_resetOthers g p hI]
        rw [hstep]
        simp only [List.getElem?_map]
        cases g.galleryItems[k]? <;> simp

theorem checkIntersections_of_no_candidates (ray : Mesh α → Option α) (g : Gallery α)
    (hvalid : validMeshes g.galleryItems = []) :
    GlobeGalleryFixed.checkIntersections ray g = g := by
  unfold GlobeGalleryFixed.checkIntersections
  simp [hvalid]

theorem checkIntersections_INTERSECTED_cases (ray : Mesh α → Option α) (g : Gallery α)
    (p : Nat) (h : (GlobeGalleryFixed.checkIntersections ray g).INTERSECTED = some p) :
    g.INTERSECTED = some p ∨
      (GlobeGalleryFixed.intersectedItem ray g = some p ∧ g.INTERSECTED ≠ some p) := by
  by_cases hp : g.INTERSECTED = some p
  · exact Or.inl hp
  · right
    refine ⟨?_, hp⟩
    cases hj : GlobeGalleryFixed.intersectedItem ray g with
    | some j =>
      rw [checkIntersections_INTERSECTED ray g j hj] at h
      exact h
    | none =>
      exfalso
      unfold GlobeGalleryFixed.checkIntersections at h
      simp only [hj] at h
      split at h
      · exact hp h
      · split at h
        · exact hp h
        · split at h
          · cases h
          · exact hp h

theorem orOne_of_cached (v : Option α) (h : v = none ∨ v = some 1) : orOne v = 1 := by
  rcases h with h | h
  · rw [h]
    rfl
  · rw [h]
    simp [orOne]

theorem resetScale_scale_of_cached (item : GalleryItem α) (m : Mesh α)
    (hc : item.originalScale = none ∨ item.originalScale = some 1)
    (h : (GlobeGalleryFixed.resetScale item).mesh = some m) : m.scale = ⟨1, 1, 1⟩ := by
  have hb := resetScale_baseline item m h
  have ho : (GlobeGalleryFixed.resetScale item).originalScale = item.originalScale := rfl
  rw [ho, orOne_of_cached _ hc] at hb
  exact hb

theorem highlight_resetScale_of_cached (item : GalleryItem α) (m0 : Mesh α)
    (hc : item.originalScale = none ∨ item.originalScale = some 1) (h : item.mesh = some m0) :
    ∃ m, (GlobeGalleryFixed.highlight (GlobeGalleryFixed.resetScale item)).mesh = some m ∧
      (GlobeGalleryFixed.highlight (GlobeGalleryFixed.resetScale item)).originalScale = some 1 ∧
      m.scale = ⟨1.15, 1.15, 1.15⟩ := by
  obtain ⟨m, h1, h2, h3⟩ := highlight_resetScale item m0 h
  rw [orOne_of_cached _ hc] at h2 h3
  rw [one_mul] at h3
  exact ⟨m, h1, h2, h3⟩

theorem highlight_originalScale_of_cached (item : GalleryItem α)
    (hc : item.originalScale = none ∨ item.originalScale = some 1) :
    (GlobeGalleryFixed.highlight (GlobeGalleryFixed.resetScale item)).originalScale = none ∨
      (GlobeGalleryFixed.highlight (GlobeGalleryFixed.resetScale item)).originalScale =
        some 1 := by
  cases hm : item.mesh with
  | none =>
    have : GlobeGalleryFixed.highlight (GlobeGalleryFixed.resetScale item) =
        GlobeGalleryFixed.resetScale item := by
      simp [GlobeGalleryFixed.highlight, GlobeGalleryFixed.resetScale, hm]
    rw [this]
    exact hc
  | some m0 =>
    obtain ⟨_, _, h2, _⟩ := highlight_resetScale_of_cached item m0 hc hm
    exact Or.inr h2

/-- In every reachable state a cached `originalScale` is 1, and the item that is
`INTERSECTED` has a mesh at the scale 1.15. -/
theorem reachable_cached {g : Gallery α} (h : GlobeGalleryFixed.Reachable g) :
    (∀ (k : Nat) (item : GalleryItem α), g.galleryItems[k]? = some item →
      item.originalScale = none ∨ item.originalScale = some 1) ∧
    (∀ p : Nat, g.INTERSECTED = some p →
      ∃ (item : GalleryItem α) (m : Mesh α), g.galleryItems[p]? = some item ∧
        item.mesh = some m ∧ item.originalScale = some 1 ∧ m.scale = ⟨1.15, 1.15, 1.15⟩) := by
  induction h with
  | load entries =>
    refine ⟨?_, ?_⟩
    · intro k item hk
      left
      have hmem := List.getElem?_mem hk
      simp only [GlobeGalleryFixed.loadGalleryItems, List.nil_append,
        List.mem_filterMap] at hmem
      obtain ⟨entry, _, he⟩ := hmem
      cases himg : entry.img with
      | none => simp [himg] at he
      | some img =>
        simp only [himg, Option.some.injEq] at he
        subst he
        rfl
    · intro p hp
      cases hp
  | textureLoaded g i item m scale _ hitem hnone _ _ _ _ _ ih =>
    obtain ⟨ih1, ih2⟩ := ih
    refine ⟨?_, ?_⟩
    · intro k it hk
      simp only [getElem?_modifyItem] at hk
      cases hgk : g.galleryItems[k]? with
      | none => simp [hgk] at hk
      | some it0 =>
        simp only [hgk, Option.map_some', Option.some.injEq] at hk
        subst hk
        have := ih1 k it0 hgk
        by_cases hki : k = i
        · simpa [hki] using this
        · simpa [hki] using this
    · intro p hp
      obtain ⟨it, mp, h1, h2, h3, h4⟩ := ih2 p hp
      have hpi : p ≠ i := by
        intro e
        rw [e, hitem] at h1
        cases h1
        rw [hnone] at h2
        cases h2
      refine ⟨it, mp, ?_, h2, h3, h4⟩
      simp only [getElem?_modifyItem, h1, Option.map_some', if_neg hpi]
  | moved g position _ ih =>
    obtain ⟨ih1, ih2⟩ := ih
    refine ⟨?_, ?_⟩
    · intro k it hk
      simp only [List.getElem?_mapIdx] at hk
      cases hgk : g.galleryItems[k]? with
      | none => simp [hgk] at hk
      | some it0 =>
        simp only [hgk, Option.map_some', Option.some.injEq] at hk
        subst hk
        exact ih1 k it0 hgk
    · intro p hp
      obtain ⟨it, mp, h1, h2, h3, h4⟩ := ih2 p hp
      refine ⟨{ it with mesh := it.mesh.map (fun m => { m with position := position p }) },
        { mp with position := position p }, ?_, ?_, h3, h4⟩
      · simp only [List.getElem?_mapIdx, h1, Option.map_some']
      · simp only [h2, Option.map_some']
  | updateVisibleItems g activeFilter _ ih =>
    obtain ⟨ih1, ih2⟩ := ih
    refine ⟨?_, ?_⟩
    · intro k it hk
      simp only [GlobeGalleryFixed.updateVisibleItems, List.getElem?_map] at hk
      cases hgk : g.galleryItems[k]? with
      | none => simp [hgk] at hk
      | some it0 =>
        simp only [hgk, Option.map_some', Option.some.injEq] at hk
        subst hk
        exact ih1 k it0 hgk
    · intro p hp
      obtain ⟨it, mp, h1, h2, h3, h4⟩ := ih2 p hp
      refine ⟨{ it with
          visible := isVisible (filterValue activeFilter) it
          mesh := it.mesh.map (fun m =>
            { m with visible := isVisible (filterValue activeFilter) it }) },
        { mp with visible := isVisible (filterValue activeFilter) it }, ?_, ?_, h3, h4⟩
      · simp only [GlobeGalleryFixed.updateVisibleItems, List.getElem?_map, h1,
          Option.map_some']
      · simp only [h2, Option.map_some']
  | checkIntersections g ray _ ih =>
    obtain ⟨ih1, ih2⟩ := ih
    by_cases hvalid : validMeshes g.galleryItems = []
    · rw [checkIntersections_of_no_candidates ray g hvalid]
      exact ⟨ih1, ih2⟩
    · refine ⟨?_, ?_⟩
      · intro k it hk
        rw [getElem?_checkIntersections ray g hvalid k] at hk
        cases hgk : g.galleryItems[k]? with
        | none => simp [hgk] at hk
        | some it0 =>
          simp only [hgk, Option.map_some', Option.some.injEq] at hk
          subst hk
          have hc := ih1 k it0 hgk
          split
          · split
            · exact hc
            · exact highlight_originalScale_of_cached it0 hc
          · exact hc
      · intro p hp
        rw [getElem?_checkIntersections ray g hvalid p]
        simp only [hp, if_true]
        rcases checkIntersections_INTERSECTED_cases ray g p hp with hold | ⟨hnew, hne⟩
        · obtain ⟨it, mp, h1, h2, h3, h4⟩ := ih2 p hold
          refine ⟨it, mp, ?_, h2, h3, h4⟩
          simp only [h1, Option.map_some', hold, if_true]
        · obtain ⟨a, ha⟩ := intersectedItem_some_meshId ray g p hnew
          obtain ⟨it0, m0, hit0, hm0⟩ := exists_mesh_of_meshId _ _ _ ha
          obtain ⟨m, e1, e2, e3⟩ := highlight_resetScale_of_cached it0 m0 (ih1 p it0 hit0) hm0
          have hne2 : ¬ some p = g.INTERSECTED := fun e => hne e.symm
          refine ⟨_, m, ?_, e1, e2, e3⟩
          simp only [hit0, Option.map_some', if_neg hne2]

theorem scaledGallery_reachable : GlobeGalleryFixed.Reachable scaledGallery := by
  have h0 : GlobeGalleryFixed.Reachable loadedGallery := GlobeGalleryFixed.Reachable.load _
  have h1 := GlobeGalleryFixed.Reachable.textureLoaded loadedGallery 0
      { element := 0, imgSrc := "a.jpg", category := "City", title := "A",
        dataCategory := "city" }
      (scaledMesh 7 0.95) 0.95 h0 (by rfl) (by rfl) (by decide) (by rfl) (by rfl)
      (by norm_num) (by norm_num)
  exact GlobeGalleryFixed.Reachable.textureLoaded _ 1
    { element := 1, imgSrc := "b.jpg", category := "Nature", title := "B",
      dataCategory := "nature" }
    (scaledMesh 8 1.05) 1.05 h1 (by rfl) (by rfl) (by decide) (by rfl) (by rfl)
    (by norm_num) (by norm_num)

end CachedScale

/-! ## The cached scale: claims -/

/-- C25: in every state reachable from a load (where `originalScale` is unset on all
items) by texture callbacks that create meshes at any scale in `[0.9, 1.1)`, position
changes, `updateVisibleItems` and `checkIntersections`, an `originalScale` that is set
equals 1; the highlighted item has a mesh of scale exactly 1.15; a step that newly
intersects an item whose mesh has any scale `s` caches 1 and scales it to 1.15; and after
any step that reaches the ray test every item with a mesh other than the highlighted one
has scale 1. -/
theorem cached_scale_is_one {α : Type} [LinearOrderedField α] (g : Gallery α)
    (hg : GlobeGalleryFixed.Reachable g) :
    (∀ (k : Nat) (item : GalleryItem α) (o : α), g.galleryItems[k]? = some item →
      item.originalScale = some o → o = 1) ∧
    (∀ p : Nat, g.INTERSECTED = some p →
      ∃ (item : GalleryItem α) (m : Mesh α), g.galleryItems[p]? = some item ∧
        item.mesh = some m ∧ item.originalScale = some 1 ∧ m.scale = ⟨1.15, 1.15, 1.15⟩) ∧
    (∀ (ray : Mesh α → Option α) (j : Nat) (item : GalleryItem α) (m : Mesh α) (s : α),
      g.galleryItems[j]? = some item → item.mesh = some m → m.scale = ⟨s, s, s⟩ →
      GlobeGalleryFixed.intersectedItem ray g = some j → g.INTERSECTED ≠ some j →
      ∃ (after : GalleryItem α) (m2 : Mesh α),
        (GlobeGalleryFixed.checkIntersections ray g).galleryItems[j]? = some after ∧
        after.mesh = some m2 ∧ after.originalScale = some 1 ∧
        m2.scale = ⟨1.15, 1.15, 1.15⟩) ∧
    (∀ ray : Mesh α → Option α, validMeshes g.galleryItems ≠ [] →
      ∀ (k : Nat) (item : GalleryItem α) (m : Mesh α),
        (GlobeGalleryFixed.checkIntersections ray g).galleryItems[k]? = some item →
        item.mesh = some m →
        (GlobeGalleryFixed.checkIntersections ray g).INTERSECTED ≠ some k →
        m.scale = ⟨1, 1, 1⟩) := by
  obtain ⟨h1, h2⟩ := reachable_cached hg
  refine ⟨?_, h2, ?_, ?_⟩
  · intro k item o hk ho
    rcases h1 k item hk with h | h
    · rw [h] at ho
      cases ho
    · rw [h] at ho
      exact (Option.some.inj ho).symm
  · intro ray j item m s _ _ _ hj _
    exact (reachable_cached (GlobeGalleryFixed.Reachable.checkIntersections g ray hg)).2 j
      (checkIntersections_INTERSECTED ray g j hj)
  · intro ray hvalid k item m hk hm hne
    rw [getElem?_checkIntersections ray g hvalid k] at hk
    cases hgk : g.galleryItems[k]? with
    | none => simp [hgk] at hk
    | some it0 =>
      have hne2 : ¬ some k = (GlobeGalleryFixed.checkIntersections ray g).INTERSECTED :=
        fun e => hne e.symm
      simp only [hgk, Option.map_some', if_neg hne2, Option.some.injEq] at hk
      subst hk
      exact resetScale_scale_of_cached it0 m (h1 k it0 hgk) hm

/-- Witness for C25: the gallery whose meshes were created at the scales 0.95 and 1.05,
after the pointer was moved over the first item. -/
theorem cached_scale_is_one_witness :
    GlobeGalleryFixed.Reachable hoveredScaledGallery ∧
    (∀ (k : Nat) (item : GalleryItem ℚ) (o : ℚ), hoveredScaledGallery.galleryItems[k]? = some item →
      item.originalScale = some o → o = 1) ∧
    (∀ p : Nat, hoveredScaledGallery.INTERSECTED = some p →
      ∃ (item : GalleryItem ℚ) (m : Mesh ℚ), hoveredScaledGallery.galleryItems[p]? = some item ∧
        item.mesh = some m ∧ item.originalScale = some 1 ∧ m.scale = ⟨1.15, 1.15, 1.15⟩) ∧
    (∀ (ray : Mesh ℚ → Option ℚ) (j : Nat) (item : GalleryItem ℚ) (m : Mesh ℚ) (s : ℚ),
      hoveredScaledGallery.galleryItems[j]? = some item → item.mesh = some m →
      m.scale = ⟨s, s, s⟩ →
      GlobeGalleryFixed.intersectedItem ray hoveredScaledGallery = some j →
      hoveredScaledGallery.INTERSECTED ≠ some j →
      ∃ (after : GalleryItem ℚ) (m2 : Mesh ℚ),
        (GlobeGalleryFixed.checkIntersections ray hoveredScaledGallery).galleryItems[j]? =
          some after ∧
        after.mesh = some m2 ∧ after.originalScale = some 1 ∧
        m2.scale = ⟨1.15, 1.15, 1.15⟩) ∧
    (∀ ray : Mesh ℚ → Option ℚ, validMeshes hoveredScaledGallery.galleryItems ≠ [] →
      ∀ (k : Nat) (item : GalleryItem ℚ) (m : Mesh ℚ),
        (GlobeGalleryFixed.checkIntersections ray hoveredScaledGallery).galleryItems[k]? =
          some item →
        item.mesh = some m →
        (GlobeGalleryFixed.checkIntersections ray hoveredScaledGallery).INTERSECTED ≠ some k →
        m.scale = ⟨1, 1, 1⟩) :=
  ⟨GlobeGalleryFixed.Reachable.checkIntersections _ _ scaledGallery_reachable,
    cached_scale_is_one hoveredScaledGallery
      (GlobeGalleryFixed.Reachable.checkIntersections _ _ scaledGallery_reachable)⟩

/-- C21 (the code): hover does not restore the size the item had.  In the reachable
gallery whose two meshes were created at the scales 0.95 and 1.05, with `originalScale`
unset, the step that newly intersects the first item resets every item other than the
old `INTERSECTED` to `originalScale || 1 = 1` before it caches, so it caches
`originalScale = 1` (not 0.95) and scales the mesh to `1 * 1.15` (not `0.95 * 1.15`), and
the second mesh is at 1 (not 1.05); a following step with no intersection, or with the
other item intersected, returns the first mesh to 1, not to 0.95. -/
theorem hover_forgets_created_scale :
    GlobeGalleryFixed.Reachable scaledGallery ∧
    scaledGallery.INTERSECTED = none ∧
    scaledGallery.galleryItems.map
        (fun item => (item.originalScale, item.mesh.map (fun m => m.scale.x))) =
      [(none, some 0.95), (none, some 1.05)] ∧
    GlobeGalleryFixed.intersectedItem sampleRay scaledGallery = some 0 ∧
    hoveredScaledGallery.INTERSECTED = some 0 ∧
    hoveredScaledGallery.galleryItems.map
        (fun item => (item.originalScale, item.mesh.map (fun m => m.scale.x))) =
      [(some 1, some (1 * 1.15)), (none, some 1)] ∧
    hoveredScaledGallery.galleryItems.map
        (fun item => (item.originalScale, item.mesh.map (fun m => m.scale.x))) ≠
      [(some 0.95, some (0.95 * 1.15)), (none, some 1.05)] ∧
    GlobeGalleryFixed.intersectedItem missRay hoveredScaledGallery = none ∧
    (GlobeGalleryFixed.checkIntersections missRay hoveredScaledGallery).galleryItems.map
        (fun item => (item.originalScale, item.mesh.map (fun m => m.scale.x))) =
      [(some 1, some 1), (none, some 1)] ∧
    GlobeGalleryFixed.intersectedItem secondRay hoveredScaledGallery = some 1 ∧
    (GlobeGalleryFixed.checkIntersections secondRay hoveredScaledGallery).galleryItems.map
        (fun item => (item.originalScale, item.mesh.map (fun m => m.scale.x))) =
      [(some 1, some 1), (some 1, some (1 * 1.15))] ∧
    (0.95 : ℚ) ≠ 1 := by
  have hovered : hoveredScaledGallery.galleryItems.map
      (fun item => (item.originalScale, item.mesh.map (fun m => m.scale.x))) =
      [(some 1, some (1 * 1.15)), (none, some 1)] := by rfl
  refine ⟨scaledGallery_reachable, by rfl, by rfl, by decide, by decide, hovered, ?_, by decide,
    by rfl, by decide, by rfl, by norm_num⟩
  rw [hovered]
  intro h
  norm_num at h

/-! ## C26: the strings that `isValidEmail` accepts -/

section Email

theorem split_at_two (cs : List Char) (i j : Nat) (hij : i + 1 ≤ j) (hj : j < cs.length)
    (x y : Char) (hx : cs[i]? = some x) (hy : cs[j]? = some y) :
    cs = cs.take i ++ x :: ((cs.take j).drop (i + 1) ++ y :: cs.drop (j + 1)) := by
  have hi : i < cs.length := by omega
  have e1 : cs = cs.take i ++ cs.drop i := (List.take_append_drop i cs).symm
  have e2 : cs.drop i = x :: cs.drop (i + 1) := by
    rw [List.drop_eq_getElem_cons hi]
    rw [List.getElem?_eq_getElem hi] at hx
    rw [Option.some.inj hx]
  have e3 : cs.drop j = y :: cs.drop (j + 1) := by
    rw [List.drop_eq_getElem_cons hj]
    rw [List.getElem?_eq_getElem hj] at hy
    rw [Option.some.inj hy]
  have e4 : cs.drop (i + 1) = (cs.take j).drop (i + 1) ++ cs.drop j := by
    have := (List.take_append_drop (j - (i + 1)) (cs.drop (i + 1))).symm
    rw [List.drop_drop] at this
    have hh : j - (i + 1) + (i + 1) = j := by omega
    have hh2 : (i + 1) + (j - (i + 1)) = j := by omega
    rw [List.drop_take]
    simp only [hh, hh2] at this
    exact this
  rw [← e3, ← e4, ← e2]
  exact e1

theorem at_split (A B C : List Char) (x y : Char) :
    (A ++ x :: (B ++ y :: C))[A.length]? = some x ∧
    (A ++ x :: (B ++ y :: C))[A.length + 1 + B.length]? = some y ∧
    (A ++ x :: (B ++ y :: C)).take A.length = A ∧
    ((A ++ x :: (B ++ y :: C)).take (A.length + 1 + B.length)).drop (A.length + 1) = B ∧
    (A ++ x :: (B ++ y :: C)).drop (A.length + 1 + B.length + 1) = C ∧
    (A ++ x :: (B ++ y :: C)).length = A.length + 1 + B.length + 1 + C.length := by
  refine ⟨?_, ?_, ?_, ?_, ?_, ?_⟩
  · rw [List.getElem?_append_right (le_refl _)]
    simp
  · rw [List.getElem?_append_right (by omega)]
    have h1 : A.length + 1 + B.length - A.length = B.length + 1 := by omega
    rw [h1, List.getElem?_cons_succ, List.getElem?_append_right (le_refl _)]
    simp
  · simp
  · have e : A ++ x :: (B ++ y :: C) = (A ++ x :: B) ++ y :: C := by simp
    have l : (A ++ x :: B).length = A.length + 1 + B.length := by simp; omega
    rw [e, ← l, List.take_left']
    · have e2 : A ++ x :: B = (A ++ [x]) ++ B := by simp
      have l2 : (A ++ [x]).length = A.length + 1 := by simp
      rw [e2, ← l2, List.drop_left']
      rfl
    · rfl
  · have e : A ++ x :: (B ++ y :: C) = (A ++ x :: B ++ [y]) ++ C := by simp
    have l : (A ++ x :: B ++ [y]).length = A.length + 1 + B.length + 1 := by simp; omega
    rw [e, ← l, List.drop_left']
    rfl
  · simp; omega

theorem isValidEmail_iff_split (email : String) :
    Main.isValidEmail email = true ↔
      ∃ A B C : List Char, email.toList = A ++ '@' :: (B ++ '.' :: C) ∧
        A ≠ [] ∧ B ≠ [] ∧ C ≠ [] ∧ A.all Main.notSpaceOrAt = true ∧
        B.all Main.notSpaceOrAt = true ∧ C.all Main.notSpaceOrAt = true := by
  unfold Main.isValidEmail
  simp only [List.any_eq_true, List.mem_range, Bool.and_eq_true, decide_eq_true_eq, beq_iff_eq]
  constructor
  · rintro ⟨i, _, j, hj, ⟨⟨⟨⟨⟨⟨⟨h0, h1⟩, h2⟩, h3⟩, h4⟩, h5⟩, h6⟩, h7⟩⟩
    refine ⟨email.toList.take i, (email.toList.take j).drop (i + 1), email.toList.drop (j + 1),
      split_at_two email.toList i j (by omega) hj '@' '.' h3 h4, ?_, ?_, ?_, h5, h6, h7⟩
    · intro h
      have := congrArg List.length h
      simp only [List.length_take, List.length_nil] at this
      omega
    · intro h
      have := congrArg List.length h
      simp only [List.length_drop, List.length_take, List.length_nil] at this
      omega
    · intro h
      have := congrArg List.length h
      simp only [List.length_drop, List.length_nil] at this
      omega
  · rintro ⟨A, B, C, hcs, hA, hB, hC, aA, aB, aC⟩
    obtain ⟨e1, e2, e3, e4, e5, e6⟩ := at_split A B C '@' '.'
    have lA : 0 < A.length := List.length_pos.mpr hA
    have lB : 0 < B.length := List.length_pos.mpr hB
    have lC : 0 < C.length := List.length_pos.mpr hC
    rw [hcs]
    refine ⟨A.length, by omega, A.length + 1 + B.length, by omega, ?_⟩
    rw [e1, e2, e3, e4, e5, e6]
    exact ⟨⟨⟨⟨⟨⟨⟨lA, by omega⟩, by omega⟩, rfl⟩, rfl⟩, aA⟩, aB⟩, aC⟩

theorem all_notSpaceOrAt_iff (l : List Char) :
    l.all Main.notSpaceOrAt = true ↔
      (∀ c ∈ l, Main.isWhiteSpace c = false) ∧ l.count '@' = 0 := by
  simp only [List.all_eq_true, Main.notSpaceOrAt, Bool.and_eq_true, Bool.not_eq_true',
    bne_iff_ne, ne_eq, List.count_eq_zero]
  constructor
  · intro h
    exact ⟨fun c hc => (h c hc).1, fun hmem => (h '@' hmem).2 rfl⟩
  · rintro ⟨h1, h2⟩ c hc
    exact ⟨h1 c hc, fun e => h2 (e ▸ hc)⟩

end Email

/-- C26: `isValidEmail` accepts a string exactly when it contains no white-space
character (`\s`), contains exactly one `@`, has at least one character before the `@`,
and the part after the `@` contains a `.` with at least one character before it and at
least one after it. -/
theorem isValidEmail_accepts_iff (email : String) :
    Main.isValidEmail email = true ↔
      (∀ c ∈ email.toList, Main.isWhiteSpace c = false) ∧
      email.toList.count '@' = 1 ∧
      ∃ before after : List Char, email.toList = before ++ '@' :: after ∧ before ≠ [] ∧
        ∃ b c : List Char, after = b ++ '.' :: c ∧ b ≠ [] ∧ c ≠ [] := by
  rw [isValidEmail_iff_split]
  have hat : Main.isWhiteSpace '@' = false := by decide
  have hdot : Main.isWhiteSpace '.' = false := by decide
  have hne : ('.' : Char) ≠ '@' := by decide
  constructor
  · rintro ⟨A, B, C, hcs, hA, hB, hC, aA, aB, aC⟩
    obtain ⟨wA, cA⟩ := (all_notSpaceOrAt_iff A).mp aA
    obtain ⟨wB, cB⟩ := (all_notSpaceOrAt_iff B).mp aB
    obtain ⟨wC, cC⟩ := (all_notSpaceOrAt_iff C).mp aC
    refine ⟨?_, ?_, A, B ++ '.' :: C, hcs, hA, B, C, rfl, hB, hC⟩
    · intro c hc
      rw [hcs] at hc
      simp only [List.mem_append, List.mem_cons] at hc
      rcases hc with h | h | h | h | h
      · exact wA c h
      · rw [h]
        exact hat
      · exact wB c h
      · rw [h]
        exact hdot
      · exact wC c h
    · rw [hcs]
      simp only [List.count_append, List.count_cons, cA, cB, cC, beq_self_eq_true, if_true]
      simp [hne]
  · rintro ⟨hw, hcount, A, D, hcs, hA, B, C, hD, hB, hC⟩
    subst hD
    rw [hcs] at hw hcount
    simp only [List.count_append, List.count_cons, beq_self_eq_true, if_true] at hcount
    have hdotat : (('.' : Char) == '@') = false := by decide
    simp only [hdotat] at hcount
    refine ⟨A, B, C, hcs, hA, hB, hC, ?_, ?_, ?_⟩
    · exact (all_notSpaceOrAt_iff A).mpr
        ⟨fun c hc => hw c (by simp [hc]), by omega⟩
    · exact (all_notSpaceOrAt_iff B).mpr
        ⟨fun c hc => hw c (by simp [hc]), by omega⟩
    · exact (all_notSpaceOrAt_iff C).mpr
        ⟨fun c hc => hw c (by simp [hc]), by omega⟩

/-! ## The floating motion: lemmas -/

section Floating

variable {α : Type} [LinearOrderedField α]

theorem map_checkIntersections_of_preserved {β : Type} (π : GalleryItem α → β)
    (h1 : ∀ item, π (GlobeGalleryFixed.resetScale item) = π item)
    (h2 : ∀ item, π (GlobeGalleryFixed.highlight item) = π item)
    (ray : Mesh α → Option α) (g : Gallery α) :
    (GlobeGalleryFixed.checkIntersections ray g).galleryItems.map π = g.galleryItems.map π := by
  by_cases hvalid : validMeshes g.galleryItems = []
  · rw [checkIntersections_of_no_candidates ray g hvalid]
  · apply List.ext_getElem?
    intro k
    simp only [List.getElem?_map, getElem?_checkIntersections ray g hvalid k]
    cases g.galleryItems[k]? with
    | none => rfl
    | some item =>
      simp only [Option.map_some']
      split
      · split
        · rfl
        · rw [h2, h1]
      · rw [h1]

theorem placement_resetScale (item : GalleryItem α) :
    ((GlobeGalleryFixed.resetScale item).visible,
        (GlobeGalleryFixed.resetScale item).mesh.map (fun m => m.position)) =
      (item.visible, item.mesh.map (fun m => m.position)) := by
  simp only [GlobeGalleryFixed.resetScale]
  cases item.mesh <;> rfl

theorem placement_highlight (item : GalleryItem α) :
    ((GlobeGalleryFixed.highlight item).visible,
        (GlobeGalleryFixed.highlight item).mesh.map (fun m => m.position)) =
      (item.visible, item.mesh.map (fun m => m.position)) := by
  unfold GlobeGalleryFixed.highlight
  cases h : item.mesh <;> simp [h]

/-- A step of `animate` with orbit controls: where each item is afterwards. -/
theorem animate_placement (M : MathOps α) (frame : Frame α) (g : Gallery α)
    (hinit : g.isInitialized = true) (hcontrols : g.controls = true)
    (hupdate : frame.controlsUpdateThrows = false) (i : Nat) :
    (GlobeGalleryFixed.animate M frame g).galleryItems[i]?.map
        (fun item => (item.visible, item.mesh.map (fun m => m.position))) =
      g.galleryItems[i]?.map (fun item =>
        ((GlobeGalleryFixed.floatItem M frame.time i item).visible,
          (GlobeGalleryFixed.floatItem M frame.time i item).mesh.map (fun m => m.position))) := by
  have hrender : ∀ g0 : Gallery α,
      (GlobeGalleryFixed.render frame g0).galleryItems = g0.galleryItems := by
    intro g0
    have h := congrArg Gallery.galleryItems (render_frame frame g0)
    simp only at h
    exact h
  have hk := fun g0 : Gallery α => congrArg (fun l => l[i]?)
    (map_checkIntersections_of_preserved
      (fun item : GalleryItem α => (item.visible, item.mesh.map (fun m => m.position)))
      placement_resetScale placement_highlight frame.ray g0)
  simp only [List.getElem?_map] at hk
  unfold GlobeGalleryFixed.animate GlobeGalleryFixed.animateBody
  simp only [hinit, hcontrols, hupdate, Bool.not_true, Bool.false_eq_true, if_false]
  rw [hrender, hk]
  simp only [List.getElem?_mapIdx, Option.map_map]
  rfl

theorem floatPosition_finite (M : MathOps α) (time : α) (index : Nat) (x y z : α) :
    GlobeGalleryFixed.floatPosition M time index ⟨some x, some y, some z⟩ =
      ⟨some (x + (x + x * (1 / orOne (some (M.sqrt (x * x + y * y + z * z)))) *
          (M.sin (time + (index : α) * 0.2) * 0.02) - x) * 0.1),
        some (y + (y + y * (1 / orOne (some (M.sqrt (x * x + y * y + z * z)))) *
          (M.sin (time + (index : α) * 0.2) * 0.02) - y) * 0.1),
        some (z + (z + z * (1 / orOne (some (M.sqrt (x * x + y * y + z * z)))) *
          (M.sin (time + (index : α) * 0.2) * 0.02) - z) * 0.1)⟩ := by
  simp [GlobeGalleryFixed.floatPosition, Vector3.normalize, Vector3.length, Vector3.add,
    Vector3.lerp, Vector3.multiplyScalar]

end Floating

section FloatingReal

theorem sin_five_lt : Real.sin 5 < -(1 / 2) := by
  have hpi1 := Real.pi_gt_d2
  have hpi2 := Real.pi_lt_d2
  have h1 : Real.sin (2 * Real.pi - 5) = -Real.sin 5 := Real.sin_two_pi_sub 5
  have h2 : Real.sin (Real.pi / 6) < Real.sin (2 * Real.pi - 5) :=
    Real.sin_lt_sin_of_lt_of_le_pi_div_two (by linarith) (by linarith) (by linarith)
  rw [Real.sin_pi_div_six] at h2
  linarith

theorem sqrt_sum_pos (x y z : ℝ) (hp : ¬ (x = 0 ∧ y = 0 ∧ z = 0)) :
    0 < Real.sqrt (x * x + y * y + z * z) := by
  apply Real.sqrt_pos.mpr
  by_contra hneg
  have hx := mul_self_nonneg x
  have hy := mul_self_nonneg y
  have hz := mul_self_nonneg z
  have hx0 : x * x = 0 := by linarith
  have hy0 : y * y = 0 := by linarith
  have hz0 : z * z = 0 := by linarith
  exact hp ⟨mul_self_eq_zero.mp hx0, mul_self_eq_zero.mp hy0, mul_self_eq_zero.mp hz0⟩

/-- The floating motion in exact real arithmetic: the position is multiplied by
`c = 1 + d / L`, where `L` is its length and `d = 0.1 * (s * 0.02)`. -/
theorem float_real (x y z s L : ℝ) (hL : L = Real.sqrt (x * x + y * y + z * z))
    (hp : ¬ (x = 0 ∧ y = 0 ∧ z = 0)) (hs : |s| ≤ 1) :
    0 < L ∧ orOne (some L) = L ∧
      (∀ w : ℝ, w + (w + w * (1 / L) * (s * 0.02) - w) * 0.1 =
        w + 0.1 * (s * 0.02) * (w / L)) ∧
      (∀ w : ℝ, w + 0.1 * (s * 0.02) * (w / L) = (1 + 0.1 * (s * 0.02) / L) * w) ∧
      |Real.sqrt ((1 + 0.1 * (s * 0.02) / L) * x * ((1 + 0.1 * (s * 0.02) / L) * x) +
          (1 + 0.1 * (s * 0.02) / L) * y * ((1 + 0.1 * (s * 0.02) / L) * y) +
          (1 + 0.1 * (s * 0.02) / L) * z * ((1 + 0.1 * (s * 0.02) / L) * z)) - L| ≤ 0.002 ∧
      (0.002 < L → 0 < 1 + 0.1 * (s * 0.02) / L) ∧
      (0.002 ≤ L → 0 ≤ 1 + 0.1 * (s * 0.02) / L) := by
  have hpos : 0 < L := by
    rw [hL]
    exact sqrt_sum_pos x y z hp
  have hne : L ≠ 0 := ne_of_gt hpos
  have hs1 := abs_le.mp hs
  have hcL : (1 + 0.1 * (s * 0.02) / L) * L = L + 0.1 * (s * 0.02) := by
    field_simp
  refine ⟨hpos, ?_, ?_, ?_, ?_, ?_, ?_⟩
  · simp [orOne, hne]
  · intro w
    field_simp
    ring
  · intro w
    field_simp
    ring
  · have hsq : (1 + 0.1 * (s * 0.02) / L) * x * ((1 + 0.1 * (s * 0.02) / L) * x) +
        (1 + 0.1 * (s * 0.02) / L) * y * ((1 + 0.1 * (s * 0.02) / L) * y) +
        (1 + 0.1 * (s * 0.02) / L) * z * ((1 + 0.1 * (s * 0.02) / L) * z) =
        (1 + 0.1 * (s * 0.02) / L) * (1 + 0.1 * (s * 0.02) / L) * (x * x + y * y + z * z) := by
      ring
    rw [hsq, Real.sqrt_mul (mul_self_nonneg _), Real.sqrt_mul_self_eq_abs, ← hL]
    have habs : |1 + 0.1 * (s * 0.02) / L| * L = |L + 0.1 * (s * 0.02)| := by
      rw [← hcL, abs_mul, abs_of_pos hpos]
    rw [habs]
    have htri := abs_abs_sub_abs_le_abs_sub (L + 0.1 * (s * 0.02)) L
    rw [abs_of_pos hpos] at htri
    have hd : |L + 0.1 * (s * 0.02) - L| ≤ 0.002 := by
      rw [abs_le]
      constructor <;> linarith
    exact le_trans htri hd
  · intro hbig
    by_contra hneg
    have hle : 1 + 0.1 * (s * 0.02) / L ≤ 0 := not_lt.mp hneg
    have := mul_nonpos_of_nonpos_of_nonneg hle (le_of_lt hpos)
    rw [hcL] at this
    linarith
  · intro hbig
    by_contra hneg
    have hlt : 1 + 0.1 * (s * 0.02) / L < 0 := not_le.mp hneg
    have := mul_neg_of_neg_of_pos hlt hpos
    rw [hcL] at this
    linarith

end FloatingReal

/-! ## C23: the floating motion -/

/-- C23 (amended): in an animation step with orbit controls active, in exact real
arithmetic, every visible item with a mesh at a finite non-zero position `p` and list
index `i` is moved to `p + 0.1 * (sin(time + 0.2 * i) * 0.02) * p/|p|`, which is `c * p`
for `c = 1 + 0.1 * (sin(time + 0.2 * i) * 0.02) / |p|`; its distance from the centre
differs from `|p|` by at most 0.002; it lies on the same ray from the centre as `p`
(`c > 0`) whenever `|p| > 0.002`; items without a mesh or with `visible = false` are not
moved. -/
theorem floating_moves_along_ray (frame : Frame ℝ) (g : Gallery ℝ)
    (hinit : g.isInitialized = true) (hcontrols : g.controls = true)
    (hupdate : frame.controlsUpdateThrows = false) (i : Nat) (item : GalleryItem ℝ)
    (hitem : g.galleryItems[i]? = some item) :
    ∃ after : GalleryItem ℝ,
      (GlobeGalleryFixed.animate ⟨Real.pi, Real.sqrt, Real.cos, Real.sin⟩ frame
        g).galleryItems[i]? = some after ∧
      (item.mesh = none → after.mesh = none) ∧
      (item.visible = false →
        after.mesh.map (fun m => m.position) = item.mesh.map (fun m => m.position)) ∧
      (∀ (m : Mesh ℝ) (x y z : ℝ), item.mesh = some m → item.visible = true →
        m.position = ⟨some x, some y, some z⟩ → ¬ (x = 0 ∧ y = 0 ∧ z = 0) →
        ∃ nx ny nz c : ℝ,
          after.mesh.map (fun m => m.position) = some ⟨some nx, some ny, some nz⟩ ∧
          nx = x + 0.1 * (Real.sin (frame.time + 0.2 * i) * 0.02) *
            (x / Real.sqrt (x * x + y * y + z * z)) ∧
          ny = y + 0.1 * (Real.sin (frame.time + 0.2 * i) * 0.02) *
            (y / Real.sqrt (x * x + y * y + z * z)) ∧
          nz = z + 0.1 * (Real.sin (frame.time + 0.2 * i) * 0.02) *
            (z / Real.sqrt (x * x + y * y + z * z)) ∧
          c = 1 + 0.1 * (Real.sin (frame.time + 0.2 * i) * 0.02) /
            Real.sqrt (x * x + y * y + z * z) ∧
          nx = c * x ∧ ny = c * y ∧ nz = c * z ∧
          |Real.sqrt (nx * nx + ny * ny + nz * nz) - Real.sqrt (x * x + y * y + z * z)| ≤
            0.002 ∧
          (0.002 < Real.sqrt (x * x + y * y + z * z) → 0 < c) ∧
          (0.002 ≤ Real.sqrt (x * x + y * y + z * z) → 0 ≤ c)) := by
  have hpl := animate_placement (⟨Real.pi, Real.sqrt, Real.cos, Real.sin⟩ : MathOps ℝ) frame g
    hinit hcontrols hupdate i
  rw [hitem] at hpl
  cases hafter : (GlobeGalleryFixed.animate ⟨Real.pi, Real.sqrt, Real.cos, Real.sin⟩ frame
      g).galleryItems[i]? with
  | none =>
    rw [hafter] at hpl
    cases hpl
  | some after =>
    rw [hafter] at hpl
    simp only [Option.map_some', Option.some.injEq, Prod.mk.injEq] at hpl
    obtain ⟨_, hm⟩ := hpl
    refine ⟨after, rfl, ?_, ?_, ?_⟩
    · intro hnone
      have hsame : GlobeGalleryFixed.floatItem ⟨Real.pi, Real.sqrt, Real.cos, Real.sin⟩
          frame.time i item = item := by
        simp only [GlobeGalleryFixed.floatItem, hnone]
      rw [hsame, hnone] at hm
      simpa using hm
    · intro hvis
      have hsame : GlobeGalleryFixed.floatItem ⟨Real.pi, Real.sqrt, Real.cos, Real.sin⟩
          frame.time i item = item := by
        unfold GlobeGalleryFixed.floatItem
        cases item.mesh with
        | none => rfl
        | some m => simp [hvis]
      rw [hsame] at hm
      exact hm
    · intro m x y z hmesh hvis hpos hp
      have hfl : (GlobeGalleryFixed.floatItem ⟨Real.pi, Real.sqrt, Real.cos, Real.sin⟩
          frame.time i item).mesh.map (fun m => m.position) =
          some (GlobeGalleryFixed.floatPosition ⟨Real.pi, Real.sqrt, Real.cos, Real.sin⟩
            frame.time i ⟨some x, some y, some z⟩) := by
        simp [GlobeGalleryFixed.floatItem, hmesh, hvis, hpos]
      obtain ⟨_, horOne, e1, e2, hdist, hc1, hc2⟩ := float_real x y z
        (Real.sin (frame.time + 0.2 * i)) (Real.sqrt (x * x + y * y + z * z)) rfl hp
        (Real.abs_sin_le_one _)
      have harg : frame.time + (i : ℝ) * 0.2 = frame.time + 0.2 * i := by ring
      rw [hfl, floatPosition_finite] at hm
      simp only [harg, horOne, e1] at hm
      refine ⟨_, _, _, _, hm, rfl, rfl, rfl, rfl, e2 x, e2 y, e2 z, ?_, hc1, hc2⟩
      rw [e2 x, e2 y, e2 z]
      exact hdist

/-- Witness for C23: the visible item at `(2, 0, 0)` of the floating gallery at `time = 5`. -/
theorem floating_moves_along_ray_witness :
    (floatingGallery ℝ).isInitialized = true ∧ (floatingGallery ℝ).controls = true ∧
      (floatingFrame ℝ).controlsUpdateThrows = false ∧
      (floatingGallery ℝ).galleryItems[0]? =
        some { sampleItem ℝ 0 "city" with
          mesh := some { id := 0, position := ⟨some 2, some 0, some 0⟩, scale := ⟨1, 1, 1⟩ } } ∧
      ∃ after : GalleryItem ℝ,
        (GlobeGalleryFixed.animate ⟨Real.pi, Real.sqrt, Real.cos, Real.sin⟩ (floatingFrame ℝ)
          (floatingGallery ℝ)).galleryItems[0]? = some after ∧
        (({ sampleItem ℝ 0 "city" with
            mesh := some { id := 0, position := ⟨some 2, some 0, some 0⟩, scale := ⟨1, 1, 1⟩ } } :
            GalleryItem ℝ).mesh = none → after.mesh = none) ∧
        (({ sampleItem ℝ 0 "city" with
            mesh := some { id := 0, position := ⟨some 2, some 0, some 0⟩, scale := ⟨1, 1, 1⟩ } } :
            GalleryItem ℝ).visible = false →
          after.mesh.map (fun m => m.position) =
            ({ sampleItem ℝ 0 "city" with
              mesh := some { id := 0, position := ⟨some 2, some 0, some 0⟩,
                             scale := ⟨1, 1, 1⟩ } } : GalleryItem ℝ).mesh.map
              (fun m => m.position)) ∧
        (∀ (m : Mesh ℝ) (x y z : ℝ),
          ({ sampleItem ℝ 0 "city" with
            mesh := some { id := 0, position := ⟨some 2, some 0, some 0⟩, scale := ⟨1, 1, 1⟩ } } :
            GalleryItem ℝ).mesh = some m →
          ({ sampleItem ℝ 0 "city" with
            mesh := some { id := 0, position := ⟨some 2, some 0, some 0⟩, scale := ⟨1, 1, 1⟩ } } :
            GalleryItem ℝ).visible = true →
          m.position = ⟨some x, some y, some z⟩ → ¬ (x = 0 ∧ y = 0 ∧ z = 0) →
          ∃ nx ny nz c : ℝ,
            after.mesh.map (fun m => m.position) = some ⟨some nx, some ny, some nz⟩ ∧
            nx = x + 0.1 * (Real.sin ((floatingFrame ℝ).time + 0.2 * (0 : Nat)) * 0.02) *
              (x / Real.sqrt (x * x + y * y + z * z)) ∧
            ny = y + 0.1 * (Real.sin ((floatingFrame ℝ).time + 0.2 * (0 : Nat)) * 0.02) *
              (y / Real.sqrt (x * x + y * y + z * z)) ∧
            nz = z + 0.1 * (Real.sin ((floatingFrame ℝ).time + 0.2 * (0 : Nat)) * 0.02) *
              (z / Real.sqrt (x * x + y * y + z * z)) ∧
            c = 1 + 0.1 * (Real.sin ((floatingFrame ℝ).time + 0.2 * (0 : Nat)) * 0.02) /
              Real.sqrt (x * x + y * y + z * z) ∧
            nx = c * x ∧ ny = c * y ∧ nz = c * z ∧
            |Real.sqrt (nx * nx + ny * ny + nz * nz) - Real.sqrt (x * x + y * y + z * z)| ≤
              0.002 ∧
            (0.002 < Real.sqrt (x * x + y * y + z * z) → 0 < c) ∧
            (0.002 ≤ Real.sqrt (x * x + y * y + z * z) → 0 ≤ c)) :=
  ⟨rfl, rfl, rfl, rfl,
    floating_moves_along_ray (floatingFrame ℝ) (floatingGallery ℝ) rfl rfl rfl 0 _ rfl⟩

/-- Counterexample to C23 as stated: a visible item whose mesh is at the non-zero position
`(0.001, 0, 0)`, at `time = 5` and index 0, is moved to `(0.001 + 0.002 * sin 5, 0, 0)`,
whose first component is negative: the new position is on the opposite side of the
centre, not on the ray from the centre through `p`. -/
theorem floating_crosses_centre_counterexample :
    (nearCentreGallery ℝ).isInitialized = true ∧ (nearCentreGallery ℝ).controls = true ∧
      (floatingFrame ℝ).controlsUpdateThrows = false ∧ (floatingFrame ℝ).time = 5 ∧
      (nearCentreGallery ℝ).galleryItems.map
          (fun item => (item.visible, item.mesh.map (fun m => m.position))) =
        [(true, some ⟨some 0.001, some 0, some 0⟩)] ∧
      ∃ nx : ℝ,
        (GlobeGalleryFixed.animate ⟨Real.pi, Real.sqrt, Real.cos, Real.sin⟩ (floatingFrame ℝ)
          (nearCentreGallery ℝ)).galleryItems[0]?.map
            (fun item => item.mesh.map (fun m => m.position)) =
          some (some ⟨some nx, some 0, some 0⟩) ∧
        nx = 0.001 + 0.002 * Real.sin 5 ∧ nx < 0 := by
  refine ⟨rfl, rfl, rfl, rfl, rfl, 0.001 + 0.002 * Real.sin 5, ?_, rfl, ?_⟩
  · have hpl := animate_placement (⟨Real.pi, Real.sqrt, Real.cos, Real.sin⟩ : MathOps ℝ)
      (floatingFrame ℝ) (nearCentreGallery ℝ) rfl rfl rfl 0
    have hsqrt : Real.sqrt ((0.001 : ℝ) * 0.001) = 0.001 := Real.sqrt_mul_self (by norm_num)
    have hor : orOne (some (0.001 : ℝ)) = 0.001 := by
      have h0 : ¬ (0.001 : ℝ) = 0 := by norm_num
      simp only [orOne, if_neg h0]
    have hvis : ((true != false) = true) := by decide
    cases hafter : (GlobeGalleryFixed.animate ⟨Real.pi, Real.sqrt, Real.cos, Real.sin⟩
        (floatingFrame ℝ) (nearCentreGallery ℝ)).galleryItems[0]? with
    | none =>
      rw [hafter] at hpl
      cases hpl
    | some after =>
      rw [hafter] at hpl
      simp only [nearCentreGallery, floatingFrame, sampleItem, List.getElem?_cons_zero,
        Option.map_some', GlobeGalleryFixed.floatItem, floatPosition_finite, Nat.cast_zero,
        zero_mul, mul_zero, add_zero, hsqrt, hor, hvis, if_true, Option.some.injEq,
        Prod.mk.injEq] at hpl
      simp only [Option.map_some', hpl.2, Option.some.injEq, Vector3.mk.injEq]
      refine ⟨?_, ?_, ?_⟩
      · norm_num
        ring
      · norm_num
      · norm_num
  · have := sin_five_lt
    linarith

end Peregrinate
